import Mathlib

/-!
# CPUID policy engine (`xen/arch/x86/cpuid.c`): shallow embedding and properties

Machine words (`uint32_t`) are natural numbers; the complement is taken
modulo `2 ^ 32`.  The constants, tables and macros that `cpuid.c` takes from
headers (`INIT_KNOWN_FEATURES`, `INIT_DEEP_DEPS`, `FSCAPINTS`,
`X86_FEATURE_*`, ...) are the fields of `Config`.  Run-time globals and
hardware state are the fields of `Env`.  A failed `ASSERT`/`BUG_ON` is the
result `none`.
-/

namespace Xen

/-! ## Words and bitmaps -/

/-- The complement `~x` of a `uint32_t`. -/
def not32 (x : Nat) : Nat := 2 ^ 32 - 1 - x % 2 ^ 32

/-- Array read `a[i]` on an array of `uint32_t`. -/
def word (a : List Nat) (i : Nat) : Nat := a.getD i 0

/-- The bit test `test_bit(nr, addr)` on an array of `uint32_t` (little endian:
bit `nr` is bit `nr % 32` of word `nr / 32`). -/
def test_bit (nr : Nat) (addr : List Nat) : Bool := (word addr (nr / 32)).testBit (nr % 32)

/-- The header macro `cpufeat_bit(idx)`: position of a feature inside its word. -/
def cpufeat_bit (idx : Nat) : Nat := idx % 32

/-- The header macro `cpufeat_mask(idx)`: the word with only the feature's bit set. -/
def cpufeat_mask (idx : Nat) : Nat := 1 <<< cpufeat_bit idx

/-- The bit operation `__set_bit(nr, addr)`. -/
def __set_bit (nr : Nat) (addr : List Nat) : List Nat :=
  addr.set (nr / 32) (word addr (nr / 32) ||| 1 <<< (nr % 32))

/-- The bit operation `__clear_bit(nr, addr)`. -/
def __clear_bit (nr : Nat) (addr : List Nat) : List Nat :=
  addr.set (nr / 32) (word addr (nr / 32) &&& not32 (1 <<< (nr % 32)))

/-- A loop `for ( i = 0; i < n; ++i ) a[i] = f(i);` filling an array of `n` words. -/
def fill (n : Nat) (f : Nat → Nat) : List Nat := (List.range n).map f

/-- The macro `ROUNDUP(x, a)`. -/
def ROUNDUP (x a : Nat) : Nat := (x + a - 1) / a * a

/-- The iteration macro `for_each_set_bit(i, bitmap, size) body`: the indices
below `size` are scanned in increasing order and the body runs at each index
whose bit is set in the bitmap as it stands when the scan reaches that index
(the body may change the bitmap).  The body may fail. -/
def for_each_set_bit {σ : Type} (bitmap : σ → List Nat) (size : Nat)
    (body : Nat → σ → Option σ) (s : σ) : Option σ :=
  (List.range size).foldlM (fun st i => if test_bit i (bitmap st) then body i st else some st) s

/-- The loop `for_each_set_bit` with a log: the state is paired with the list of
the indices at which the body has run, in the order of the visits. -/
def for_each_set_bit.traced {σ : Type} (bitmap : σ → List Nat) (size : Nat)
    (body : Nat → σ → Option σ) (s : σ) : Option (List Nat × σ) :=
  for_each_set_bit (fun st : List Nat × σ => bitmap st.2) size
    (fun i st => (body i st.2).map (fun st' => (st.1 ++ [i], st'))) ([], s)

/-! ## Header constants -/

/-- One element of the table `deep_deps[]` in `lookup_deep_deps`. -/
structure deep_dep where
  feature : Nat
  fs : List Nat
deriving DecidableEq, Repr

/-- The compile-time constants and static tables of `cpuid.c` that come from
headers. -/
structure Config where
  FSCAPINTS : Nat
  FEATURESET_1d : Nat
  FEATURESET_1c : Nat
  FEATURESET_e1d : Nat
  FEATURESET_e1c : Nat
  FEATURESET_Da1 : Nat
  FEATURESET_7b0 : Nat
  FEATURESET_7c0 : Nat
  FEATURESET_e7d : Nat
  FEATURESET_e8b : Nat
  known_features : List Nat
  special_features : List Nat
  pv_featuremask : List Nat
  hvm_shadow_featuremask : List Nat
  hvm_hap_featuremask : List Nat
  deep_features : List Nat
  deep_deps : List deep_dep
  CPUID_COMMON_1D_FEATURES : Nat
  CPUID_GUEST_NR_BASIC : Nat
  CPUID_GUEST_NR_FEAT : Nat
  CPUID_GUEST_NR_XSTATE : Nat
  CPUID_GUEST_NR_EXTD : Nat
  MAX_CPUID_INPUT : Nat
  XEN_CPUID_INPUT_UNUSED : Nat
  ENOMEM : Nat
  X86_VENDOR_INTEL : Nat
  X86_VENDOR_AMD : Nat
  X86_CR4_OSXSAVE : Nat
  X86_CR4_PKE : Nat
  TRAP_invalid_op : Nat
  TRAP_gp_fault : Nat
  PAGE_SHIFT : Nat
  X86_FEATURE_PSE36 : Nat
  X86_FEATURE_APIC : Nat
  X86_FEATURE_SEP : Nat
  X86_FEATURE_MTRR : Nat
  X86_FEATURE_DS : Nat
  X86_FEATURE_HTT : Nat
  X86_FEATURE_DTES64 : Nat
  X86_FEATURE_MONITOR : Nat
  X86_FEATURE_DSCPL : Nat
  X86_FEATURE_EIST : Nat
  X86_FEATURE_X2APIC : Nat
  X86_FEATURE_XSAVE : Nat
  X86_FEATURE_OSXSAVE : Nat
  X86_FEATURE_AVX : Nat
  X86_FEATURE_HYPERVISOR : Nat
  X86_FEATURE_SYSCALL : Nat
  X86_FEATURE_LM : Nat
  X86_FEATURE_CMP_LEGACY : Nat
  X86_FEATURE_LWP : Nat
  X86_FEATURE_XSAVES : Nat
  X86_FEATURE_MPX : Nat
  X86_FEATURE_AVX512F : Nat
  X86_FEATURE_PKU : Nat
  X86_FEATURE_OSPKE : Nat
  X86_FEATURE_PAE : Nat
  X86_FEATURE_ITSC : Nat
  XSTATE_FP_SSE : Nat
  XSTATE_YMM : Nat
  XSTATE_BNDREGS : Nat
  XSTATE_BNDCSR : Nat
  XSTATE_OPMASK : Nat
  XSTATE_ZMM : Nat
  XSTATE_HI_ZMM : Nat
  XSTATE_PKRU : Nat
  XSTATE_LWP : Nat
  XSTATE_XSAVES_ONLY : Nat
  XSTATE_AREA_MIN_SIZE : Nat
  _XSTATE_YMM : Nat
  _XSTATE_BNDCSR : Nat
  _XSTATE_HI_ZMM : Nat
  _XSTATE_PKRU : Nat
  _XSTATE_LWP : Nat

/-- The leaf number `XSTATE_CPUID`. -/
def XSTATE_CPUID : Nat := 0xd

/-! ## `lookup_deep_deps` -/

/-- The binary search loop `while ( start < end )` of `lookup_deep_deps`, run
for at most `fuel` iterations.  The result is `some r` when the loop has ended
with the return value `r` of the function (`none` is `NULL`), and `none` when
the iterations allowed are used up before the loop ends. -/
def lookup_deep_deps.search (deep_deps : List deep_dep) (feature : Nat) :
    Nat → Nat → Nat → Option (Option (List Nat))
  | 0, _, _ => none
  | fuel + 1, start, stop =>
    if start < stop then
      let mid := start + (stop - start) / 2
      match deep_deps[mid]? with
      | none => some none
      | some e =>
        if e.feature > feature then lookup_deep_deps.search deep_deps feature fuel start mid
        else if e.feature < feature then
          lookup_deep_deps.search deep_deps feature fuel (mid + 1) stop
        else some (some e.fs)
    else some none

/-- The function `lookup_deep_deps(feature)`; `none` is `NULL`.  The loop is
allowed `length + 1` iterations, one more than the halving of the interval can
take. -/
def lookup_deep_deps (cfg : Config) (feature : Nat) : Option (List Nat) :=
  if !test_bit feature cfg.deep_features then none
  else
    match lookup_deep_deps.search cfg.deep_deps feature (cfg.deep_deps.length + 1) 0
        cfg.deep_deps.length with
    | some r => r
    | none => none

/-! ## `sanitise_featureset` -/

/-- Body of the `for_each_set_bit` loop of `sanitise_featureset`, on the pair
`(fs, disabled_features)`. -/
def sanitise_featureset.body (cfg : Config) (i : Nat) (st : List Nat × List Nat) :
    Option (List Nat × List Nat) :=
  match lookup_deep_deps cfg i with
  | none => none
  | some dfs =>
    some (fill cfg.FSCAPINTS (fun j => word st.1 j &&& not32 (word dfs j)),
          fill (ROUNDUP cfg.FSCAPINTS 2) (fun j =>
            if j < cfg.FSCAPINTS then word st.2 j &&& not32 (word dfs j) else word st.2 j))

/-- The function `sanitise_featureset(fs)`, returning the new contents of `fs`;
`none` when `ASSERT(dfs)` fails.  An `unsigned long` holds two `uint32_t`. -/
def sanitise_featureset (cfg : Config) (fs : List Nat) : Option (List Nat) :=
  let fs1 := fill cfg.FSCAPINTS (fun i => word fs i &&& word cfg.known_features i)
  let disabled_features := fill (ROUNDUP cfg.FSCAPINTS 2) (fun i =>
    if i < cfg.FSCAPINTS then not32 (word fs1 i) &&& word cfg.deep_features i else 0)
  match for_each_set_bit (fun st => st.2) (ROUNDUP cfg.FSCAPINTS 2 * 32)
      (sanitise_featureset.body cfg) (fs1, disabled_features) with
  | none => none
  | some (fs2, _) =>
    some (fs2.set cfg.FEATURESET_e1d
      ((word fs2 cfg.FEATURESET_1d &&& cfg.CPUID_COMMON_1D_FEATURES) |||
       (word fs2 cfg.FEATURESET_e1d &&& not32 cfg.CPUID_COMMON_1D_FEATURES)))

/-- The two loops of `sanitise_featureset` that come before the shared bits are
sorted out: the clamp to the known mask and the dependency pass, giving the pair
`(fs, disabled_features)` they leave. -/
def sanitise_featureset.pass (cfg : Config) (fs : List Nat) : Option (List Nat × List Nat) :=
  let fs1 := fill cfg.FSCAPINTS (fun i => word fs i &&& word cfg.known_features i)
  let disabled_features := fill (ROUNDUP cfg.FSCAPINTS 2) (fun i =>
    if i < cfg.FSCAPINTS then not32 (word fs1 i) &&& word cfg.deep_features i else 0)
  for_each_set_bit (fun st => st.2) (ROUNDUP cfg.FSCAPINTS 2 * 32)
    (sanitise_featureset.body cfg) (fs1, disabled_features)

/-- The clamp and the dependency pass of `sanitise_featureset` with the log of
the indices visited by its `for_each_set_bit` loop. -/
def sanitise_featureset.visited (cfg : Config) (fs : List Nat) :
    Option (List Nat × (List Nat × List Nat)) :=
  let fs1 := fill cfg.FSCAPINTS (fun i => word fs i &&& word cfg.known_features i)
  let disabled_features := fill (ROUNDUP cfg.FSCAPINTS 2) (fun i =>
    if i < cfg.FSCAPINTS then not32 (word fs1 i) &&& word cfg.deep_features i else 0)
  for_each_set_bit.traced (fun st => st.2) (ROUNDUP cfg.FSCAPINTS 2 * 32)
    (sanitise_featureset.body cfg) (fs1, disabled_features)

/-! ## Leaves and policies -/

/-- The register quadruple `struct cpuid_leaf`. -/
structure cpuid_leaf where
  a : Nat
  b : Nat
  c : Nat
  d : Nat
deriving DecidableEq, Repr

/-- The constant `EMPTY_LEAF`. -/
def EMPTY_LEAF : cpuid_leaf := ⟨0, 0, 0, 0⟩

/-- One toolstack override slot `xen_domctl_cpuid_t` (`input[0]`, `input[1]`
and the four registers). -/
structure xen_domctl_cpuid where
  input0 : Nat
  input1 : Nat
  eax : Nat
  ebx : Nat
  ecx : Nat
  edx : Nat
deriving DecidableEq, Repr

/-- Write to one element of an array of leaves. -/
def upd (raw : Nat → cpuid_leaf) (i : Nat) (f : cpuid_leaf → cpuid_leaf) : Nat → cpuid_leaf :=
  fun j => if j = i then f (raw i) else raw j

/-- The member `basic` of `struct cpuid_policy`: the array `raw[]`, of which
the named fields are views. -/
structure basic_t where
  raw : Nat → cpuid_leaf

/-- The member `feat` of `struct cpuid_policy`. -/
structure feat_t where
  raw : Nat → cpuid_leaf

/-- The member `xstate` of `struct cpuid_policy`. -/
structure xstate_t where
  raw : Nat → cpuid_leaf

/-- The member `extd` of `struct cpuid_policy`. -/
structure extd_t where
  raw : Nat → cpuid_leaf

/-- The aggregate `struct cpuid_policy`. -/
structure cpuid_policy where
  basic : basic_t
  feat : feat_t
  xstate : xstate_t
  extd : extd_t
  legacy : Nat → xen_domctl_cpuid
  x86_vendor : Nat

/-- Modelled from the spec: the declaration of `struct cpuid_policy` is not in
the sources; `basic.max_leaf` is register `a` of basic leaf 0. -/
def basic_t.max_leaf (s : basic_t) : Nat := (s.raw 0).a

/-- Modelled from the spec: the declaration of `struct cpuid_policy` is not in
the sources; `basic._1c` is register `c` of basic leaf 1. -/
def basic_t._1c (s : basic_t) : Nat := (s.raw 1).c

/-- Modelled from the spec: the declaration of `struct cpuid_policy` is not in
the sources; `basic._1d` is register `d` of basic leaf 1. -/
def basic_t._1d (s : basic_t) : Nat := (s.raw 1).d

/-- Modelled from the spec: the declaration of `struct cpuid_policy` is not in
the sources; `feat.max_subleaf` is register `a` of subleaf 0 of leaf 7. -/
def feat_t.max_subleaf (s : feat_t) : Nat := (s.raw 0).a

/-- Modelled from the spec: the declaration of `struct cpuid_policy` is not in
the sources; `feat._7b0` is register `b` of subleaf 0 of leaf 7. -/
def feat_t._7b0 (s : feat_t) : Nat := (s.raw 0).b

/-- Modelled from the spec: the declaration of `struct cpuid_policy` is not in
the sources; `feat._7c0` is register `c` of subleaf 0 of leaf 7. -/
def feat_t._7c0 (s : feat_t) : Nat := (s.raw 0).c

/-- Modelled from the spec: the declaration of `struct cpuid_policy` is not in
the sources; `xstate.xcr0_low` is register `a` of subleaf 0 of leaf 0xd. -/
def xstate_t.xcr0_low (s : xstate_t) : Nat := (s.raw 0).a

/-- Modelled from the spec: the declaration of `struct cpuid_policy` is not in
the sources; `xstate.max_size` is register `c` of subleaf 0 of leaf 0xd. -/
def xstate_t.max_size (s : xstate_t) : Nat := (s.raw 0).c

/-- Modelled from the spec: the declaration of `struct cpuid_policy` is not in
the sources; `xstate.xcr0_high` is register `d` of subleaf 0 of leaf 0xd. -/
def xstate_t.xcr0_high (s : xstate_t) : Nat := (s.raw 0).d

/-- Modelled from the spec: the declaration of `struct cpuid_policy` is not in
the sources; `xstate.Da1` is register `a` of subleaf 1 of leaf 0xd. -/
def xstate_t.Da1 (s : xstate_t) : Nat := (s.raw 1).a

/-- Modelled from the spec: the declaration of `struct cpuid_policy` is not in
the sources; `xstate.xss_low` is register `c` of subleaf 1 of leaf 0xd. -/
def xstate_t.xss_low (s : xstate_t) : Nat := (s.raw 1).c

/-- Modelled from the spec: the declaration of `struct cpuid_policy` is not in
the sources; `xstate.xss_high` is register `d` of subleaf 1 of leaf 0xd. -/
def xstate_t.xss_high (s : xstate_t) : Nat := (s.raw 1).d

/-- Modelled from the spec: the declaration of `struct cpuid_policy` is not in
the sources; `extd.max_leaf` is register `a` of extended leaf 0x80000000. -/
def extd_t.max_leaf (s : extd_t) : Nat := (s.raw 0).a

/-- Modelled from the spec: the declaration of `struct cpuid_policy` is not in
the sources; `extd.e1c` is register `c` of extended leaf 0x80000001. -/
def extd_t.e1c (s : extd_t) : Nat := (s.raw 1).c

/-- Modelled from the spec: the declaration of `struct cpuid_policy` is not in
the sources; `extd.e1d` is register `d` of extended leaf 0x80000001. -/
def extd_t.e1d (s : extd_t) : Nat := (s.raw 1).d

/-- Modelled from the spec: the declaration of `struct cpuid_policy` is not in
the sources; `extd.e7d` is register `d` of extended leaf 0x80000007. -/
def extd_t.e7d (s : extd_t) : Nat := (s.raw 7).d

/-- Modelled from the spec: the declaration of `struct cpuid_policy` is not in
the sources; `extd.e8b` is register `b` of extended leaf 0x80000008. -/
def extd_t.e8b (s : extd_t) : Nat := (s.raw 8).b

/-- Modelled from the spec: the bitfields of `struct cpuid_policy` are not in
the sources; a feature bitfield of a feature word is the bit of that word at the
feature's position `cpufeat_bit`. -/
def bitfield (w : Nat) (feature : Nat) : Bool := w.testBit (cpufeat_bit feature)

/-- The bitfield `basic.xsave` (in word `_1c`). -/
def basic_t.xsave (cfg : Config) (s : basic_t) : Bool := bitfield s._1c cfg.X86_FEATURE_XSAVE

/-- The bitfield `basic.avx` (in word `_1c`). -/
def basic_t.avx (cfg : Config) (s : basic_t) : Bool := bitfield s._1c cfg.X86_FEATURE_AVX

/-- The bitfield `basic.sep` (in word `_1d`). -/
def basic_t.sep (cfg : Config) (s : basic_t) : Bool := bitfield s._1d cfg.X86_FEATURE_SEP

/-- The bitfield `basic.pae` (in word `_1d`). -/
def basic_t.pae (cfg : Config) (s : basic_t) : Bool := bitfield s._1d cfg.X86_FEATURE_PAE

/-- The bitfield `basic.pse36` (in word `_1d`). -/
def basic_t.pse36 (cfg : Config) (s : basic_t) : Bool := bitfield s._1d cfg.X86_FEATURE_PSE36

/-- The bitfield `feat.mpx` (in word `_7b0`). -/
def feat_t.mpx (cfg : Config) (s : feat_t) : Bool := bitfield s._7b0 cfg.X86_FEATURE_MPX

/-- The bitfield `feat.avx512f` (in word `_7b0`). -/
def feat_t.avx512f (cfg : Config) (s : feat_t) : Bool := bitfield s._7b0 cfg.X86_FEATURE_AVX512F

/-- The bitfield `feat.pku` (in word `_7c0`). -/
def feat_t.pku (cfg : Config) (s : feat_t) : Bool := bitfield s._7c0 cfg.X86_FEATURE_PKU

/-- The bitfield `extd.lwp` (in word `e1c`). -/
def extd_t.lwp (cfg : Config) (s : extd_t) : Bool := bitfield s.e1c cfg.X86_FEATURE_LWP

/-- The bitfield `extd.lm` (in word `e1d`). -/
def extd_t.lm (cfg : Config) (s : extd_t) : Bool := bitfield s.e1d cfg.X86_FEATURE_LM

/-- The bitfield `xstate.xsaves` (in word `Da1`). -/
def xstate_t.xsaves (cfg : Config) (s : xstate_t) : Bool := bitfield s.Da1 cfg.X86_FEATURE_XSAVES

/-- Modelled from the spec: the inline function `cpuid_policy_to_featureset`
is not in the sources; it converts a policy to a featureset by copying each
feature word of the policy to its featureset slot. -/
def cpuid_policy_to_featureset (cfg : Config) (p : cpuid_policy) : List Nat :=
  let fs := fill cfg.FSCAPINTS (fun _ => 0)
  let fs := fs.set cfg.FEATURESET_1d p.basic._1d
  let fs := fs.set cfg.FEATURESET_1c p.basic._1c
  let fs := fs.set cfg.FEATURESET_e1d p.extd.e1d
  let fs := fs.set cfg.FEATURESET_e1c p.extd.e1c
  let fs := fs.set cfg.FEATURESET_Da1 p.xstate.Da1
  let fs := fs.set cfg.FEATURESET_7b0 p.feat._7b0
  let fs := fs.set cfg.FEATURESET_7c0 p.feat._7c0
  let fs := fs.set cfg.FEATURESET_e7d p.extd.e7d
  fs.set cfg.FEATURESET_e8b p.extd.e8b

/-- Modelled from the spec: the inline function `cpuid_featureset_to_policy`
is not in the sources; it writes a featureset back into leaf form by copying
each featureset slot to its feature word of the policy. -/
def cpuid_featureset_to_policy (cfg : Config) (fs : List Nat) (p : cpuid_policy) :
    cpuid_policy :=
  { p with
    basic := ⟨upd p.basic.raw 1 (fun l =>
      { l with d := word fs cfg.FEATURESET_1d, c := word fs cfg.FEATURESET_1c })⟩
    extd := ⟨upd (upd (upd p.extd.raw 1 (fun l =>
      { l with d := word fs cfg.FEATURESET_e1d, c := word fs cfg.FEATURESET_e1c }))
      7 (fun l => { l with d := word fs cfg.FEATURESET_e7d }))
      8 (fun l => { l with b := word fs cfg.FEATURESET_e8b })⟩
    xstate := ⟨upd p.xstate.raw 1 (fun l => { l with a := word fs cfg.FEATURESET_Da1 })⟩
    feat := ⟨upd p.feat.raw 0 (fun l =>
      { l with b := word fs cfg.FEATURESET_7b0, c := word fs cfg.FEATURESET_7c0 })⟩ }

/-! ## Domains, virtual CPUs and the environment -/

/-- The fields and predicates of `struct domain` that `cpuid.c` reads. -/
structure domain where
  is_pv_domain : Bool
  is_pvh_domain : Bool
  is_hvm_domain : Bool
  is_pv_32bit_domain : Bool
  hap_enabled : Bool
  is_control_domain : Bool
  is_hardware_domain : Bool
  is_viridian_domain : Bool
  disable_migrate : Bool
  vtsc : Bool
  gfn_bits : Nat
  cpuid : cpuid_policy

/-- The fields and predicates of `struct vcpu` that `cpuid.c` reads. -/
structure vcpu where
  vcpu_id : Nat
  domain : domain
  pv_ctrlreg4 : Nat
  hvm_guest_cr4 : Nat
  vlapic_hw_disabled : Bool
  hvm_pae_enabled : Bool
  hvm_long_mode_enabled : Bool
  vpmu_enabled : Bool
  vpmu_cpu_has_ds : Bool
  xcr0 : Nat
  guest_lwp_cfg : Nat

/-- Global variables, hardware state and external collaborators.  Virtual CPUs
are named by their address; `current` is the address of the executing one. -/
structure Env where
  vcpus : Nat → vcpu
  current : Nat
  cpuid_count : Nat → Nat → cpuid_leaf
  read_cr4 : Nat
  entry_vector : Nat
  guest_kernel_mode : Bool
  boot_cpu_data_x86_vendor : Nat
  x86_capability : List Nat
  hvm_enabled : Bool
  hap_supported : Bool
  cpu_has_vmx : Bool
  cpu_has_vmx_mpx : Bool
  cpu_has_vmx_xsaves : Bool
  cpu_has_svm : Bool
  cpu_has_lwp : Bool
  cpu_has_itsc : Bool
  cpu_has_mtrr : Bool
  cpu_has_monitor : Bool
  cpu_has_eist : Bool
  cpu_has_dtes64 : Bool
  cpu_has_dscpl : Bool
  paddr_bits : Nat
  vaddr_bits : Nat
  xstate_offsets : Nat → Nat
  xstate_sizes : Nat → Nat
  xstate_align : Nat
  cpuid_viridian_leaves : Nat → Nat → Nat → cpuid_leaf → cpuid_leaf
  cpuid_hypervisor_leaves : Nat → Nat → Nat → cpuid_leaf → cpuid_leaf
  raw_policy : cpuid_policy
  host_policy : cpuid_policy
  pv_max_policy : cpuid_policy
  hvm_max_policy : cpuid_policy

/-- The helper `cpuid_leaf(leaf, data)`: the instruction with subleaf 0. -/
def cpuid_leaf_hw (env : Env) (leaf : Nat) : cpuid_leaf := env.cpuid_count leaf 0

/-- The helper `cpuid_count_leaf(leaf, subleaf, data)`. -/
def cpuid_count_leaf (env : Env) (leaf subleaf : Nat) : cpuid_leaf := env.cpuid_count leaf subleaf

/-- The helper `cpuid_count_ebx(leaf, subleaf)`. -/
def cpuid_count_ebx (env : Env) (leaf subleaf : Nat) : Nat := (env.cpuid_count leaf subleaf).b

/-! ## `recalculate_xstate` -/

/-- The complement `~x` of a `uint64_t`. -/
def not64 (x : Nat) : Nat := 2 ^ 64 - 1 - x % 2 ^ 64

/-- One optional extension of `recalculate_xstate`: when the feature is present,
or its state components into `xstates` and raise `xstate_size`. -/
def recalculate_xstate.ext (env : Env) (present : Bool) (mask comp : Nat) (acc : Nat × Nat) :
    Nat × Nat :=
  if present then
    (acc.1 ||| mask, max acc.2 ((env.xstate_offsets comp + env.xstate_sizes comp) % 2 ^ 32))
  else acc

/-- Modelled from the spec: the declaration of `xstate.comp[]` is not in the
sources; a component entry overlays leaf `i` with `size` in register `a`,
`offset` in register `b` and the flags `xss`, `align` in bits 0 and 1 of
register `c`. -/
def comp_write (l : cpuid_leaf) (size offset : Nat) (xss align : Bool) : cpuid_leaf :=
  { l with a := size, b := offset,
           c := (l.c &&& not32 3) ||| (if xss then 1 else 0) ||| (if align then 2 else 0) }

/-- The five optional extensions of `recalculate_xstate`, giving the pair
`(xstates, xstate_size)`. -/
def recalculate_xstate.features (cfg : Config) (env : Env) (p : cpuid_policy) : Nat × Nat :=
  let acc : Nat × Nat := (cfg.XSTATE_FP_SSE, cfg.XSTATE_AREA_MIN_SIZE)
  let acc := recalculate_xstate.ext env (p.basic.avx cfg) cfg.XSTATE_YMM cfg._XSTATE_YMM acc
  let acc := recalculate_xstate.ext env (p.feat.mpx cfg)
    (cfg.XSTATE_BNDREGS ||| cfg.XSTATE_BNDCSR) cfg._XSTATE_BNDCSR acc
  let acc := recalculate_xstate.ext env (p.feat.avx512f cfg)
    (cfg.XSTATE_OPMASK ||| cfg.XSTATE_ZMM ||| cfg.XSTATE_HI_ZMM) cfg._XSTATE_HI_ZMM acc
  let acc := recalculate_xstate.ext env (p.feat.pku cfg) cfg.XSTATE_PKRU cfg._XSTATE_PKRU acc
  recalculate_xstate.ext env (p.extd.lwp cfg) cfg.XSTATE_LWP cfg._XSTATE_LWP acc

/-- One iteration of the component loop of `recalculate_xstate`. -/
def recalculate_xstate.comp_step (cfg : Config) (env : Env) (xstates : Nat)
    (x : Nat → cpuid_leaf) (i : Nat) : Nat → cpuid_leaf :=
  let curr_xstate := 1 <<< i
  if xstates &&& curr_xstate = 0 then x
  else upd x i (fun l => comp_write l (env.xstate_sizes i) (env.xstate_offsets i)
    (curr_xstate &&& cfg.XSTATE_XSAVES_ONLY != 0) (curr_xstate &&& env.xstate_align != 0))

/-- The component loop `for ( i = 2; i < min(63ul, ARRAY_SIZE(p->xstate.comp)); ++i )`
of `recalculate_xstate`. -/
def recalculate_xstate.comp (cfg : Config) (env : Env) (xstates : Nat)
    (x : Nat → cpuid_leaf) : Nat → cpuid_leaf :=
  (List.range' 2 (min 63 cfg.CPUID_GUEST_NR_XSTATE - 2)).foldl
    (recalculate_xstate.comp_step cfg env xstates) x

/-- The function `recalculate_xstate(p)`. -/
def recalculate_xstate (cfg : Config) (env : Env) (p : cpuid_policy) : cpuid_policy :=
  let Da1 := p.xstate.Da1
  let p : cpuid_policy := { p with xstate := ⟨fun _ => EMPTY_LEAF⟩ }
  if !p.basic.xsave cfg then p
  else
    let acc := recalculate_xstate.features cfg env p
    let xstates := acc.1
    let x := upd p.xstate.raw 0 (fun l =>
      { l with c := acc.2,
               a := (xstates &&& not64 cfg.XSTATE_XSAVES_ONLY) % 2 ^ 32,
               d := ((xstates &&& not64 cfg.XSTATE_XSAVES_ONLY) >>> 32) % 2 ^ 32 })
    let x := upd x 1 (fun l => { l with a := Da1 })
    let xsaves := xstate_t.xsaves cfg ⟨x⟩
    let x := if xsaves then
        upd x 1 (fun l =>
          { l with c := (xstates &&& cfg.XSTATE_XSAVES_ONLY) % 2 ^ 32,
                   d := ((xstates &&& cfg.XSTATE_XSAVES_ONLY) >>> 32) % 2 ^ 32 })
      else x
    let xstates := if xsaves then xstates else xstates &&& not64 cfg.XSTATE_XSAVES_ONLY
    { p with xstate := ⟨recalculate_xstate.comp cfg env xstates x⟩ }

/-- The enabled mask `E` of the extended-state header in the words of the
specification: XSTATE_FP_SSE, plus the state components of each of the features
AVX, MPX, AVX512F, PKU and LWP that the policy has. -/
def spec_enabled_mask (cfg : Config) (p : cpuid_policy) : Nat :=
  cfg.XSTATE_FP_SSE |||
  (if p.basic.avx cfg then cfg.XSTATE_YMM else 0) |||
  (if p.feat.mpx cfg then cfg.XSTATE_BNDREGS ||| cfg.XSTATE_BNDCSR else 0) |||
  (if p.feat.avx512f cfg then cfg.XSTATE_OPMASK ||| cfg.XSTATE_ZMM ||| cfg.XSTATE_HI_ZMM
    else 0) |||
  (if p.feat.pku cfg then cfg.XSTATE_PKRU else 0) |||
  (if p.extd.lwp cfg then cfg.XSTATE_LWP else 0)

/-- The state components that bound the area size in the words of the
specification: YMM if AVX, BNDCSR if MPX, HI_ZMM if AVX512F, PKRU if PKU, LWP
if LWP. -/
def spec_sized_components (cfg : Config) (p : cpuid_policy) : List Nat :=
  (if p.basic.avx cfg then [cfg._XSTATE_YMM] else []) ++
  (if p.feat.mpx cfg then [cfg._XSTATE_BNDCSR] else []) ++
  (if p.feat.avx512f cfg then [cfg._XSTATE_HI_ZMM] else []) ++
  (if p.feat.pku cfg then [cfg._XSTATE_PKRU] else []) ++
  (if p.extd.lwp cfg then [cfg._XSTATE_LWP] else [])

/-- The area size in the words of the specification: the maximum of
`XSTATE_AREA_MIN_SIZE` and `xstate_offsets[c] + xstate_sizes[c]` (an `unsigned
int` sum) over the components `c` that bound it. -/
def spec_area_size (cfg : Config) (env : Env) (p : cpuid_policy) : Nat :=
  (spec_sized_components cfg p).foldl
    (fun m c => max m ((env.xstate_offsets c + env.xstate_sizes c) % 2 ^ 32))
    cfg.XSTATE_AREA_MIN_SIZE

/-- The final enabled mask in the words of the specification: `xcr0` together
with `xss`, where `xss` holds the `XSTATE_XSAVES_ONLY` part of `E` when the
policy has XSAVES and nothing otherwise. -/
def spec_final_mask (cfg : Config) (p : cpuid_policy) : Nat :=
  (spec_enabled_mask cfg p &&& not64 cfg.XSTATE_XSAVES_ONLY) |||
  (if p.xstate.xsaves cfg then spec_enabled_mask cfg p &&& cfg.XSTATE_XSAVES_ONLY else 0)

/-! ## Boot-time policies -/

/-- Assignment to `basic.max_leaf`. -/
def cpuid_policy.set_basic_max_leaf (p : cpuid_policy) (v : Nat) : cpuid_policy :=
  { p with basic := ⟨upd p.basic.raw 0 (fun l => { l with a := v })⟩ }

/-- Assignment to `feat.max_subleaf`. -/
def cpuid_policy.set_feat_max_subleaf (p : cpuid_policy) (v : Nat) : cpuid_policy :=
  { p with feat := ⟨upd p.feat.raw 0 (fun l => { l with a := v })⟩ }

/-- Assignment to `extd.max_leaf`. -/
def cpuid_policy.set_extd_max_leaf (p : cpuid_policy) (v : Nat) : cpuid_policy :=
  { p with extd := ⟨upd p.extd.raw 0 (fun l => { l with a := v })⟩ }

/-- The function `calculate_host_policy()`, returning the new `host_policy`. -/
def calculate_host_policy (cfg : Config) (env : Env) : cpuid_policy :=
  let p := env.raw_policy
  let p := p.set_basic_max_leaf (min p.basic.max_leaf ((cfg.CPUID_GUEST_NR_BASIC - 1) % 2 ^ 32))
  let p := p.set_feat_max_subleaf (min p.feat.max_subleaf ((cfg.CPUID_GUEST_NR_FEAT - 1) % 2 ^ 32))
  let p := p.set_extd_max_leaf
    (min p.extd.max_leaf ((0x80000000 + cfg.CPUID_GUEST_NR_EXTD - 1) % 2 ^ 32))
  let p := cpuid_featureset_to_policy cfg env.x86_capability p
  recalculate_xstate cfg env p

/-- The featureset `pv_featureset` that `calculate_pv_max_policy` hands to
`sanitise_featureset`. -/
def calculate_pv_max_policy.featureset (cfg : Config) (env : Env) : List Nat :=
  let p := env.host_policy
  let pv_featureset := cpuid_policy_to_featureset cfg p
  let pv_featureset := fill cfg.FSCAPINTS (fun i => word pv_featureset i &&& word cfg.pv_featuremask i)
  __set_bit cfg.X86_FEATURE_HYPERVISOR pv_featureset

/-- The function `calculate_pv_max_policy()`, returning the new `pv_max_policy`. -/
def calculate_pv_max_policy (cfg : Config) (env : Env) : Option cpuid_policy :=
  let p := env.host_policy
  match sanitise_featureset cfg (calculate_pv_max_policy.featureset cfg env) with
  | none => none
  | some pv_featureset =>
    some (recalculate_xstate cfg env (cpuid_featureset_to_policy cfg pv_featureset p))

/-- The featureset `hvm_featureset` that `calculate_hvm_max_policy` hands to
`sanitise_featureset`. -/
def calculate_hvm_max_policy.featureset (cfg : Config) (env : Env) : List Nat :=
  let p := env.host_policy
  let hvm_featureset := cpuid_policy_to_featureset cfg p
  let hvm_featuremask :=
    if env.hap_supported then cfg.hvm_hap_featuremask else cfg.hvm_shadow_featuremask
  let hvm_featureset :=
    fill cfg.FSCAPINTS (fun i => word hvm_featureset i &&& word hvm_featuremask i)
  let hvm_featureset := __set_bit cfg.X86_FEATURE_HYPERVISOR hvm_featureset
  let hvm_featureset := __set_bit cfg.X86_FEATURE_APIC hvm_featureset
  let hvm_featureset :=
    if env.boot_cpu_data_x86_vendor = cfg.X86_VENDOR_AMD && env.raw_policy.basic.sep cfg then
      __set_bit cfg.X86_FEATURE_SEP hvm_featureset
    else hvm_featureset
  if env.cpu_has_vmx then
    let fs := if !env.cpu_has_vmx_mpx then __clear_bit cfg.X86_FEATURE_MPX hvm_featureset
      else hvm_featureset
    if !env.cpu_has_vmx_xsaves then __clear_bit cfg.X86_FEATURE_XSAVES fs else fs
  else hvm_featureset

/-- The function `calculate_hvm_max_policy()`, returning the new `hvm_max_policy`. -/
def calculate_hvm_max_policy (cfg : Config) (env : Env) : Option cpuid_policy :=
  if !env.hvm_enabled then some env.hvm_max_policy
  else
    let p := env.host_policy
    match sanitise_featureset cfg (calculate_hvm_max_policy.featureset cfg env) with
    | none => none
    | some hvm_featureset =>
      some (recalculate_xstate cfg env (cpuid_featureset_to_policy cfg hvm_featureset p))

/-- The function `calculate_raw_policy()`, returning the new `raw_policy`. -/
def calculate_raw_policy (cfg : Config) (env : Env) : cpuid_policy :=
  let p := env.raw_policy
  let b := upd p.basic.raw 0 (fun _ => cpuid_leaf_hw env 0)
  let b := (List.range' 1 (min cfg.CPUID_GUEST_NR_BASIC ((b 0).a + 1) - 1)).foldl (fun b i =>
    if i = 0x2 ∨ i = 0x4 ∨ i = 0x7 ∨ i = 0xd then b else upd b i (fun _ => cpuid_leaf_hw env i)) b
  let p : cpuid_policy := { p with basic := ⟨b⟩ }
  let p : cpuid_policy :=
    if p.basic.max_leaf ≥ 7 then
      let f := upd p.feat.raw 0 (fun _ => cpuid_count_leaf env 7 0)
      let f := (List.range' 1 (min cfg.CPUID_GUEST_NR_FEAT ((f 0).a + 1) - 1)).foldl (fun f i =>
        upd f i (fun _ => cpuid_count_leaf env 7 i)) f
      { p with feat := ⟨f⟩ }
    else p
  let p : cpuid_policy :=
    if p.basic.max_leaf ≥ XSTATE_CPUID then
      let x := upd p.xstate.raw 0 (fun _ => cpuid_count_leaf env XSTATE_CPUID 0)
      let x := upd x 1 (fun _ => cpuid_count_leaf env XSTATE_CPUID 1)
      let xs : xstate_t := ⟨x⟩
      let xstates := ((xs.xcr0_high ||| xs.xss_high) <<< 32) ||| (xs.xcr0_low ||| xs.xss_low)
      let x := (List.range' 2 (min 63 cfg.CPUID_GUEST_NR_XSTATE - 2)).foldl (fun x i =>
        if xstates &&& (1 <<< i) ≠ 0 then upd x i (fun _ => cpuid_count_leaf env XSTATE_CPUID i)
        else x) x
      { p with xstate := ⟨x⟩ }
    else p
  let e := upd p.extd.raw 0 (fun _ => cpuid_leaf_hw env 0x80000000)
  let e := (List.range' 1 (min cfg.CPUID_GUEST_NR_EXTD
      ((((e 0).a + 1) % 2 ^ 32 + 2 ^ 64 - 0x80000000) % 2 ^ 64) - 1)).foldl (fun e i =>
    upd e i (fun _ => cpuid_leaf_hw env (0x80000000 + i))) e
  { p with extd := ⟨e⟩, x86_vendor := env.boot_cpu_data_x86_vendor }

/-- The function `init_guest_cpuid()`, returning the environment with the four
boot-time policies installed. -/
def init_guest_cpuid (cfg : Config) (env : Env) : Option Env :=
  let env := { env with raw_policy := calculate_raw_policy cfg env }
  let env := { env with host_policy := calculate_host_policy cfg env }
  match calculate_pv_max_policy cfg env with
  | none => none
  | some pv =>
    let env := { env with pv_max_policy := pv }
    match calculate_hvm_max_policy cfg env with
    | none => none
    | some hvm => some { env with hvm_max_policy := hvm }

/-! ## Per-domain policy -/

/-- The max policy of the domain's mode, `max` in `recalculate_cpuid_policy`. -/
def recalculate_cpuid_policy.max (env : Env) (d : domain) : cpuid_policy :=
  if d.is_pv_domain then env.pv_max_policy else env.hvm_max_policy

/-- First step of `recalculate_cpuid_policy`: the three maxima of the domain's
policy are clamped to those of the max policy. -/
def recalculate_cpuid_policy.maxima (env : Env) (d : domain) : cpuid_policy :=
  let p := d.cpuid
  let max := recalculate_cpuid_policy.max env d
  let p := p.set_basic_max_leaf (min p.basic.max_leaf max.basic.max_leaf)
  let p := p.set_feat_max_subleaf (min p.feat.max_subleaf max.feat.max_subleaf)
  p.set_extd_max_leaf (min p.extd.max_leaf max.extd.max_leaf)

/-- Second step of `recalculate_cpuid_policy`: the allowed featureset `max_fs`
after the fix-ups for shadow paging, topology bits, 32-bit PV and ITSC. -/
def recalculate_cpuid_policy.max_fs (cfg : Config) (env : Env) (d : domain) : List Nat :=
  let max_fs := cpuid_policy_to_featureset cfg (recalculate_cpuid_policy.max env d)
  let max_fs :=
    if d.is_hvm_domain && !d.hap_enabled then
      fill cfg.FSCAPINTS (fun i => word max_fs i &&& word cfg.hvm_shadow_featuremask i)
    else max_fs
  let max_fs := __set_bit cfg.X86_FEATURE_HTT max_fs
  let max_fs := __set_bit cfg.X86_FEATURE_X2APIC max_fs
  let max_fs := __set_bit cfg.X86_FEATURE_CMP_LEGACY max_fs
  let max_fs :=
    if d.is_pv_32bit_domain then
      let m := __clear_bit cfg.X86_FEATURE_LM max_fs
      if env.boot_cpu_data_x86_vendor ≠ cfg.X86_VENDOR_AMD then
        __clear_bit cfg.X86_FEATURE_SYSCALL m
      else m
    else max_fs
  if env.cpu_has_itsc && (d.disable_migrate || d.vtsc) then
    __set_bit cfg.X86_FEATURE_ITSC max_fs
  else max_fs

/-- Third step of `recalculate_cpuid_policy`: the toolstack's featureset
clamped to `max_fs`, without XSAVE when the xstate leaf is out of range; this is
the argument of `sanitise_featureset`. -/
def recalculate_cpuid_policy.clamped (cfg : Config) (env : Env) (d : domain) : List Nat :=
  let p := recalculate_cpuid_policy.maxima env d
  let fs := cpuid_policy_to_featureset cfg p
  let max_fs := recalculate_cpuid_policy.max_fs cfg env d
  let fs := fill cfg.FSCAPINTS (fun i => word fs i &&& word max_fs i)
  if p.basic.max_leaf < XSTATE_CPUID then __clear_bit cfg.X86_FEATURE_XSAVE fs else fs

/-- Fourth step of `recalculate_cpuid_policy`: the host's special bits of word
`7b0` are folded into the sanitised featureset. -/
def recalculate_cpuid_policy.fold (cfg : Config) (env : Env) (fs : List Nat) : List Nat :=
  let fs := fs.set cfg.FEATURESET_7b0
    (word fs cfg.FEATURESET_7b0 &&& not32 (word cfg.special_features cfg.FEATURESET_7b0))
  fs.set cfg.FEATURESET_7b0
    (word fs cfg.FEATURESET_7b0 |||
      (env.host_policy.feat._7b0 &&& word cfg.special_features cfg.FEATURESET_7b0))

/-- The function `recalculate_cpuid_policy(d)`, returning the domain with its
recalculated policy; `none` when an assertion of `sanitise_featureset` fails. -/
def recalculate_cpuid_policy (cfg : Config) (env : Env) (d : domain) : Option domain :=
  match sanitise_featureset cfg (recalculate_cpuid_policy.clamped cfg env d) with
  | none => none
  | some fs =>
    let p := cpuid_featureset_to_policy cfg (recalculate_cpuid_policy.fold cfg env fs)
      (recalculate_cpuid_policy.maxima env d)
    some { d with cpuid := recalculate_xstate cfg env p }

/-- The closing loop of `init_domain_cpuid_policy`: both inputs of each of the
`MAX_CPUID_INPUT` override slots are set to `XEN_CPUID_INPUT_UNUSED`. -/
def init_domain_cpuid_policy.reset (cfg : Config) (p : cpuid_policy) : cpuid_policy :=
  { p with legacy := fun i =>
      let slot := p.legacy i
      if i < cfg.MAX_CPUID_INPUT then
        { slot with input0 := cfg.XEN_CPUID_INPUT_UNUSED,
                    input1 := cfg.XEN_CPUID_INPUT_UNUSED }
      else slot }

/-- The function `init_domain_cpuid_policy(d)`; `alloc` tells whether `xmalloc`
succeeds.  The result is the return value and what `d->arch.cpuid` points to
after the call (`none` for a null pointer); the outer `none` when an assertion
of `sanitise_featureset` fails. -/
def init_domain_cpuid_policy (cfg : Config) (env : Env) (alloc : Bool) (d : domain) :
    Option (Int × Option cpuid_policy) :=
  if !alloc then some (-(cfg.ENOMEM : Int), none)
  else
    let d := { d with cpuid := if d.is_pv_domain then env.pv_max_policy else env.hvm_max_policy }
    match recalculate_cpuid_policy cfg env d with
    | none => none
    | some d => some (0, some (init_domain_cpuid_policy.reset cfg d.cpuid))

/-! ## Guest queries -/

/-- The loop of `domain_cpuid`, from slot `i` with `n` slots left. -/
def domain_cpuid.loop (cfg : Config) (d : domain) (leaf subleaf : Nat) (res : cpuid_leaf) :
    Nat → Nat → cpuid_leaf
  | 0, _ => res
  | n + 1, i =>
    let cpuid := d.cpuid.legacy i
    if cpuid.input0 = leaf &&
        (cpuid.input1 = cfg.XEN_CPUID_INPUT_UNUSED || cpuid.input1 = subleaf) then
      ⟨cpuid.eax, cpuid.ebx, cpuid.ecx, cpuid.edx⟩
    else domain_cpuid.loop cfg d leaf subleaf res n (i + 1)

/-- The function `domain_cpuid(d, leaf, subleaf, res)`, returning `*res`. -/
def domain_cpuid (cfg : Config) (d : domain) (leaf subleaf : Nat) (res : cpuid_leaf) :
    cpuid_leaf :=
  domain_cpuid.loop cfg d leaf subleaf res cfg.MAX_CPUID_INPUT 0

/-- The vPMU fix-up shared by leaf 1 of `pv_cpuid` and `hvm_cpuid`. -/
def vpmu_ds (cfg : Config) (env : Env) (v : vcpu) (res : cpuid_leaf) : cpuid_leaf :=
  if v.vpmu_enabled && v.vpmu_cpu_has_ds then
    let res := { res with d := res.d ||| cpufeat_mask cfg.X86_FEATURE_DS }
    let res := if env.cpu_has_dtes64 then
      { res with c := res.c ||| cpufeat_mask cfg.X86_FEATURE_DTES64 } else res
    if env.cpu_has_dscpl then { res with c := res.c ||| cpufeat_mask cfg.X86_FEATURE_DSCPL }
    else res
  else res

/-- The function `pv_cpuid(leaf, subleaf, res)`, returning `*res`; `none` when
`ASSERT_UNREACHABLE()` is reached. -/
def pv_cpuid (cfg : Config) (env : Env) (leaf subleaf : Nat) (res : cpuid_leaf) :
    Option cpuid_leaf :=
  let curr := env.vcpus env.current
  let currd := curr.domain
  let p := currd.cpuid
  let res :=
    if !currd.is_control_domain && !currd.is_hardware_domain then
      domain_cpuid cfg currd leaf subleaf res
    else cpuid_count_leaf env leaf subleaf
  if leaf = 0x00000001 then
    let res := { res with c := p.basic._1c, d := p.basic._1d }
    let res :=
      if !currd.is_pvh_domain then
        let res :=
          if curr.pv_ctrlreg4 &&& cfg.X86_CR4_OSXSAVE ≠ 0 ||
              (env.entry_vector = cfg.TRAP_invalid_op && env.guest_kernel_mode &&
                env.read_cr4 &&& cfg.X86_CR4_OSXSAVE ≠ 0) then
            { res with c := res.c ||| cpufeat_mask cfg.X86_FEATURE_OSXSAVE }
          else res
        if currd.is_hardware_domain && env.guest_kernel_mode then
          let res := if env.cpu_has_mtrr then
            { res with d := res.d ||| cpufeat_mask cfg.X86_FEATURE_MTRR } else res
          let res := if env.cpu_has_monitor && env.entry_vector = cfg.TRAP_gp_fault then
            { res with c := res.c ||| cpufeat_mask cfg.X86_FEATURE_MONITOR } else res
          if env.cpu_has_eist then
            { res with c := res.c ||| cpufeat_mask cfg.X86_FEATURE_EIST } else res
        else res
      else res
    some (vpmu_ds cfg env curr res)
  else if leaf = 0x0000000a then
    if env.boot_cpu_data_x86_vendor ≠ cfg.X86_VENDOR_INTEL || !curr.vpmu_enabled then
      some EMPTY_LEAF
    else if res.a &&& 0xff > 3 then some { res with a := (res.a &&& not32 0xff) ||| 3 }
    else some res
  else if leaf = 0x80000001 then
    let res := { res with c := p.extd.e1c, d := p.extd.e1d }
    let res := if p.x86_vendor ≠ cfg.X86_VENDOR_AMD then
      { res with d := res.d &&& not32 cfg.CPUID_COMMON_1D_FEATURES } else res
    if currd.is_hardware_domain && env.cpu_has_mtrr && env.guest_kernel_mode then
      some { res with d := res.d ||| cpufeat_mask cfg.X86_FEATURE_MTRR }
    else some res
  else if leaf = 0x80000007 then some { res with d := p.extd.e7d }
  else if leaf = 0x80000008 then
    some { res with a := (env.paddr_bits ||| env.vaddr_bits <<< 8) % 2 ^ 32, b := p.extd.e8b }
  else if leaf = 0x00000005 || leaf = 0x0000000b || leaf = 0x8000000a || leaf = 0x8000001b ||
      leaf = 0x8000001c || leaf = 0x8000001e then
    some EMPTY_LEAF
  else if leaf = 0x7 || leaf = XSTATE_CPUID then none
  else some res

/-- The PSE36 fix-up shared by leaves 1 and 0x80000001 of `hvm_cpuid`. -/
def hvm_pse36 (cfg : Config) (v : vcpu) (res : cpuid_leaf) : cpuid_leaf :=
  if !v.domain.hap_enabled && !(v.hvm_pae_enabled || v.hvm_long_mode_enabled) then
    { res with d := res.d &&& not32 (cpufeat_mask cfg.X86_FEATURE_PSE36) }
  else res

/-- The function `hvm_cpuid(leaf, subleaf, res)`, returning `*res`; `none` when
`ASSERT_UNREACHABLE()` is reached. -/
def hvm_cpuid (cfg : Config) (env : Env) (leaf subleaf : Nat) (res : cpuid_leaf) :
    Option cpuid_leaf :=
  let v := env.vcpus env.current
  let d := v.domain
  let p := d.cpuid
  let res := domain_cpuid cfg d leaf subleaf res
  if leaf = 0x1 then
    let res := { res with b := res.b &&& 0x00FFFFFF }
    let res := { res with b := res.b ||| ((v.vcpu_id * 2) <<< 24) % 2 ^ 32 }
    let res := { res with c := p.basic._1c, d := p.basic._1d }
    let res := if v.vlapic_hw_disabled then
      { res with d := res.d &&& not32 (cpufeat_bit cfg.X86_FEATURE_APIC) } else res
    let res := if v.hvm_guest_cr4 &&& cfg.X86_CR4_OSXSAVE ≠ 0 then
      { res with c := res.c ||| cpufeat_mask cfg.X86_FEATURE_OSXSAVE } else res
    let res := hvm_pse36 cfg v res
    some (vpmu_ds cfg env v res)
  else if leaf = 0xb then some { res with d := (v.vcpu_id * 2) % 2 ^ 32 }
  else if leaf = 0x0000000a then
    if env.boot_cpu_data_x86_vendor ≠ cfg.X86_VENDOR_INTEL || !v.vpmu_enabled then
      some EMPTY_LEAF
    else if res.a &&& 0xff > 3 then some { res with a := (res.a &&& not32 0xff) ||| 3 }
    else some res
  else if leaf = 0x80000001 then
    let res := { res with c := p.extd.e1c, d := p.extd.e1d }
    let res :=
      if p.x86_vendor ≠ cfg.X86_VENDOR_AMD then
        { res with d := res.d &&& not32 cfg.CPUID_COMMON_1D_FEATURES }
      else if v.vlapic_hw_disabled then
        { res with d := res.d &&& not32 (cpufeat_bit cfg.X86_FEATURE_APIC) }
      else res
    let res := hvm_pse36 cfg v res
    if p.x86_vendor = cfg.X86_VENDOR_INTEL && !v.hvm_long_mode_enabled then
      some { res with d := res.d &&& not32 (cpufeat_mask cfg.X86_FEATURE_SYSCALL) }
    else some res
  else if leaf = 0x80000007 then some { res with d := p.extd.e7d }
  else if leaf = 0x80000008 then
    let res := { res with a := res.a &&& 0xff }
    let tmp := (d.gfn_bits + cfg.PAGE_SHIFT) % 2 ^ 32
    let res := if res.a > tmp then { res with a := tmp } else res
    let tmp := if p.basic.pae cfg || p.basic.pse36 cfg then 36 else 32
    let res := if res.a < tmp then { res with a := tmp } else res
    let res :=
      { res with a := res.a ||| ((if p.extd.lm cfg then env.vaddr_bits else 32) <<< 8) % 2 ^ 32 }
    some { res with b := p.extd.e8b }
  else if leaf = 0x8000001c then
    if !env.cpu_has_svm then some EMPTY_LEAF
    else if env.cpu_has_lwp && v.xcr0 &&& cfg.XSTATE_LWP ≠ 0 then
      some { res with a := (res.d &&& v.guest_lwp_cfg) ||| 1 }
    else some { res with a := 0 }
  else if leaf = 0x7 || leaf = XSTATE_CPUID then none
  else some res

/-- Outcome of the first `switch` of `guest_cpuid`. -/
inductive first_pass where
  | ret (res : cpuid_leaf)
  | brk (res : cpuid_leaf)
  | legacy
  | bug

/-- The first pass of `guest_cpuid`: range checks and structured leaves. -/
def guest_cpuid.first (cfg : Config) (env : Env) (v leaf subleaf : Nat) : first_pass :=
  let d := (env.vcpus v).domain
  let p := d.cpuid
  let res := EMPTY_LEAF
  if leaf ≤ cfg.CPUID_GUEST_NR_BASIC - 1 then
    if leaf > p.basic.max_leaf then .ret res
    else if leaf = 0x7 then
      if subleaf > p.feat.max_subleaf then .ret res
      else if subleaf ≥ cfg.CPUID_GUEST_NR_FEAT then .bug
      else .brk (p.feat.raw subleaf)
    else if leaf = XSTATE_CPUID then
      if !p.basic.xsave cfg || subleaf ≥ cfg.CPUID_GUEST_NR_XSTATE then .ret res
      else .brk (p.xstate.raw subleaf)
    else .legacy
  else if 0x40000000 ≤ leaf ∧ leaf ≤ 0x400000ff then
    if d.is_viridian_domain then .ret (env.cpuid_viridian_leaves v leaf subleaf res)
    else .ret (env.cpuid_hypervisor_leaves v leaf subleaf res)
  else if 0x40000100 ≤ leaf ∧ leaf ≤ 0x400001ff then
    .ret (env.cpuid_hypervisor_leaves v leaf subleaf res)
  else if 0x80000000 ≤ leaf ∧ leaf ≤ 0x80000000 + cfg.CPUID_GUEST_NR_EXTD - 1 then
    if leaf > p.extd.max_leaf then .ret res else .legacy
  else .ret res

/-- The second pass of `guest_cpuid`: dynamic adjustments for the current vcpu. -/
def guest_cpuid.second (cfg : Config) (env : Env) (v leaf subleaf : Nat) (res : cpuid_leaf) :
    cpuid_leaf :=
  let vc := env.vcpus v
  let d := vc.domain
  let p := d.cpuid
  if leaf = 0x7 then
    if subleaf = 0 then
      if (if d.is_pv_domain then vc.pv_ctrlreg4 else vc.hvm_guest_cr4) &&& cfg.X86_CR4_PKE ≠ 0 then
        { res with c := res.c ||| cpufeat_mask cfg.X86_FEATURE_OSPKE }
      else res
    else res
  else if leaf = XSTATE_CPUID then
    if subleaf = 1 then
      if p.xstate.xsaves cfg then { res with b := cpuid_count_ebx env leaf subleaf } else res
    else if subleaf = 0 then { res with b := cpuid_count_ebx env leaf subleaf }
    else res
  else res

/-- The function `guest_cpuid(v, leaf, subleaf, res)`, returning `*res`; `none`
when `BUG_ON`, `ASSERT(v == current)` or `ASSERT_UNREACHABLE()` fires. -/
def guest_cpuid (cfg : Config) (env : Env) (v leaf subleaf : Nat) : Option cpuid_leaf :=
  match guest_cpuid.first cfg env v leaf subleaf with
  | .ret res => some res
  | .bug => none
  | .brk res => if v ≠ env.current then some res else some (guest_cpuid.second cfg env v leaf subleaf res)
  | .legacy =>
    if v ≠ env.current then none
    else if (env.vcpus v).domain.is_hvm_domain then hvm_cpuid cfg env leaf subleaf EMPTY_LEAF
    else pv_cpuid cfg env leaf subleaf EMPTY_LEAF

/-! ## A sample instantiation

An instance of the header constants, laid out like the x86 feature words
(`1d, 1c, e1d, e1c, Da1, 7b0, 7c0, e7d, e8b`), with a small flattened
dependency table.  It serves to evaluate the definitions on concrete inputs. -/

/-- Sample header constants. -/
def sample_cfg : Config where
  FSCAPINTS := 9
  FEATURESET_1d := 0
  FEATURESET_1c := 1
  FEATURESET_e1d := 2
  FEATURESET_e1c := 3
  FEATURESET_Da1 := 4
  FEATURESET_7b0 := 5
  FEATURESET_7c0 := 6
  FEATURESET_e7d := 7
  FEATURESET_e8b := 8
  known_features :=
    [0xbfebfbff, 0xfffef3ff, 0xefd3fbff, 0x2469bfff, 0x0000000f, 0xfdbfffff, 0x0040001f,
     0x00000500, 0x00000001]
  special_features :=
    [0x10000200, 0x88200000, 0x00000000, 0x00000002, 0x00000000, 0x00002040, 0x00000010,
     0x00000000, 0x00000000]
  pv_featuremask :=
    [0x17c9cbf5, 0xf6f83203, 0xe3d1cbf5, 0x042109f3, 0x00000007, 0xfdaf0b38, 0x00400003,
     0x00000000, 0x00000001]
  hvm_shadow_featuremask :=
    [0x17cbfbff, 0xf7f83203, 0xebd3fbff, 0x042189f3, 0x0000000f, 0xfdbf4bba, 0x00400003,
     0x00000000, 0x00000001]
  hvm_hap_featuremask :=
    [0x17cbfbff, 0xf7fa3203, 0xefd3fbff, 0x042189f3, 0x0000000f, 0xfdbf4fbb, 0x0040000b,
     0x00000000, 0x00000001]
  deep_features :=
    [0x00000248, 0x14000000, 0x20000000, 0x00000000, 0x00000000, 0x00010020, 0x00000000,
     0x00000000, 0x00000000]
  deep_deps :=
    [⟨3, [0x00020000, 0, 0, 0, 0, 0, 0, 0, 0]⟩,
     ⟨6, [0, 0x00022000, 0x24000000, 0x00000001, 0, 0, 0, 0, 0]⟩,
     ⟨9, [0, 0x01200000, 0, 0x00000008, 0, 0, 0, 0, 0]⟩,
     ⟨58, [0, 0x30001000, 0, 0x00018800, 0x0000000f, 0xdc234020, 0x0000000a, 0, 0]⟩,
     ⟨60, [0, 0x20001000, 0, 0x00010800, 0, 0xdc230020, 0x00000002, 0, 0]⟩,
     ⟨93, [0, 0x00022000, 0x04000000, 0x00000001, 0, 0, 0, 0, 0]⟩,
     ⟨165, [0, 0, 0, 0, 0, 0xdc230000, 0x00000002, 0, 0]⟩,
     ⟨176, [0, 0, 0, 0, 0, 0xdc220000, 0x00000002, 0, 0]⟩]
  CPUID_COMMON_1D_FEATURES := 0x0183f3ff
  CPUID_GUEST_NR_BASIC := 0xe
  CPUID_GUEST_NR_FEAT := 1
  CPUID_GUEST_NR_XSTATE := 63
  CPUID_GUEST_NR_EXTD := 0x1d
  MAX_CPUID_INPUT := 40
  XEN_CPUID_INPUT_UNUSED := 0xFFFFFFFF
  ENOMEM := 12
  X86_VENDOR_INTEL := 0
  X86_VENDOR_AMD := 2
  X86_CR4_OSXSAVE := 0x40000
  X86_CR4_PKE := 0x400000
  TRAP_invalid_op := 6
  TRAP_gp_fault := 13
  PAGE_SHIFT := 12
  X86_FEATURE_PSE36 := 17
  X86_FEATURE_APIC := 9
  X86_FEATURE_SEP := 11
  X86_FEATURE_MTRR := 12
  X86_FEATURE_DS := 21
  X86_FEATURE_HTT := 28
  X86_FEATURE_DTES64 := 34
  X86_FEATURE_MONITOR := 35
  X86_FEATURE_DSCPL := 36
  X86_FEATURE_EIST := 39
  X86_FEATURE_X2APIC := 53
  X86_FEATURE_XSAVE := 58
  X86_FEATURE_OSXSAVE := 59
  X86_FEATURE_AVX := 60
  X86_FEATURE_HYPERVISOR := 63
  X86_FEATURE_SYSCALL := 75
  X86_FEATURE_LM := 93
  X86_FEATURE_CMP_LEGACY := 97
  X86_FEATURE_LWP := 111
  X86_FEATURE_XSAVES := 131
  X86_FEATURE_MPX := 174
  X86_FEATURE_AVX512F := 176
  X86_FEATURE_PKU := 195
  X86_FEATURE_OSPKE := 196
  X86_FEATURE_PAE := 6
  X86_FEATURE_ITSC := 232
  XSTATE_FP_SSE := 3
  XSTATE_YMM := 4
  XSTATE_BNDREGS := 8
  XSTATE_BNDCSR := 0x10
  XSTATE_OPMASK := 0x20
  XSTATE_ZMM := 0x40
  XSTATE_HI_ZMM := 0x80
  XSTATE_PKRU := 0x200
  XSTATE_LWP := 0x4000000000000000
  XSTATE_XSAVES_ONLY := 0
  XSTATE_AREA_MIN_SIZE := 576
  _XSTATE_YMM := 2
  _XSTATE_BNDCSR := 4
  _XSTATE_HI_ZMM := 7
  _XSTATE_PKRU := 9
  _XSTATE_LWP := 62

/-- The all-zero policy (a zero-initialised `struct cpuid_policy`). -/
def zero_policy : cpuid_policy where
  basic := ⟨fun _ => EMPTY_LEAF⟩
  feat := ⟨fun _ => EMPTY_LEAF⟩
  xstate := ⟨fun _ => EMPTY_LEAF⟩
  extd := ⟨fun _ => EMPTY_LEAF⟩
  legacy := fun _ => ⟨0, 0, 0, 0, 0, 0⟩
  x86_vendor := 0

/-- A sample domain around a policy: an HVM domain under shadow paging. -/
def sample_domain (p : cpuid_policy) : domain where
  is_pv_domain := false
  is_pvh_domain := false
  is_hvm_domain := true
  is_pv_32bit_domain := false
  hap_enabled := false
  is_control_domain := false
  is_hardware_domain := false
  is_viridian_domain := false
  disable_migrate := false
  vtsc := false
  gfn_bits := 24
  cpuid := p

/-- A sample virtual CPU of a domain: neither PAE nor long mode enabled. -/
def sample_vcpu (d : domain) : vcpu where
  vcpu_id := 0
  domain := d
  pv_ctrlreg4 := 0
  hvm_guest_cr4 := 0
  vlapic_hw_disabled := false
  hvm_pae_enabled := false
  hvm_long_mode_enabled := false
  vpmu_enabled := false
  vpmu_cpu_has_ds := false
  xcr0 := 1
  guest_lwp_cfg := 0

/-- A sample host featureset: a bare-metal Intel host, where the HYPERVISOR
bit and the shared bits of word `e1d` are clear. -/
def sample_host_featureset : List Nat :=
  [0xbfebfbff, 0x7ffafbff, 0x2c100800, 0x00000121, 0x0000000f, 0x029c6fbf, 0x00000000,
   0x00000100, 0x00000000]

/-- Sample hardware: basic leaves up to 0xd, extended leaves up to 0x80000008,
every other register zero. -/
def sample_hw (leaf _subleaf : Nat) : cpuid_leaf :=
  if leaf = 0 then ⟨0xd, 0x756e6547, 0x6c65746e, 0x49656e69⟩
  else if leaf = 0x80000000 then ⟨0x80000008, 0, 0, 0⟩
  else EMPTY_LEAF

/-- A sample environment before boot: every vcpu address holds `v`, vcpu 0 is
executing, and the four boot-time policies are zero. -/
def sample_env (v : vcpu) : Env where
  vcpus := fun _ => v
  current := 0
  cpuid_count := sample_hw
  read_cr4 := 0
  entry_vector := 0
  guest_kernel_mode := false
  boot_cpu_data_x86_vendor := 0
  x86_capability := sample_host_featureset
  hvm_enabled := true
  hap_supported := true
  cpu_has_vmx := true
  cpu_has_vmx_mpx := false
  cpu_has_vmx_xsaves := false
  cpu_has_svm := false
  cpu_has_lwp := false
  cpu_has_itsc := true
  cpu_has_mtrr := true
  cpu_has_monitor := true
  cpu_has_eist := true
  cpu_has_dtes64 := false
  cpu_has_dscpl := false
  paddr_bits := 36
  vaddr_bits := 48
  xstate_offsets := fun i => 64 * i
  xstate_sizes := fun _ => 64
  xstate_align := 0
  cpuid_viridian_leaves := fun _ _ _ res => res
  cpuid_hypervisor_leaves := fun _ _ _ res => res
  raw_policy := zero_policy
  host_policy := zero_policy
  pv_max_policy := zero_policy
  hvm_max_policy := zero_policy

/-- The sample environment after `init_guest_cpuid`. -/
def booted_env : Env :=
  (init_guest_cpuid sample_cfg (sample_env (sample_vcpu (sample_domain zero_policy)))).getD
    (sample_env (sample_vcpu (sample_domain zero_policy)))

/-- A sample guest: a shadow-paging HVM domain created from `hvm_max_policy`
in the booted sample environment. -/
def sample_guest : domain :=
  (recalculate_cpuid_policy sample_cfg booted_env (sample_domain booted_env.hvm_max_policy)).getD
    (sample_domain zero_policy)

/-- The booted sample environment with the vcpus of the sample guest. -/
def guest_env : Env :=
  { booted_env with vcpus := fun _ => sample_vcpu sample_guest }

/-- A sample environment whose host lacks XSAVE (bit 26 of word `1c`), with
the raw and host policies calculated and the max policies still zero. -/
def no_xsave_env : Env :=
  let e := sample_env (sample_vcpu (sample_domain zero_policy))
  let e := { e with x86_capability :=
    [0xbfebfbff, 0x7bfafbff, 0x2c100800, 0x00000121, 0x0000000f, 0x029c6fbf, 0x00000000,
     0x00000100, 0x00000000] }
  let e := { e with raw_policy := calculate_raw_policy sample_cfg e }
  { e with host_policy := calculate_host_policy sample_cfg e }

/-- The sample guest with four override slots in use: leaf 5 (wildcard), leaf
0x40000000 (wildcard), leaf 2 (wildcard) and leaf 2 subleaf 0. -/
def override_domain : domain :=
  { sample_guest with cpuid := { sample_guest.cpuid with legacy := fun i =>
      if i = 0 then ⟨5, 0xFFFFFFFF, 9, 9, 9, 9⟩
      else if i = 1 then ⟨0x40000000, 0xFFFFFFFF, 1, 2, 3, 4⟩
      else if i = 2 then ⟨2, 0xFFFFFFFF, 0x11, 0x22, 0x33, 0x44⟩
      else if i = 3 then ⟨2, 0, 5, 6, 7, 8⟩
      else ⟨0xFFFFFFFF, 0xFFFFFFFF, 0, 0, 0, 0⟩ } }

/-- The booted sample environment with the vcpus of the domain with overrides. -/
def override_env : Env :=
  { booted_env with vcpus := fun _ => sample_vcpu override_domain }

/-- The sample guest environment on hardware that reports `0x240 + subleaf` in
EBX of leaf 0xd. -/
def xsave_hw_env : Env :=
  { guest_env with cpuid_count := fun leaf subleaf =>
      if leaf = XSTATE_CPUID then ⟨0, 0x240 + subleaf, 0, 0⟩ else sample_hw leaf subleaf }

/-- The sample guest environment with the virtual local APIC of the vcpus
hardware-disabled. -/
def apic_off_env : Env :=
  { guest_env with vcpus := fun _ =>
      { sample_vcpu sample_guest with vlapic_hw_disabled := true } }

/-- A leaf that the first pass of `guest_cpuid` sends to the legacy path: an
in-range basic leaf other than 7 and `XSTATE_CPUID`, or an in-range extended
leaf. -/
def legacy_leaf (cfg : Config) (p : cpuid_policy) (leaf : Nat) : Prop :=
  (leaf ≤ cfg.CPUID_GUEST_NR_BASIC - 1 ∧ leaf ≤ p.basic.max_leaf ∧ leaf ≠ 0x7 ∧
    leaf ≠ XSTATE_CPUID) ∨
  (¬ leaf ≤ cfg.CPUID_GUEST_NR_BASIC - 1 ∧ 0x80000000 ≤ leaf ∧
    leaf ≤ 0x80000000 + cfg.CPUID_GUEST_NR_EXTD - 1 ∧ leaf ≤ p.extd.max_leaf)

instance (cfg : Config) (p : cpuid_policy) (leaf : Nat) : Decidable (legacy_leaf cfg p leaf) := by
  unfold legacy_leaf; infer_instance

/-- A query on which `BUG_ON(subleaf >= ARRAY_SIZE(p->feat.raw))` of
`guest_cpuid` fires: leaf 7 in range, with a subleaf within `feat.max_subleaf`
but beyond the `feat.raw` array. -/
def feat_overrun (cfg : Config) (p : cpuid_policy) (leaf subleaf : Nat) : Prop :=
  leaf ≤ cfg.CPUID_GUEST_NR_BASIC - 1 ∧ leaf ≤ p.basic.max_leaf ∧ leaf = 0x7 ∧
    subleaf ≤ p.feat.max_subleaf ∧ cfg.CPUID_GUEST_NR_FEAT ≤ subleaf

instance (cfg : Config) (p : cpuid_policy) (leaf subleaf : Nat) :
    Decidable (feat_overrun cfg p leaf subleaf) := by
  unfold feat_overrun; infer_instance

/-! ## Properties of the header tables -/

/-- The feature words named by the `FEATURESET_*` constants are distinct slots
of a featureset. -/
def Config.layout (cfg : Config) : Prop :=
  [cfg.FEATURESET_1d, cfg.FEATURESET_1c, cfg.FEATURESET_e1d, cfg.FEATURESET_e1c,
   cfg.FEATURESET_Da1, cfg.FEATURESET_7b0, cfg.FEATURESET_7c0, cfg.FEATURESET_e7d,
   cfg.FEATURESET_e8b].Nodup ∧
  ∀ i ∈ [cfg.FEATURESET_1d, cfg.FEATURESET_1c, cfg.FEATURESET_e1d, cfg.FEATURESET_e1c,
   cfg.FEATURESET_Da1, cfg.FEATURESET_7b0, cfg.FEATURESET_7c0, cfg.FEATURESET_e7d,
   cfg.FEATURESET_e8b], i < cfg.FSCAPINTS

instance (cfg : Config) : Decidable cfg.layout := by unfold Config.layout; infer_instance

/-- The words of `known_features[]` are `uint32_t`. -/
def Config.known_32bit (cfg : Config) : Prop :=
  ∀ i < cfg.FSCAPINTS, word cfg.known_features i < 2 ^ 32

instance (cfg : Config) : Decidable cfg.known_32bit := by unfold Config.known_32bit; infer_instance

/-- The guarantee behind `ASSERT(dfs)`: every feature marked in
`deep_features[]` is found by `lookup_deep_deps`. -/
def Config.deps_complete (cfg : Config) : Prop :=
  ∀ i < 32 * cfg.FSCAPINTS, test_bit i cfg.deep_features = true → lookup_deep_deps cfg i ≠ none

instance (cfg : Config) : Decidable cfg.deps_complete := by
  unfold Config.deps_complete; infer_instance

/-- The table `deep_deps[]` is transitively flattened: when the set of an entry
contains the feature of another entry, it contains that entry's whole set. -/
def Config.deps_flattened (cfg : Config) : Prop :=
  ∀ e ∈ cfg.deep_deps, ∀ e' ∈ cfg.deep_deps, test_bit e'.feature e.fs = true →
    ∀ j < cfg.FSCAPINTS, word e'.fs j &&& word e.fs j = word e'.fs j

instance (cfg : Config) : Decidable cfg.deps_flattened := by
  unfold Config.deps_flattened; infer_instance

/-- No shared bit of word `e1d` is marked in `deep_features[]`: the shared
features have their dependants recorded under word `1d`. -/
def Config.deep_not_common (cfg : Config) : Prop :=
  word cfg.deep_features cfg.FEATURESET_e1d &&& cfg.CPUID_COMMON_1D_FEATURES = 0

instance (cfg : Config) : Decidable cfg.deep_not_common := by
  unfold Config.deep_not_common; infer_instance

/-- The known mask duplicates the shared bits: a shared bit known in word `1d`
is known in word `e1d`. -/
def Config.known_common_dup (cfg : Config) : Prop :=
  (word cfg.known_features cfg.FEATURESET_1d &&& cfg.CPUID_COMMON_1D_FEATURES) &&&
    word cfg.known_features cfg.FEATURESET_e1d =
  word cfg.known_features cfg.FEATURESET_1d &&& cfg.CPUID_COMMON_1D_FEATURES

instance (cfg : Config) : Decidable cfg.known_common_dup := by
  unfold Config.known_common_dup; infer_instance

/-- A dependency set that names a shared bit in word `e1d` names it in word
`1d` as well. -/
def Config.deps_common_dup (cfg : Config) : Prop :=
  ∀ e ∈ cfg.deep_deps,
    (word e.fs cfg.FEATURESET_e1d &&& cfg.CPUID_COMMON_1D_FEATURES) &&&
      word e.fs cfg.FEATURESET_1d =
    word e.fs cfg.FEATURESET_e1d &&& cfg.CPUID_COMMON_1D_FEATURES

instance (cfg : Config) : Decidable cfg.deps_common_dup := by
  unfold Config.deps_common_dup; infer_instance

/-- What the dependency pass of `sanitise_featureset` establishes about the
featureset `b` it leaves, relative to the clamped featureset `a`. -/
structure Pass (cfg : Config) (a b : List Nat) : Prop where
  len : b.length = cfg.FSCAPINTS
  and_eq : ∀ j, word b j &&& word a j = word b j
  sub : ∀ h, test_bit h b = true → test_bit h a = true
  why : ∀ h, test_bit h a = true → test_bit h b = false →
    ∃ g dg, g / 32 < cfg.FSCAPINTS ∧ test_bit g cfg.deep_features = true ∧
      test_bit g a = false ∧ lookup_deep_deps cfg g = some dg ∧ test_bit h dg = true
  dep : cfg.deps_flattened → ∀ g dg, g / 32 < cfg.FSCAPINTS →
    test_bit g cfg.deep_features = true → test_bit g a = false →
    lookup_deep_deps cfg g = some dg → ∀ h, test_bit h dg = true → test_bit h b = false

/-- The build-time assertions of `build_assertions()` on the sizes of the
feature tables. -/
def Config.build_assertions (cfg : Config) : Prop :=
  cfg.known_features.length = cfg.FSCAPINTS ∧ cfg.special_features.length = cfg.FSCAPINTS ∧
  cfg.pv_featuremask.length = cfg.FSCAPINTS ∧
  cfg.hvm_shadow_featuremask.length = cfg.FSCAPINTS ∧
  cfg.hvm_hap_featuremask.length = cfg.FSCAPINTS ∧ cfg.deep_features.length = cfg.FSCAPINTS

instance (cfg : Config) : Decidable cfg.build_assertions := by
  unfold Config.build_assertions; infer_instance

/-- A word `x` found at slot `j` of the featureset of policy `p`: one of the
nine feature words of the policy, at its slot, or zero. -/
def is_feature_word (cfg : Config) (p : cpuid_policy) (j x : Nat) : Prop :=
  x = 0 ∨
  (j = cfg.FEATURESET_1d ∧ x = p.basic._1d) ∨ (j = cfg.FEATURESET_1c ∧ x = p.basic._1c) ∨
  (j = cfg.FEATURESET_e1d ∧ x = p.extd.e1d) ∨ (j = cfg.FEATURESET_e1c ∧ x = p.extd.e1c) ∨
  (j = cfg.FEATURESET_Da1 ∧ x = p.xstate.Da1) ∨ (j = cfg.FEATURESET_7b0 ∧ x = p.feat._7b0) ∨
  (j = cfg.FEATURESET_7c0 ∧ x = p.feat._7c0) ∨ (j = cfg.FEATURESET_e7d ∧ x = p.extd.e7d) ∨
  (j = cfg.FEATURESET_e8b ∧ x = p.extd.e8b)

/-- Feature `h` is one of the shared bits of word `e1d`, which
`sanitise_featureset` rewrites from word `1d`. -/
def is_shared_e1d (cfg : Config) (h : Nat) : Prop :=
  h / 32 = cfg.FEATURESET_e1d ∧ cfg.CPUID_COMMON_1D_FEATURES.testBit (h % 32) = true

instance (cfg : Config) (h : Nat) : Decidable (is_shared_e1d cfg h) := by
  unfold is_shared_e1d; infer_instance

/-- The bit of word `1d` at the same position as feature `h`. -/
def twin_1d (cfg : Config) (h : Nat) : Nat := 32 * cfg.FEATURESET_1d + h % 32

/-- The feature that `calculate_pv_max_policy` sets whatever the host has. -/
def forced_pv_max (cfg : Config) (x : Nat) : Prop := x = cfg.X86_FEATURE_HYPERVISOR

/-- The features that `calculate_hvm_max_policy` sets whatever the host has. -/
def forced_hvm_max (cfg : Config) (env : Env) (x : Nat) : Prop :=
  x = cfg.X86_FEATURE_HYPERVISOR ∨ x = cfg.X86_FEATURE_APIC ∨
  (x = cfg.X86_FEATURE_SEP ∧ env.boot_cpu_data_x86_vendor = cfg.X86_VENDOR_AMD ∧
    env.raw_policy.basic.sep cfg = true)

/-- The featureset of policy `p` lies within a reference featureset `ref`, up
to the features in `forced` and up to the shared bits of word `e1d`, which stand
for their twins in word `1d`. -/
def within (cfg : Config) (ref : List Nat) (forced : Nat → Prop) (p : cpuid_policy) : Prop :=
  ∀ h, test_bit h (cpuid_policy_to_featureset cfg p) = true →
    (¬ is_shared_e1d cfg h ∧ (forced h ∨ test_bit h ref = true)) ∨
    (is_shared_e1d cfg h ∧ (forced (twin_1d cfg h) ∨ test_bit (twin_1d cfg h) ref = true))

/-- Every bit of the featureset `fs` is a feature in `forced` or a bit of the
reference featureset `ref`. -/
def bits_from (ref : List Nat) (forced : Nat → Prop) (fs : List Nat) : Prop :=
  ∀ h, test_bit h fs = true → forced h ∨ test_bit h ref = true

/-- Feature `h` is one of the special bits of word `7b0`, which
`recalculate_cpuid_policy` takes from the host. -/
def is_special_7b0 (cfg : Config) (h : Nat) : Prop :=
  h / 32 = cfg.FEATURESET_7b0 ∧
    (word cfg.special_features cfg.FEATURESET_7b0).testBit (h % 32) = true

instance (cfg : Config) (h : Nat) : Decidable (is_special_7b0 cfg h) := by
  unfold is_special_7b0; infer_instance

/-- XSAVE is none of the features that the policy calculations set whatever
their input holds. -/
def Config.xsave_not_forced (cfg : Config) : Prop :=
  cfg.X86_FEATURE_XSAVE ∉ [cfg.X86_FEATURE_HYPERVISOR, cfg.X86_FEATURE_APIC,
    cfg.X86_FEATURE_SEP, cfg.X86_FEATURE_HTT, cfg.X86_FEATURE_X2APIC,
    cfg.X86_FEATURE_CMP_LEGACY, cfg.X86_FEATURE_ITSC]

instance (cfg : Config) : Decidable cfg.xsave_not_forced := by
  unfold Config.xsave_not_forced; infer_instance

/-- Every feature marked in `deep_features[]` has an entry in the table
`deep_deps[]`. -/
def Config.deps_present (cfg : Config) : Prop :=
  ∀ i < 32 * cfg.FSCAPINTS, test_bit i cfg.deep_features = true →
    ∃ e ∈ cfg.deep_deps, e.feature = i

instance (cfg : Config) : Decidable cfg.deps_present := by
  unfold Config.deps_present; infer_instance

/-- Override slot `s` answers the query `(leaf, subleaf)`: the test in the loop
of `domain_cpuid`. -/
def slot_matches (cfg : Config) (s : xen_domctl_cpuid) (leaf subleaf : Nat) : Prop :=
  s.input0 = leaf ∧ (s.input1 = cfg.XEN_CPUID_INPUT_UNUSED ∨ s.input1 = subleaf)

instance (cfg : Config) (s : xen_domctl_cpuid) (leaf subleaf : Nat) :
    Decidable (slot_matches cfg s leaf subleaf) := by
  unfold slot_matches; infer_instance

/-- The table `deep_deps[]` is sorted strictly ascending by feature index. -/
def Config.deps_sorted (cfg : Config) : Prop :=
  cfg.deep_deps.Pairwise (fun a b => a.feature < b.feature)

instance (cfg : Config) : Decidable cfg.deps_sorted := by
  unfold Config.deps_sorted; infer_instance

/-! ## Bit-level lemmas -/

theorem testBit_not32 (x i : Nat) : (not32 x).testBit i = (decide (i < 32) && !x.testBit i) := by
  have h : x % 2 ^ 32 < 2 ^ 32 := Nat.mod_lt _ (by norm_num)
  have e : not32 x = 2 ^ 32 - (x % 2 ^ 32 + 1) := by unfold not32; omega
  rw [e, Nat.testBit_two_pow_sub_succ h, Nat.testBit_mod_two_pow]
  by_cases hi : i < 32 <;> simp [hi]

theorem not32_lt (x : Nat) : not32 x < 2 ^ 32 := by unfold not32; omega

theorem length_fill (n : Nat) (f : Nat → Nat) : (fill n f).length = n := by simp [fill]

theorem word_fill (n : Nat) (f : Nat → Nat) (i : Nat) :
    word (fill n f) i = if i < n then f i else 0 := by
  unfold word fill
  rw [List.getD_eq_getElem?_getD]
  by_cases h : i < n
  · simp [h, List.getElem?_range]
  · simp [h]
    rw [List.getElem?_eq_none (by simp; omega)]; rfl

theorem word_set (l : List Nat) (i v j : Nat) :
    word (l.set i v) j = if j = i ∧ i < l.length then v else word l j := by
  unfold word
  rw [List.getD_eq_getElem?_getD, List.getD_eq_getElem?_getD, List.getElem?_set]
  by_cases h : i = j
  · subst h
    by_cases h2 : i < l.length
    · simp [h2]
    · simp [h2]
      rw [List.getElem?_eq_none (by omega)]; rfl
  · have : ¬ (j = i ∧ i < l.length) := fun hh => h hh.1.symm
    simp [h, this]

theorem word_of_length_le (l : List Nat) (i : Nat) (h : l.length ≤ i) : word l i = 0 := by
  unfold word
  rw [List.getD_eq_getElem?_getD, List.getElem?_eq_none h]; rfl

theorem test_bit_fill (n : Nat) (f : Nat → Nat) (h : Nat) :
    test_bit h (fill n f) = (decide (h / 32 < n) && (f (h / 32)).testBit (h % 32)) := by
  unfold test_bit
  rw [word_fill]
  by_cases hn : h / 32 < n <;> simp [hn]

theorem and_eq_bits {x y : Nat} (h : x &&& y = x) (i : Nat) (hx : x.testBit i = true) :
    y.testBit i = true := by
  rw [← h, Nat.testBit_and] at hx
  simp at hx
  exact hx.2

theorem and_eq_of_bits {x y : Nat} (h : ∀ i, x.testBit i = true → y.testBit i = true) :
    x &&& y = x := by
  apply Nat.eq_of_testBit_eq
  intro i
  rw [Nat.testBit_and]
  by_cases hx : x.testBit i = true
  · simp [hx, h i hx]
  · simp [hx]

theorem for_each_set_bit_inv {σ : Type} (bitmap : σ → List Nat) (size : Nat)
    (body : Nat → σ → Option σ) (s : σ) (Inv : Nat → σ → Prop) (h0 : Inv 0 s)
    (hskip : ∀ i st, i < size → Inv i st → test_bit i (bitmap st) = false → Inv (i + 1) st)
    (hbody : ∀ i st, i < size → Inv i st → test_bit i (bitmap st) = true →
      ∃ st', body i st = some st' ∧ Inv (i + 1) st') :
    ∃ s', for_each_set_bit bitmap size body s = some s' ∧ Inv size s' := by
  unfold for_each_set_bit
  suffices H : ∀ n, n ≤ size → ∃ s', (List.range n).foldlM
      (fun st i => if test_bit i (bitmap st) then body i st else some st) s = some s' ∧ Inv n s' from
    H size (Nat.le_refl _)
  intro n
  induction n with
  | zero => intro _; exact ⟨s, by simp, h0⟩
  | succ n ih =>
    intro hn
    obtain ⟨s1, hs1, hi1⟩ := ih (by omega)
    rw [List.range_succ, List.foldlM_append, hs1]
    by_cases hb : test_bit n (bitmap s1) = true
    · obtain ⟨st', hst, hinv⟩ := hbody n s1 (by omega) hi1 hb
      exact ⟨st', by simp [hb, hst], hinv⟩
    · have hb' : test_bit n (bitmap s1) = false := by simpa using hb
      exact ⟨s1, by simp [hb'], hskip n s1 (by omega) hi1 hb'⟩

theorem search_mem (tbl : List deep_dep) (feature : Nat) :
    ∀ (fuel start stop : Nat) (dfs : List Nat),
      lookup_deep_deps.search tbl feature fuel start stop = some (some dfs) →
      ∃ e ∈ tbl, e.feature = feature ∧ e.fs = dfs := by
  intro fuel
  induction fuel with
  | zero => intro start stop dfs h; simp [lookup_deep_deps.search] at h
  | succ n ih =>
    intro start stop dfs h
    unfold lookup_deep_deps.search at h
    by_cases hlt : start < stop
    · simp only [hlt, if_true] at h
      cases hm : tbl[start + (stop - start) / 2]? with
      | none => simp [hm] at h
      | some e =>
        simp only [hm] at h
        by_cases h1 : e.feature > feature
        · simp only [h1, if_true] at h; exact ih _ _ _ h
        · by_cases h2 : e.feature < feature
          · simp only [h1, h2, if_true, if_false] at h; exact ih _ _ _ h
          · simp only [h1, h2, if_false] at h
            refine ⟨e, List.getElem?_mem hm, by omega, ?_⟩
            simpa using h
    · simp [hlt] at h

theorem search_terminates (tbl : List deep_dep) (feature : Nat) :
    ∀ fuel start stop, stop - start < fuel →
      ∃ r, lookup_deep_deps.search tbl feature fuel start stop = some r := by
  intro fuel
  induction fuel with
  | zero => intro start stop h; omega
  | succ n ih =>
    intro start stop h
    unfold lookup_deep_deps.search
    by_cases hlt : start < stop
    · simp only [hlt, if_true]
      cases hm : tbl[start + (stop - start) / 2]? with
      | none => exact ⟨none, rfl⟩
      | some e =>
        simp only
        by_cases h1 : e.feature > feature
        · simp only [h1, if_true]
          exact ih start _ (by omega)
        · by_cases h2 : e.feature < feature
          · simp only [h1, h2, if_true, if_false]
            exact ih _ stop (by omega)
          · simp only [h1, h2, if_false]
            exact ⟨some e.fs, rfl⟩
    · simp only [hlt, if_false]
      exact ⟨none, rfl⟩

theorem lookup_mem (cfg : Config) (g : Nat) (dg : List Nat) (h : lookup_deep_deps cfg g = some dg) :
    test_bit g cfg.deep_features = true ∧ ∃ e ∈ cfg.deep_deps, e.feature = g ∧ e.fs = dg := by
  unfold lookup_deep_deps at h
  by_cases hd : test_bit g cfg.deep_features = true
  · simp only [hd, Bool.not_true, Bool.false_eq_true, if_false] at h
    cases hs : lookup_deep_deps.search cfg.deep_deps g (cfg.deep_deps.length + 1) 0
        cfg.deep_deps.length with
    | none => rw [hs] at h; cases h
    | some r =>
      rw [hs] at h
      dsimp only at h
      subst h
      exact ⟨hd, search_mem _ _ _ _ _ _ hs⟩
  · simp [hd] at h

theorem test_bit_lt_length (h : Nat) (l : List Nat) (ht : test_bit h l = true) :
    h / 32 < l.length := by
  by_contra hc
  unfold test_bit at ht
  rw [word_of_length_le l _ (by omega)] at ht
  simp at ht

theorem test_bit_andnot (n : Nat) (f d : List Nat) (h : Nat) :
    test_bit h (fill n (fun j => word f j &&& not32 (word d j))) =
      (decide (h / 32 < n) && (test_bit h f && !test_bit h d)) := by
  rw [test_bit_fill, Nat.testBit_and, testBit_not32]
  have : h % 32 < 32 := Nat.mod_lt _ (by norm_num)
  simp [test_bit, this]

theorem le_ROUNDUP (n : Nat) : n ≤ ROUNDUP n 2 := by unfold ROUNDUP; omega

theorem subset_bits (a b : List Nat) (n : Nat)
    (hs : ∀ j < n, word a j &&& word b j = word a j) (h : Nat) (hn : h / 32 < n)
    (ha : test_bit h a = true) : test_bit h b = true := by
  unfold test_bit at *
  have := hs _ hn
  rw [← this, Nat.testBit_and] at ha
  simp at ha
  exact ha.2

theorem test_bit_disabled (cfg : Config) (a : List Nat) (g : Nat) :
    test_bit g (fill (ROUNDUP cfg.FSCAPINTS 2) (fun i =>
      if i < cfg.FSCAPINTS then not32 (word a i) &&& word cfg.deep_features i else 0)) =
    (decide (g / 32 < cfg.FSCAPINTS) && (!test_bit g a && test_bit g cfg.deep_features)) := by
  rw [test_bit_fill]
  have hR := le_ROUNDUP cfg.FSCAPINTS
  have h32 : g % 32 < 32 := Nat.mod_lt _ (by norm_num)
  by_cases hg : g / 32 < cfg.FSCAPINTS
  · have : g / 32 < ROUNDUP cfg.FSCAPINTS 2 := by omega
    simp [hg, this, Nat.testBit_and, testBit_not32, h32, test_bit]
  · simp [hg]

theorem test_bit_disabled_step (cfg : Config) (dis dfs : List Nat) (g : Nat)
    (hg : g / 32 < cfg.FSCAPINTS) :
    test_bit g (fill (ROUNDUP cfg.FSCAPINTS 2) (fun j =>
      if j < cfg.FSCAPINTS then word dis j &&& not32 (word dfs j) else word dis j)) =
    (test_bit g dis && !test_bit g dfs) := by
  rw [test_bit_fill]
  have hR := le_ROUNDUP cfg.FSCAPINTS
  have h32 : g % 32 < 32 := Nat.mod_lt _ (by norm_num)
  have : g / 32 < ROUNDUP cfg.FSCAPINTS 2 := by omega
  simp [hg, this, Nat.testBit_and, testBit_not32, h32, test_bit]

theorem test_bit_disabled_step_imp (cfg : Config) (dis dfs : List Nat) (g : Nat)
    (h : test_bit g (fill (ROUNDUP cfg.FSCAPINTS 2) (fun j =>
      if j < cfg.FSCAPINTS then word dis j &&& not32 (word dfs j) else word dis j)) = true) :
    test_bit g dis = true := by
  rw [test_bit_fill] at h
  have h32 : g % 32 < 32 := Nat.mod_lt _ (by norm_num)
  by_cases hg : g / 32 < cfg.FSCAPINTS
  · simp [hg, Nat.testBit_and, testBit_not32, h32] at h
    exact h.2.1
  · simp [hg] at h
    exact h.2

theorem sanitise_pass (cfg : Config) (hC : cfg.deps_complete) (a : List Nat)
    (ha : a.length = cfg.FSCAPINTS) :
    ∃ b dis, for_each_set_bit (fun st : List Nat × List Nat => st.2)
        (ROUNDUP cfg.FSCAPINTS 2 * 32) (sanitise_featureset.body cfg)
        (a, fill (ROUNDUP cfg.FSCAPINTS 2) (fun i =>
          if i < cfg.FSCAPINTS then not32 (word a i) &&& word cfg.deep_features i else 0)) =
        some (b, dis) ∧ Pass cfg a b := by
  have hR := le_ROUNDUP cfg.FSCAPINTS
  obtain ⟨⟨b, dis⟩, hrun, hinv⟩ := for_each_set_bit_inv
    (fun st : List Nat × List Nat => st.2) (ROUNDUP cfg.FSCAPINTS 2 * 32)
    (sanitise_featureset.body cfg)
    (a, fill (ROUNDUP cfg.FSCAPINTS 2) (fun i =>
          if i < cfg.FSCAPINTS then not32 (word a i) &&& word cfg.deep_features i else 0))
    (fun n st =>
      st.1.length = cfg.FSCAPINTS ∧
      (∀ j, word st.1 j &&& word a j = word st.1 j) ∧
      (∀ h, test_bit h st.1 = true → test_bit h a = true) ∧
      (∀ g, test_bit g st.2 = true → g / 32 < cfg.FSCAPINTS ∧
        test_bit g cfg.deep_features = true ∧ test_bit g a = false) ∧
      (∀ h, test_bit h a = true → test_bit h st.1 = false →
        ∃ g dg, g / 32 < cfg.FSCAPINTS ∧ test_bit g cfg.deep_features = true ∧
          test_bit g a = false ∧ lookup_deep_deps cfg g = some dg ∧ test_bit h dg = true) ∧
      (cfg.deps_flattened → ∀ g dg, g / 32 < cfg.FSCAPINTS →
        test_bit g cfg.deep_features = true → test_bit g a = false →
        (g < n ∨ test_bit g st.2 = false) →
        lookup_deep_deps cfg g = some dg → ∀ h, test_bit h dg = true → test_bit h st.1 = false))
    (by
      refine ⟨ha, fun j => Nat.and_self _, fun h hh => hh, ?_, ?_, ?_⟩
      · intro g hg
        rw [test_bit_disabled] at hg
        simp at hg
        exact ⟨hg.1, hg.2.2, hg.2.1⟩
      · intro h h1 h2; rw [h1] at h2; cases h2
      · intro _ g dg hg hd hga hor
        rcases hor with h0 | h0
        · omega
        · rw [test_bit_disabled] at h0
          simp [hg, hga, hd] at h0)
    (by
      rintro i ⟨f, d⟩ hi ⟨h1, h2, h3, h4, h5, h6⟩ hb
      refine ⟨h1, h2, h3, h4, h5, ?_⟩
      intro hF g dg hg hd hga hor
      refine h6 hF g dg hg hd hga ?_
      rcases hor with h0 | h0
      · by_cases hgi : g = i
        · subst hgi; exact Or.inr hb
        · exact Or.inl (by omega)
      · exact Or.inr h0)
    (by
      rintro i ⟨f, d⟩ hi ⟨h1, h2, h3, h4, h5, h6⟩ hb
      obtain ⟨hiW, hideep, hia⟩ := h4 i hb
      have hlook := hC i (by omega) hideep
      cases hl : lookup_deep_deps cfg i with
      | none => exact absurd hl hlook
      | some dn =>
        refine ⟨(fill cfg.FSCAPINTS (fun j => word f j &&& not32 (word dn j)),
          fill (ROUNDUP cfg.FSCAPINTS 2) (fun j =>
            if j < cfg.FSCAPINTS then word d j &&& not32 (word dn j) else word d j)),
          by simp only [sanitise_featureset.body, hl], ?_⟩
        refine ⟨length_fill _ _, ?_, ?_, ?_, ?_, ?_⟩
        · intro j
          rw [word_fill]
          by_cases hj : j < cfg.FSCAPINTS
          · simp only [hj, if_true]
            apply and_eq_of_bits
            intro k hk
            rw [Nat.testBit_and] at hk
            simp only [Bool.and_eq_true] at hk
            exact and_eq_bits (h2 j) k hk.1
          · simp [hj]
        · intro h hh
          rw [test_bit_andnot] at hh
          simp at hh
          exact h3 h hh.2.1
        · intro g hg
          exact h4 g (test_bit_disabled_step_imp cfg d dn g hg)
        · intro h hha hhf
          rw [test_bit_andnot] at hhf
          by_cases hf : test_bit h f = true
          · have hlen := test_bit_lt_length h f hf
            rw [h1] at hlen
            simp [hlen, hf] at hhf
            exact ⟨i, dn, hiW, hideep, hia, hl, hhf⟩
          · exact h5 h hha (by simpa using hf)
        · intro hF g dg hg hd hga hor hlg h hh
          show test_bit h (fill cfg.FSCAPINTS (fun j => word f j &&& not32 (word dn j))) = false
          rw [test_bit_andnot]
          have old : (g < i ∨ test_bit g d = false) → test_bit h f = false :=
            fun hh' => h6 hF g dg hg hd hga hh' hlg h hh
          by_cases hgi : g = i
          · subst hgi
            rw [hl] at hlg
            cases hlg
            simp [hh]
          · rcases hor with h0 | h0
            · simp [old (Or.inl (by omega))]
            · rw [test_bit_disabled_step cfg d dn g hg] at h0
              by_cases hgd : test_bit g d = false
              · simp [old (Or.inr hgd)]
              · simp [hgd] at h0
                obtain ⟨_, e, he, hef, hefs⟩ := lookup_mem cfg i dn hl
                obtain ⟨_, e', he', hef', hefs'⟩ := lookup_mem cfg g dg hlg
                have hsub := hF e he e' he' (by rw [hef', hefs]; exact h0)
                by_cases hW : h / 32 < cfg.FSCAPINTS
                · have := subset_bits e'.fs e.fs cfg.FSCAPINTS hsub h hW (by rw [hefs']; exact hh)
                  rw [hefs] at this
                  simp [this]
                · simp [hW])
  refine ⟨b, dis, hrun, ?_⟩
  obtain ⟨h1, h2, h3, h4, h5, h6⟩ := hinv
  refine ⟨h1, h2, h3, h5, ?_⟩
  intro hF g dg hg hd hga hlg h hh
  exact h6 hF g dg hg hd hga (Or.inl (by
    have : g / 32 < ROUNDUP cfg.FSCAPINTS 2 := by omega
    omega)) hlg h hh
theorem list_ext_word (l1 l2 : List Nat) (n : Nat) (h1 : l1.length = n) (h2 : l2.length = n)
    (h : ∀ j < n, word l1 j = word l2 j) : l1 = l2 := by
  apply List.ext_getElem (by omega)
  intro j hj1 hj2
  have := h j (by omega)
  unfold word at this
  rw [List.getD_eq_getElem?_getD, List.getD_eq_getElem?_getD,
    List.getElem?_eq_getElem hj1, List.getElem?_eq_getElem hj2] at this
  simpa using this

theorem sanitise_spec (cfg : Config) (hC : cfg.deps_complete) (fs : List Nat) :
    ∃ b, Pass cfg (fill cfg.FSCAPINTS (fun i => word fs i &&& word cfg.known_features i)) b ∧
      sanitise_featureset cfg fs = some (b.set cfg.FEATURESET_e1d
        ((word b cfg.FEATURESET_1d &&& cfg.CPUID_COMMON_1D_FEATURES) |||
         (word b cfg.FEATURESET_e1d &&& not32 cfg.CPUID_COMMON_1D_FEATURES))) := by
  obtain ⟨b, dis, hrun, hp⟩ := sanitise_pass cfg hC
    (fill cfg.FSCAPINTS (fun i => word fs i &&& word cfg.known_features i)) (length_fill _ _)
  refine ⟨b, hp, ?_⟩
  unfold sanitise_featureset
  simp only [hrun]

theorem test_bit_clamp (cfg : Config) (fs : List Nat) (h : Nat) :
    test_bit h (fill cfg.FSCAPINTS (fun i => word fs i &&& word cfg.known_features i)) =
      (decide (h / 32 < cfg.FSCAPINTS) && (test_bit h fs && test_bit h cfg.known_features)) := by
  rw [test_bit_fill, Nat.testBit_and]
  rfl

/-! ## Claims on `sanitise_featureset` -/

/-- C2: every word of `sanitise_featureset(fs)` is a subset of the same word
of `known_features`, word `e1d` included. -/
theorem sanitise_featureset_subset_known (cfg : Config) (hC : cfg.deps_complete)
    (hK : cfg.known_common_dup) (fs : List Nat) :
    ∃ out, sanitise_featureset cfg fs = some out ∧
      ∀ i, word out i &&& word cfg.known_features i = word out i := by
  obtain ⟨b, hp, hrun⟩ := sanitise_spec cfg hC fs
  refine ⟨_, hrun, ?_⟩
  have hbK : ∀ j k, (word b j).testBit k = true → (word cfg.known_features j).testBit k = true := by
    intro j k hk
    have h1 := and_eq_bits (hp.and_eq j) k hk
    rw [word_fill] at h1
    by_cases hj : j < cfg.FSCAPINTS
    · simp only [hj, if_true, Nat.testBit_and, Bool.and_eq_true] at h1
      exact h1.2
    · simp [hj] at h1
  intro i
  apply and_eq_of_bits
  intro k hk
  rw [word_set] at hk
  by_cases hi : i = cfg.FEATURESET_e1d ∧ cfg.FEATURESET_e1d < b.length
  · simp only [hi, and_self, if_true, Nat.testBit_or, Nat.testBit_and, Bool.or_eq_true,
      Bool.and_eq_true] at hk
    rw [hi.1]
    rcases hk with ⟨h1, h2⟩ | ⟨h1, _⟩
    · have h3 := hbK _ k h1
      have : (word cfg.known_features cfg.FEATURESET_1d &&&
          cfg.CPUID_COMMON_1D_FEATURES).testBit k = true := by
        rw [Nat.testBit_and]; simp [h3, h2]
      exact and_eq_bits hK k this
    · exact hbK _ k h1
  · simp only [hi, if_false] at hk
    exact hbK i k hk

/-- C3: a feature with deep dependants that is clear in the input has every
bit of its dependency set clear in the output of `sanitise_featureset`. -/
theorem sanitise_featureset_clears_deps (cfg : Config) (hC : cfg.deps_complete)
    (hF : cfg.deps_flattened) (hD : cfg.deps_common_dup) (hB : cfg.build_assertions)
    (fs : List Nat) (f : Nat)
    (hdeep : test_bit f cfg.deep_features = true) (hclear : test_bit f fs = false) :
    ∃ out dfs, sanitise_featureset cfg fs = some out ∧ lookup_deep_deps cfg f = some dfs ∧
      ∀ h, test_bit h dfs = true → test_bit h out = false := by
  obtain ⟨b, hp, hrun⟩ := sanitise_spec cfg hC fs
  have hfW : f / 32 < cfg.FSCAPINTS := by
    have := test_bit_lt_length f _ hdeep
    rw [hB.2.2.2.2.2] at this
    exact this
  cases hl : lookup_deep_deps cfg f with
  | none => exact absurd hl (hC f (by omega) hdeep)
  | some dfs =>
    refine ⟨_, dfs, hrun, rfl, ?_⟩
    have hfa : test_bit f (fill cfg.FSCAPINTS
        (fun i => word fs i &&& word cfg.known_features i)) = false := by
      rw [test_bit_clamp]; simp [hclear]
    have hb : ∀ h, test_bit h dfs = true → test_bit h b = false :=
      hp.dep hF f dfs hfW hdeep hfa hl
    obtain ⟨_, e, he, _, hefs⟩ := lookup_mem cfg f dfs hl
    intro h hh
    unfold test_bit
    rw [word_set]
    by_cases hi : h / 32 = cfg.FEATURESET_e1d ∧ cfg.FEATURESET_e1d < b.length
    · simp only [hi, and_self, if_true, Nat.testBit_or, Nat.testBit_and]
      have h2 : (word b cfg.FEATURESET_e1d).testBit (h % 32) = false := by
        have := hb h hh
        unfold test_bit at this
        rw [hi.1] at this
        exact this
      rw [h2]
      by_cases hc : cfg.CPUID_COMMON_1D_FEATURES.testBit (h % 32) = true
      · have h3 : (word dfs cfg.FEATURESET_e1d &&&
            cfg.CPUID_COMMON_1D_FEATURES).testBit (h % 32) = true := by
          rw [Nat.testBit_and]
          unfold test_bit at hh
          rw [hi.1] at hh
          simp [hh, hc]
        rw [← hefs] at h3
        have h4 := and_eq_bits (hD e he) _ h3
        rw [hefs] at h4
        have h5 := hb (32 * cfg.FEATURESET_1d + h % 32) (by
          unfold test_bit
          have e1 : (32 * cfg.FEATURESET_1d + h % 32) / 32 = cfg.FEATURESET_1d := by omega
          have e2 : (32 * cfg.FEATURESET_1d + h % 32) % 32 = h % 32 := by omega
          rw [e1, e2]; exact h4)
        unfold test_bit at h5
        have e1 : (32 * cfg.FEATURESET_1d + h % 32) / 32 = cfg.FEATURESET_1d := by omega
        have e2 : (32 * cfg.FEATURESET_1d + h % 32) % 32 = h % 32 := by omega
        rw [e1, e2] at h5
        simp [h5]
      · simp [hc]
    · simp only [hi, if_false]
      exact hb h hh

theorem word_lt_of_and_eq {x y : Nat} (h : x &&& y = x) (hy : y < 2 ^ 32) : x < 2 ^ 32 := by
  rw [← h]; exact Nat.lt_of_le_of_lt Nat.and_le_right hy

theorem testBit_high {x : Nat} (hx : x < 2 ^ 32) (i : Nat) (hi : 32 ≤ i) : x.testBit i = false :=
  Nat.testBit_lt_two_pow (Nat.lt_of_lt_of_le hx (Nat.pow_le_pow_right (by norm_num) hi))

theorem clamp_lt (cfg : Config) (hK : cfg.known_32bit) (fs : List Nat) (j : Nat) :
    word (fill cfg.FSCAPINTS (fun i => word fs i &&& word cfg.known_features i)) j < 2 ^ 32 := by
  rw [word_fill]
  by_cases hj : j < cfg.FSCAPINTS
  · simp only [hj, if_true]
    exact Nat.lt_of_le_of_lt Nat.and_le_right (hK j hj)
  · simp [hj]

theorem merge_lt (x y c : Nat) (hx : x < 2 ^ 32) : (x &&& c) ||| (y &&& not32 c) < 2 ^ 32 :=
  Nat.or_lt_two_pow (Nat.lt_of_le_of_lt Nat.and_le_left hx)
    (Nat.lt_of_le_of_lt Nat.and_le_right (not32_lt c))

/-- C1: `sanitise_featureset` is idempotent. -/
theorem sanitise_featureset_idempotent (cfg : Config) (hC : cfg.deps_complete)
    (hF : cfg.deps_flattened) (hN : cfg.deep_not_common) (hK : cfg.known_32bit)
    (hne : cfg.FEATURESET_1d ≠ cfg.FEATURESET_e1d) (fs : List Nat) :
    ∃ out, sanitise_featureset cfg fs = some out ∧ sanitise_featureset cfg out = some out := by
  obtain ⟨b, hp, hrun⟩ := sanitise_spec cfg hC fs
  refine ⟨_, hrun, ?_⟩
  obtain ⟨b', hp', hrun'⟩ := sanitise_spec cfg hC (b.set cfg.FEATURESET_e1d
        ((word b cfg.FEATURESET_1d &&& cfg.CPUID_COMMON_1D_FEATURES) |||
         (word b cfg.FEATURESET_e1d &&& not32 cfg.CPUID_COMMON_1D_FEATURES)))
  rw [hrun']
  -- abbreviations
  generalize hout : b.set cfg.FEATURESET_e1d
        ((word b cfg.FEATURESET_1d &&& cfg.CPUID_COMMON_1D_FEATURES) |||
         (word b cfg.FEATURESET_e1d &&& not32 cfg.CPUID_COMMON_1D_FEATURES)) = out at hp' hrun'
  have h32 : ∀ h : Nat, h % 32 < 32 := fun h => Nat.mod_lt _ (by norm_num)
  -- words of `b` and `b'` are 32-bit
  have hb32 : ∀ j, word b j < 2 ^ 32 := fun j =>
    word_lt_of_and_eq (hp.and_eq j) (clamp_lt cfg hK fs j)
  have hb'32 : ∀ j, word b' j < 2 ^ 32 := fun j =>
    word_lt_of_and_eq (hp'.and_eq j) (clamp_lt cfg hK out j)
  -- `b` lies inside the known mask
  have hbK : ∀ h, test_bit h b = true →
      h / 32 < cfg.FSCAPINTS ∧ test_bit h cfg.known_features = true := by
    intro h hh
    have := hp.sub h hh
    rw [test_bit_clamp] at this
    simp only [Bool.and_eq_true, decide_eq_true_eq] at this
    exact ⟨this.1, this.2.2⟩
  -- outside the shared bits of `e1d`, `out` agrees with `b`
  have hob : ∀ h, (h / 32 = cfg.FEATURESET_e1d →
      cfg.CPUID_COMMON_1D_FEATURES.testBit (h % 32) = false) →
      test_bit h out = test_bit h b := by
    intro h hnc
    rw [← hout]
    unfold test_bit
    rw [word_set]
    by_cases hi : h / 32 = cfg.FEATURESET_e1d ∧ cfg.FEATURESET_e1d < b.length
    · simp only [hi, and_self, if_true, Nat.testBit_or, Nat.testBit_and, testBit_not32]
      simp [hnc hi.1, h32 h, hi.1]
    · simp only [hi, if_false]
  have hab : ∀ h, (h / 32 = cfg.FEATURESET_e1d →
      cfg.CPUID_COMMON_1D_FEATURES.testBit (h % 32) = false) →
      test_bit h (fill cfg.FSCAPINTS (fun i => word out i &&& word cfg.known_features i)) =
        test_bit h b := by
    intro h hnc
    rw [test_bit_clamp, hob h hnc]
    by_cases hh : test_bit h b = true
    · obtain ⟨h1, h2⟩ := hbK h hh
      simp [hh, h1, h2]
    · simp [hh]
  -- a deep feature is never a shared bit of `e1d`
  have hdeepnc : ∀ g, test_bit g cfg.deep_features = true → g / 32 = cfg.FEATURESET_e1d →
      cfg.CPUID_COMMON_1D_FEATURES.testBit (g % 32) = false := by
    intro g hg he
    unfold test_bit at hg
    rw [he] at hg
    have : (word cfg.deep_features cfg.FEATURESET_e1d &&&
        cfg.CPUID_COMMON_1D_FEATURES).testBit (g % 32) = false := by
      rw [hN]; simp
    rw [Nat.testBit_and, hg] at this
    simpa using this
  -- every feature disabled in the second run already had its set cleared
  have hX : ∀ g dg, g / 32 < cfg.FSCAPINTS → test_bit g cfg.deep_features = true →
      test_bit g (fill cfg.FSCAPINTS (fun i => word out i &&& word cfg.known_features i)) = false →
      lookup_deep_deps cfg g = some dg → ∀ h, test_bit h dg = true → test_bit h b = false := by
    intro g dg hg hd hga hl h hh
    rw [hab g (hdeepnc g hd)] at hga
    by_cases hg1 : test_bit g (fill cfg.FSCAPINTS
        (fun i => word fs i &&& word cfg.known_features i)) = true
    · obtain ⟨g0, dg0, hg0, hd0, hga0, hl0, hin⟩ := hp.why g hg1 hga
      have hclr := hp.dep hF g0 dg0 hg0 hd0 hga0 hl0
      obtain ⟨_, e, he, hef, hefs⟩ := lookup_mem cfg g0 dg0 hl0
      obtain ⟨_, e', he', hef', hefs'⟩ := lookup_mem cfg g dg hl
      have hsub := hF e he e' he' (by rw [hef', hefs]; exact hin)
      by_cases hW : h / 32 < cfg.FSCAPINTS
      · have := subset_bits e'.fs e.fs cfg.FSCAPINTS hsub h hW (by rw [hefs']; exact hh)
        rw [hefs] at this
        exact hclr h this
      · by_contra hc
        have := test_bit_lt_length h b (by simpa using hc)
        rw [hp.len] at this
        exact hW this
    · exact hp.dep hF g dg hg hd (by simpa using hg1) hl h hh
  -- hence the second pass clears nothing outside the shared bits
  have hA : ∀ h, (h / 32 = cfg.FEATURESET_e1d →
      cfg.CPUID_COMMON_1D_FEATURES.testBit (h % 32) = false) →
      test_bit h b' = test_bit h b := by
    intro h hnc
    by_cases hh : test_bit h b = true
    · rw [hh]
      by_contra hc
      have ha' := hab h hnc
      rw [hh] at ha'
      obtain ⟨g, dg, hg, hd, hga, hl, hin⟩ := hp'.why h ha' (by simpa using hc)
      have := hX g dg hg hd hga hl h hin
      rw [hh] at this
      cases this
    · have hh' : test_bit h b = false := by simpa using hh
      rw [hh']
      by_contra hc
      have := hp'.sub h (by simpa using hc)
      rw [hab h hnc, hh'] at this
      cases this
  have hAw : ∀ j k, (j = cfg.FEATURESET_e1d → cfg.CPUID_COMMON_1D_FEATURES.testBit k = false) →
      k < 32 → (word b' j).testBit k = (word b j).testBit k := by
    intro j k hnc hk
    have e1 : (32 * j + k) / 32 = j := by omega
    have e2 : (32 * j + k) % 32 = k := by omega
    have := hA (32 * j + k) (by rw [e1, e2]; exact hnc)
    unfold test_bit at this
    rw [e1, e2] at this
    exact this
  have hlen : (b.set cfg.FEATURESET_e1d
        ((word b cfg.FEATURESET_1d &&& cfg.CPUID_COMMON_1D_FEATURES) |||
         (word b cfg.FEATURESET_e1d &&& not32 cfg.CPUID_COMMON_1D_FEATURES))).length =
      cfg.FSCAPINTS := by rw [List.length_set]; exact hp.len
  rw [← hout]
  congr 1
  apply list_ext_word _ _ cfg.FSCAPINTS (by rw [List.length_set]; exact hp'.len) hlen
  intro j hj
  rw [word_set, word_set, hp.len, hp'.len]
  by_cases hi : j = cfg.FEATURESET_e1d ∧ cfg.FEATURESET_e1d < cfg.FSCAPINTS
  · simp only [hi, and_self, if_true]
    apply Nat.eq_of_testBit_eq
    intro k
    by_cases hk : k < 32
    · simp only [Nat.testBit_or, Nat.testBit_and, testBit_not32, hk, decide_True, Bool.true_and]
      by_cases hc : cfg.CPUID_COMMON_1D_FEATURES.testBit k = true
      · rw [hAw cfg.FEATURESET_1d k (fun h => absurd h hne) hk]
        simp [hc]
      · have hc' : cfg.CPUID_COMMON_1D_FEATURES.testBit k = false := by simpa using hc
        rw [hAw cfg.FEATURESET_e1d k (fun _ => hc') hk]
        simp [hc']
    · rw [testBit_high (merge_lt _ _ _ (hb'32 _)) k (by omega),
        testBit_high (merge_lt _ _ _ (hb32 _)) k (by omega)]
  · simp only [hi, if_false]
    apply Nat.eq_of_testBit_eq
    intro k
    by_cases hk : k < 32
    · by_cases hje : j = cfg.FEATURESET_e1d
      · exact absurd ⟨hje, hje ▸ hj⟩ hi
      · exact hAw j k (fun h => absurd h hje) hk
    · rw [testBit_high (hb'32 _) k (by omega), testBit_high (hb32 _) k (by omega)]

set_option maxRecDepth 100000 in
/-- Witness for C1 on the sample tables and the all-ones featureset. -/
theorem sanitise_featureset_idempotent_witness :
    sample_cfg.deps_complete ∧ sample_cfg.deps_flattened ∧ sample_cfg.deep_not_common ∧
    sample_cfg.known_32bit ∧ sample_cfg.FEATURESET_1d ≠ sample_cfg.FEATURESET_e1d ∧
    ∃ out, sanitise_featureset sample_cfg (fill 9 (fun _ => 0xffffffff)) = some out ∧
      sanitise_featureset sample_cfg out = some out :=
  ⟨by decide, by decide, by decide, by decide, by decide,
   sanitise_featureset_idempotent sample_cfg (by decide) (by decide) (by decide) (by decide)
     (by decide) (fill 9 (fun _ => 0xffffffff))⟩

set_option maxRecDepth 100000 in
/-- Witness for C2 on the sample tables and the all-ones featureset. -/
theorem sanitise_featureset_subset_known_witness :
    sample_cfg.deps_complete ∧ sample_cfg.known_common_dup ∧
    ∃ out, sanitise_featureset sample_cfg (fill 9 (fun _ => 0xffffffff)) = some out ∧
      ∀ i, word out i &&& word sample_cfg.known_features i = word out i :=
  ⟨by decide, by decide,
   sanitise_featureset_subset_known sample_cfg (by decide) (by decide)
     (fill 9 (fun _ => 0xffffffff))⟩

set_option maxRecDepth 100000 in
/-- Witness for C3 on the sample tables: XSAVE (feature 58) clear in the input. -/
theorem sanitise_featureset_clears_deps_witness :
    sample_cfg.deps_complete ∧ sample_cfg.deps_flattened ∧ sample_cfg.deps_common_dup ∧
    sample_cfg.build_assertions ∧ test_bit 58 sample_cfg.deep_features = true ∧
    test_bit 58 (fill 9 (fun i => if i = 1 then 0xfbffffff else 0xffffffff)) = false ∧
    ∃ out dfs,
      sanitise_featureset sample_cfg (fill 9 (fun i => if i = 1 then 0xfbffffff else 0xffffffff)) =
        some out ∧
      lookup_deep_deps sample_cfg 58 = some dfs ∧
      ∀ h, test_bit h dfs = true → test_bit h out = false :=
  ⟨by decide, by decide, by decide, by decide, by decide, by decide,
   sanitise_featureset_clears_deps sample_cfg (by decide) (by decide) (by decide) (by decide)
     (fill 9 (fun i => if i = 1 then 0xfbffffff else 0xffffffff)) 58 (by decide) (by decide)⟩

/-! ## Bit operations and conversions -/

theorem test_bit_set_bit (n : Nat) (l : List Nat) (h : Nat)
    (hh : test_bit h (__set_bit n l) = true) : h = n ∨ test_bit h l = true := by
  unfold test_bit __set_bit at *
  rw [word_set] at hh
  by_cases hi : h / 32 = n / 32 ∧ n / 32 < l.length
  · simp only [hi, and_self, if_true, Nat.testBit_or, Bool.or_eq_true] at hh
    rcases hh with hh | hh
    · right; rw [hi.1]; exact hh
    · left
      rw [Nat.one_shiftLeft, Nat.testBit_two_pow] at hh
      simp only [decide_eq_true_eq] at hh
      have := hi.1
      omega
  · simp only [hi, if_false] at hh
    exact Or.inr hh

theorem test_bit_set_bit_self (n : Nat) (l : List Nat) (hn : n / 32 < l.length) :
    test_bit n (__set_bit n l) = true := by
  unfold test_bit __set_bit
  rw [word_set]
  simp [hn, Nat.testBit_or, Nat.one_shiftLeft, Nat.testBit_two_pow]

theorem length_set_bit (n : Nat) (l : List Nat) : (__set_bit n l).length = l.length := by
  unfold __set_bit; rw [List.length_set]

theorem length_clear_bit (n : Nat) (l : List Nat) : (__clear_bit n l).length = l.length := by
  unfold __clear_bit; rw [List.length_set]

theorem test_bit_clear_bit (n : Nat) (l : List Nat) (h : Nat)
    (hh : test_bit h (__clear_bit n l) = true) : test_bit h l = true := by
  unfold test_bit __clear_bit at *
  rw [word_set] at hh
  by_cases hi : h / 32 = n / 32 ∧ n / 32 < l.length
  · simp only [hi, and_self, if_true, Nat.testBit_and, Bool.and_eq_true] at hh
    rw [hi.1]; exact hh.1
  · simp only [hi, if_false] at hh
    exact hh

theorem test_bit_clear_bit_self (n : Nat) (l : List Nat) :
    test_bit n (__clear_bit n l) = false := by
  unfold test_bit __clear_bit
  rw [word_set]
  have h32 : n % 32 < 32 := Nat.mod_lt _ (by norm_num)
  by_cases hn : n / 32 < l.length
  · simp [hn, Nat.testBit_and, testBit_not32, Nat.one_shiftLeft, Nat.testBit_two_pow]
  · simp only [hn, and_false, if_false]
    rw [word_of_length_le l _ (by omega)]
    simp

theorem test_bit_and_fill (n : Nat) (a m : List Nat) (h : Nat) :
    test_bit h (fill n (fun i => word a i &&& word m i)) =
      (decide (h / 32 < n) && (test_bit h a && test_bit h m)) := by
  rw [test_bit_fill, Nat.testBit_and]
  rfl

theorem word_set_ind (Q : Nat → Prop) (l : List Nat) (i v j : Nat) (hl : Q (word l j))
    (hv : j = i → Q v) : Q (word (l.set i v) j) := by
  rw [word_set]
  by_cases h : j = i ∧ i < l.length
  · simp only [h, and_self, if_true]; exact hv h.1
  · simp only [h, if_false]; exact hl

/-- The words of the featureset of a policy are its nine feature words, or zero. -/
theorem to_featureset_word (cfg : Config) (p : cpuid_policy) (j : Nat) :
    is_feature_word cfg p j (word (cpuid_policy_to_featureset cfg p) j) := by
  simp only [cpuid_policy_to_featureset]
  refine word_set_ind (is_feature_word cfg p j) _ _ _ _ ?_ (fun h => by simp [is_feature_word, h])
  refine word_set_ind (is_feature_word cfg p j) _ _ _ _ ?_ (fun h => by simp [is_feature_word, h])
  refine word_set_ind (is_feature_word cfg p j) _ _ _ _ ?_ (fun h => by simp [is_feature_word, h])
  refine word_set_ind (is_feature_word cfg p j) _ _ _ _ ?_ (fun h => by simp [is_feature_word, h])
  refine word_set_ind (is_feature_word cfg p j) _ _ _ _ ?_ (fun h => by simp [is_feature_word, h])
  refine word_set_ind (is_feature_word cfg p j) _ _ _ _ ?_ (fun h => by simp [is_feature_word, h])
  refine word_set_ind (is_feature_word cfg p j) _ _ _ _ ?_ (fun h => by simp [is_feature_word, h])
  refine word_set_ind (is_feature_word cfg p j) _ _ _ _ ?_ (fun h => by simp [is_feature_word, h])
  refine word_set_ind (is_feature_word cfg p j) _ _ _ _ ?_ (fun h => by simp [is_feature_word, h])
  rw [word_fill]
  left
  split_ifs <;> rfl

theorem length_to_featureset (cfg : Config) (p : cpuid_policy) :
    (cpuid_policy_to_featureset cfg p).length = cfg.FSCAPINTS := by
  unfold cpuid_policy_to_featureset
  simp only [List.length_set, length_fill]

/-- Under the layout of the feature words, the featureset of a policy holds
each feature word at its slot. -/
theorem to_featureset_exact (cfg : Config) (hL : cfg.layout) (p : cpuid_policy) :
    word (cpuid_policy_to_featureset cfg p) cfg.FEATURESET_1d = p.basic._1d ∧
    word (cpuid_policy_to_featureset cfg p) cfg.FEATURESET_1c = p.basic._1c ∧
    word (cpuid_policy_to_featureset cfg p) cfg.FEATURESET_e1d = p.extd.e1d ∧
    word (cpuid_policy_to_featureset cfg p) cfg.FEATURESET_e1c = p.extd.e1c ∧
    word (cpuid_policy_to_featureset cfg p) cfg.FEATURESET_Da1 = p.xstate.Da1 ∧
    word (cpuid_policy_to_featureset cfg p) cfg.FEATURESET_7b0 = p.feat._7b0 ∧
    word (cpuid_policy_to_featureset cfg p) cfg.FEATURESET_7c0 = p.feat._7c0 ∧
    word (cpuid_policy_to_featureset cfg p) cfg.FEATURESET_e7d = p.extd.e7d ∧
    word (cpuid_policy_to_featureset cfg p) cfg.FEATURESET_e8b = p.extd.e8b := by
  obtain ⟨hnd, hlt⟩ := hL
  simp only [List.nodup_cons, List.mem_cons, List.mem_singleton, not_or, List.not_mem_nil,
    not_false_eq_true, List.nodup_nil, and_true] at hnd
  simp only [List.mem_cons, List.mem_singleton, forall_eq_or_imp, forall_eq, List.not_mem_nil,
    false_implies, implies_true, and_true] at hlt
  obtain ⟨⟨a1, a2, a3, a4, a5, a6, a7, a8⟩, ⟨b2, b3, b4, b5, b6, b7, b8⟩, ⟨c3, c4, c5, c6, c7, c8⟩,
    ⟨d4, d5, d6, d7, d8⟩, ⟨e5, e6, e7, e8⟩, ⟨f6, f7, f8⟩, ⟨g7, g8⟩, h8⟩ := hnd
  obtain ⟨l1, l2, l3, l4, l5, l6, l7, l8, l9⟩ := hlt
  simp only [cpuid_policy_to_featureset, word_set, List.length_set, length_fill]
  refine ⟨?_, ?_, ?_, ?_, ?_, ?_, ?_, ?_, ?_⟩ <;>
    simp [*, Ne.symm a1, Ne.symm a2, Ne.symm a3, Ne.symm a4, Ne.symm a5, Ne.symm a6, Ne.symm a7,
      Ne.symm a8, Ne.symm b2, Ne.symm b3, Ne.symm b4, Ne.symm b5, Ne.symm b6, Ne.symm b7,
      Ne.symm b8, Ne.symm c3, Ne.symm c4, Ne.symm c5, Ne.symm c6, Ne.symm c7, Ne.symm c8,
      Ne.symm d4, Ne.symm d5, Ne.symm d6, Ne.symm d7, Ne.symm d8, Ne.symm e5, Ne.symm e6,
      Ne.symm e7, Ne.symm e8, Ne.symm f6, Ne.symm f7, Ne.symm f8, Ne.symm g7, Ne.symm g8,
      Ne.symm h8]

theorem to_policy_fields (cfg : Config) (fs : List Nat) (p : cpuid_policy) :
    (cpuid_featureset_to_policy cfg fs p).basic._1d = word fs cfg.FEATURESET_1d ∧
    (cpuid_featureset_to_policy cfg fs p).basic._1c = word fs cfg.FEATURESET_1c ∧
    (cpuid_featureset_to_policy cfg fs p).extd.e1d = word fs cfg.FEATURESET_e1d ∧
    (cpuid_featureset_to_policy cfg fs p).extd.e1c = word fs cfg.FEATURESET_e1c ∧
    (cpuid_featureset_to_policy cfg fs p).xstate.Da1 = word fs cfg.FEATURESET_Da1 ∧
    (cpuid_featureset_to_policy cfg fs p).feat._7b0 = word fs cfg.FEATURESET_7b0 ∧
    (cpuid_featureset_to_policy cfg fs p).feat._7c0 = word fs cfg.FEATURESET_7c0 ∧
    (cpuid_featureset_to_policy cfg fs p).extd.e7d = word fs cfg.FEATURESET_e7d ∧
    (cpuid_featureset_to_policy cfg fs p).extd.e8b = word fs cfg.FEATURESET_e8b := by
  simp [cpuid_featureset_to_policy, basic_t._1d, basic_t._1c, extd_t.e1d, extd_t.e1c,
    xstate_t.Da1, feat_t._7b0, feat_t._7c0, extd_t.e7d, extd_t.e8b, upd]

theorem comp_low (cfg : Config) (env : Env) (xstates : Nat) (x : Nat → cpuid_leaf) (j : Nat)
    (hj : j < 2) : recalculate_xstate.comp cfg env xstates x j = x j := by
  unfold recalculate_xstate.comp
  have key : ∀ (l : List Nat), (∀ i ∈ l, 2 ≤ i) → ∀ x : Nat → cpuid_leaf,
      (l.foldl (recalculate_xstate.comp_step cfg env xstates) x) j = x j := by
    intro l
    induction l with
    | nil => intro _ x; rfl
    | cons a t ih =>
      intro hl x
      rw [List.foldl_cons, ih (fun i hi => hl i (List.mem_cons_of_mem _ hi))]
      have ha := hl a (List.mem_cons_self _ _)
      unfold recalculate_xstate.comp_step
      split_ifs
      · rfl
      · have : j ≠ a := by omega
        simp [upd, this]
  apply key
  intro i hi
  rw [List.mem_range'_1] at hi
  exact hi.1

theorem recalculate_xstate_frame (cfg : Config) (env : Env) (p : cpuid_policy) :
    (recalculate_xstate cfg env p).basic = p.basic ∧
    (recalculate_xstate cfg env p).feat = p.feat ∧
    (recalculate_xstate cfg env p).extd = p.extd ∧
    (recalculate_xstate cfg env p).legacy = p.legacy ∧
    (recalculate_xstate cfg env p).x86_vendor = p.x86_vendor := by
  unfold recalculate_xstate
  dsimp only
  split_ifs <;> simp

theorem recalculate_xstate_Da1 (cfg : Config) (env : Env) (p : cpuid_policy) :
    (recalculate_xstate cfg env p).xstate.Da1 = if p.basic.xsave cfg then p.xstate.Da1 else 0 := by
  unfold recalculate_xstate
  dsimp only
  by_cases hx : p.basic.xsave cfg = true
  · simp only [hx, Bool.not_true, Bool.false_eq_true, if_false, if_true]
    unfold xstate_t.Da1
    dsimp only
    rw [comp_low cfg env _ _ 1 (by norm_num)]
    split_ifs <;> simp [upd]
  · have hx' : p.basic.xsave cfg = false := by simpa using hx
    simp [hx', xstate_t.Da1, EMPTY_LEAF]

theorem roundtrip_bits (cfg : Config) (env : Env) (fs : List Nat) (p : cpuid_policy) (h : Nat)
    (hh : test_bit h (cpuid_policy_to_featureset cfg
      (recalculate_xstate cfg env (cpuid_featureset_to_policy cfg fs p))) = true) :
    test_bit h fs = true := by
  unfold test_bit at *
  have hw := to_featureset_word cfg
    (recalculate_xstate cfg env (cpuid_featureset_to_policy cfg fs p)) (h / 32)
  obtain ⟨f1, f2, f3, _, _⟩ := recalculate_xstate_frame cfg env (cpuid_featureset_to_policy cfg fs p)
  have hDa := recalculate_xstate_Da1 cfg env (cpuid_featureset_to_policy cfg fs p)
  obtain ⟨g1, g2, g3, g4, g5, g6, g7, g8, g9⟩ := to_policy_fields cfg fs p
  unfold is_feature_word at hw
  rw [f1, f2, f3, hDa, g1, g2, g3, g4, g5, g6, g7, g8, g9] at hw
  rcases hw with hw | ⟨hj, hw⟩ | ⟨hj, hw⟩ | ⟨hj, hw⟩ | ⟨hj, hw⟩ | ⟨hj, hw⟩ | ⟨hj, hw⟩ | ⟨hj, hw⟩ |
    ⟨hj, hw⟩ | ⟨hj, hw⟩
  · rw [hw] at hh; simp at hh
  all_goals first
    | (rw [hw] at hh; rw [hj]; exact hh)
    | (rw [hw] at hh
       split_ifs at hh
       · rw [hj]; exact hh
       · simp at hh)

theorem sanitise_narrow (cfg : Config) (hC : cfg.deps_complete) (fs : List Nat) :
    ∃ out, sanitise_featureset cfg fs = some out ∧ out.length = cfg.FSCAPINTS ∧
      ∀ h, test_bit h out = true →
        (test_bit h fs = true ∧ ¬ is_shared_e1d cfg h) ∨
        (is_shared_e1d cfg h ∧ test_bit (twin_1d cfg h) fs = true) := by
  obtain ⟨b, hp, hrun⟩ := sanitise_spec cfg hC fs
  refine ⟨_, hrun, by rw [List.length_set]; exact hp.len, ?_⟩
  have hbfs : ∀ h, test_bit h b = true → test_bit h fs = true := by
    intro h hh
    have := hp.sub h hh
    rw [test_bit_clamp] at this
    simp only [Bool.and_eq_true, decide_eq_true_eq] at this
    exact this.2.1
  have h32 : ∀ h : Nat, h % 32 < 32 := fun h => Nat.mod_lt _ (by norm_num)
  intro h hh
  unfold test_bit at hh
  rw [word_set] at hh
  by_cases hi : h / 32 = cfg.FEATURESET_e1d ∧ cfg.FEATURESET_e1d < b.length
  · simp only [hi, and_self, if_true, Nat.testBit_or, Nat.testBit_and, testBit_not32,
      Bool.or_eq_true, Bool.and_eq_true, Bool.not_eq_true', decide_eq_true_eq] at hh
    rcases hh with ⟨h1, h2⟩ | ⟨h1, _, h3⟩
    · right
      refine ⟨⟨hi.1, h2⟩, hbfs _ ?_⟩
      unfold test_bit twin_1d
      have e1 : (32 * cfg.FEATURESET_1d + h % 32) / 32 = cfg.FEATURESET_1d := by
        have := h32 h; omega
      have e2 : (32 * cfg.FEATURESET_1d + h % 32) % 32 = h % 32 := by
        have := h32 h; omega
      rw [e1, e2]; exact h1
    · left
      refine ⟨hbfs h ?_, fun hs => ?_⟩
      · unfold test_bit; rw [hi.1]; exact h1
      · rw [hs.2] at h3; cases h3
  · simp only [hi, if_false] at hh
    have hb : test_bit h b = true := hh
    by_cases hs : is_shared_e1d cfg h
    · -- the slot `e1d` lies outside the array: no bit of `b` is there
      exfalso
      have := test_bit_lt_length h b hb
      exact hi ⟨hs.1, hs.1 ▸ this⟩
    · exact Or.inl ⟨hbfs h hb, hs⟩

/-! ## Claims on the boot-time policies -/

theorem bits_from_mask (ref : List Nat) (forced : Nat → Prop) (n : Nat) (m : List Nat) :
    bits_from ref forced (fill n (fun i => word ref i &&& word m i)) := by
  intro h hh
  rw [test_bit_and_fill] at hh
  simp only [Bool.and_eq_true] at hh
  exact Or.inr hh.2.1

theorem bits_from_and (ref : List Nat) (forced : Nat → Prop) (n : Nat) (fs m : List Nat)
    (hm : bits_from ref forced m) : bits_from ref forced (fill n (fun i => word fs i &&& word m i)) := by
  intro h hh
  rw [test_bit_and_fill] at hh
  simp only [Bool.and_eq_true] at hh
  exact hm h hh.2.2

theorem bits_from_set (ref : List Nat) (forced : Nat → Prop) (n : Nat) (fs : List Nat)
    (hn : forced n) (hfs : bits_from ref forced fs) : bits_from ref forced (__set_bit n fs) := by
  intro h hh
  rcases test_bit_set_bit _ _ _ hh with h1 | h1
  · exact Or.inl (h1 ▸ hn)
  · exact hfs h h1

theorem bits_from_clear (ref : List Nat) (forced : Nat → Prop) (n : Nat) (fs : List Nat)
    (hfs : bits_from ref forced fs) : bits_from ref forced (__clear_bit n fs) :=
  fun h hh => hfs h (test_bit_clear_bit _ _ _ hh)

theorem bits_from_ite (ref : List Nat) (forced : Nat → Prop) (c : Prop) [Decidable c]
    (a b : List Nat) (ha : c → bits_from ref forced a) (hb : ¬ c → bits_from ref forced b) :
    bits_from ref forced (if c then a else b) := by
  split_ifs with h
  · exact ha h
  · exact hb h

theorem within_of_sanitise (cfg : Config) (hC : cfg.deps_complete) (env : Env)
    (ref : List Nat) (forced : Nat → Prop) (fs : List Nat) (p : cpuid_policy)
    (hfs : bits_from ref forced fs) :
    ∃ out, sanitise_featureset cfg fs = some out ∧
      within cfg ref forced (recalculate_xstate cfg env (cpuid_featureset_to_policy cfg out p)) := by
  obtain ⟨out, hrun, _, hn⟩ := sanitise_narrow cfg hC fs
  refine ⟨out, hrun, ?_⟩
  intro h hh
  have ho := roundtrip_bits cfg env out p h hh
  rcases hn h ho with ⟨h1, h2⟩ | ⟨h1, h2⟩
  · exact Or.inl ⟨h2, hfs h h1⟩
  · exact Or.inr ⟨h1, hfs _ h2⟩

theorem pv_featureset_bits (cfg : Config) (env : Env) :
    bits_from (cpuid_policy_to_featureset cfg env.host_policy) (forced_pv_max cfg)
      (calculate_pv_max_policy.featureset cfg env) :=
  bits_from_set _ _ _ _ rfl (bits_from_mask _ _ _ _)

theorem hvm_featureset_bits (cfg : Config) (env : Env) :
    bits_from (cpuid_policy_to_featureset cfg env.host_policy) (forced_hvm_max cfg env)
      (calculate_hvm_max_policy.featureset cfg env) := by
  unfold calculate_hvm_max_policy.featureset
  dsimp only
  have hbase : bits_from (cpuid_policy_to_featureset cfg env.host_policy)
      (forced_hvm_max cfg env)
      (__set_bit cfg.X86_FEATURE_APIC (__set_bit cfg.X86_FEATURE_HYPERVISOR
        (fill cfg.FSCAPINTS (fun i =>
          word (cpuid_policy_to_featureset cfg env.host_policy) i &&&
            word (if env.hap_supported = true then cfg.hvm_hap_featuremask
              else cfg.hvm_shadow_featuremask) i)))) :=
    bits_from_set _ _ _ _ (Or.inr (Or.inl rfl))
      (bits_from_set _ _ _ _ (Or.inl rfl) (bits_from_mask _ _ _ _))
  have hsep : bits_from (cpuid_policy_to_featureset cfg env.host_policy)
      (forced_hvm_max cfg env)
      (if (env.boot_cpu_data_x86_vendor = cfg.X86_VENDOR_AMD &&
            env.raw_policy.basic.sep cfg) = true then
        __set_bit cfg.X86_FEATURE_SEP (__set_bit cfg.X86_FEATURE_APIC
          (__set_bit cfg.X86_FEATURE_HYPERVISOR (fill cfg.FSCAPINTS (fun i =>
            word (cpuid_policy_to_featureset cfg env.host_policy) i &&&
              word (if env.hap_supported = true then cfg.hvm_hap_featuremask
                else cfg.hvm_shadow_featuremask) i))))
      else __set_bit cfg.X86_FEATURE_APIC
          (__set_bit cfg.X86_FEATURE_HYPERVISOR (fill cfg.FSCAPINTS (fun i =>
            word (cpuid_policy_to_featureset cfg env.host_policy) i &&&
              word (if env.hap_supported = true then cfg.hvm_hap_featuremask
                else cfg.hvm_shadow_featuremask) i)))) := by
    apply bits_from_ite
    · intro hc
      simp only [Bool.and_eq_true, decide_eq_true_eq] at hc
      exact bits_from_set _ _ _ _ (Or.inr (Or.inr ⟨rfl, hc.1, hc.2⟩)) hbase
    · intro _; exact hbase
  apply bits_from_ite
  · intro _
    apply bits_from_ite
    · intro _
      exact bits_from_clear _ _ _ _ (bits_from_ite _ _ _ _ _
        (fun _ => bits_from_clear _ _ _ _ hsep) (fun _ => hsep))
    · intro _
      exact bits_from_ite _ _ _ _ _ (fun _ => bits_from_clear _ _ _ _ hsep) (fun _ => hsep)
  · intro _; exact hsep

/-- C4 (as amended): the featuresets of `pv_max_policy` and `hvm_max_policy`
lie within the featureset of `host_policy`, except for the features the code
sets unconditionally (HYPERVISOR; for HVM also APIC and, on AMD, SEP) and with
the shared bits of word `e1d` standing for their twins in word `1d`; a disabled
HVM leaves `hvm_max_policy` as it was. -/
theorem max_policies_within_host (cfg : Config) (hC : cfg.deps_complete) (env : Env) :
    (∃ pv, calculate_pv_max_policy cfg env = some pv ∧
      within cfg (cpuid_policy_to_featureset cfg env.host_policy) (forced_pv_max cfg) pv) ∧
    (∃ hvm, calculate_hvm_max_policy cfg env = some hvm ∧
      (if env.hvm_enabled then
        within cfg (cpuid_policy_to_featureset cfg env.host_policy) (forced_hvm_max cfg env) hvm
      else hvm = env.hvm_max_policy)) := by
  constructor
  · obtain ⟨out, hrun, hw⟩ := within_of_sanitise cfg hC env
      (cpuid_policy_to_featureset cfg env.host_policy) (forced_pv_max cfg)
      (calculate_pv_max_policy.featureset cfg env) env.host_policy (pv_featureset_bits cfg env)
    refine ⟨_, ?_, hw⟩
    unfold calculate_pv_max_policy
    simp only [hrun]
  · by_cases hen : env.hvm_enabled = true
    · obtain ⟨out, hrun, hw⟩ := within_of_sanitise cfg hC env
        (cpuid_policy_to_featureset cfg env.host_policy) (forced_hvm_max cfg env)
        (calculate_hvm_max_policy.featureset cfg env) env.host_policy
        (hvm_featureset_bits cfg env)
      refine ⟨_, ?_, by simp only [hen, if_true]; exact hw⟩
      unfold calculate_hvm_max_policy
      simp only [hen, Bool.not_true, Bool.false_eq_true, if_false, hrun]
    · have hen' : env.hvm_enabled = false := by simpa using hen
      refine ⟨env.hvm_max_policy, ?_, ?_⟩
      · unfold calculate_hvm_max_policy; simp [hen']
      · simp [hen']

set_option maxRecDepth 100000 in
/-- Counterexample to C4 as stated: on the sample host, word `1c` of the
featureset of `pv_max_policy` has the HYPERVISOR bit, which the host lacks. -/
theorem pv_max_policy_exceeds_host :
    ∃ pv, calculate_pv_max_policy sample_cfg booted_env = some pv ∧
      ¬ ∀ i < sample_cfg.FSCAPINTS,
        word (cpuid_policy_to_featureset sample_cfg pv) i &&&
          word (cpuid_policy_to_featureset sample_cfg booted_env.host_policy) i =
        word (cpuid_policy_to_featureset sample_cfg pv) i := by
  have e : (calculate_pv_max_policy sample_cfg booted_env).map
      (fun pv => word (cpuid_policy_to_featureset sample_cfg pv) 1) = some 0xf6f83203 := by
    decide
  have e2 : word (cpuid_policy_to_featureset sample_cfg booted_env.host_policy) 1 = 0x7ffafbff := by
    decide
  cases hc : calculate_pv_max_policy sample_cfg booted_env with
  | none => rw [hc] at e; cases e
  | some pv =>
    rw [hc] at e
    simp only [Option.map_some', Option.some.injEq] at e
    refine ⟨pv, rfl, fun h => ?_⟩
    have := h 1 (by decide)
    rw [e, e2] at this
    revert this
    decide

set_option maxRecDepth 100000 in
/-- Witness for the amended C4 on the sample boot environment. -/
theorem max_policies_within_host_witness :
    sample_cfg.deps_complete ∧
    (∃ pv, calculate_pv_max_policy sample_cfg booted_env = some pv ∧
      within sample_cfg (cpuid_policy_to_featureset sample_cfg booted_env.host_policy)
        (forced_pv_max sample_cfg) pv) ∧
    (∃ hvm, calculate_hvm_max_policy sample_cfg booted_env = some hvm ∧
      (if booted_env.hvm_enabled then
        within sample_cfg (cpuid_policy_to_featureset sample_cfg booted_env.host_policy)
          (forced_hvm_max sample_cfg booted_env) hvm
      else hvm = booted_env.hvm_max_policy)) :=
  ⟨by decide, max_policies_within_host sample_cfg (by decide) booted_env⟩

/-! ## Claims on `recalculate_cpuid_policy` -/

theorem to_featureset_maxima (cfg : Config) (env : Env) (d : domain) :
    cpuid_policy_to_featureset cfg (recalculate_cpuid_policy.maxima env d) =
      cpuid_policy_to_featureset cfg d.cpuid := by
  simp [cpuid_policy_to_featureset, recalculate_cpuid_policy.maxima,
    cpuid_policy.set_basic_max_leaf, cpuid_policy.set_feat_max_subleaf,
    cpuid_policy.set_extd_max_leaf, basic_t._1d, basic_t._1c, extd_t.e1d, extd_t.e1c,
    xstate_t.Da1, feat_t._7b0, feat_t._7c0, extd_t.e7d, extd_t.e8b, upd]

/-- The features `recalculate_cpuid_policy` lets the toolstack choose whatever
the max policy holds. -/
theorem max_fs_bits (cfg : Config) (env : Env) (d : domain) :
    bits_from (cpuid_policy_to_featureset cfg (recalculate_cpuid_policy.max env d))
      (fun h => h = cfg.X86_FEATURE_HTT ∨ h = cfg.X86_FEATURE_X2APIC ∨
        h = cfg.X86_FEATURE_CMP_LEGACY ∨ h = cfg.X86_FEATURE_ITSC)
      (recalculate_cpuid_policy.max_fs cfg env d) := by
  unfold recalculate_cpuid_policy.max_fs
  dsimp only
  have h0 : bits_from (cpuid_policy_to_featureset cfg (recalculate_cpuid_policy.max env d))
      (fun h => h = cfg.X86_FEATURE_HTT ∨ h = cfg.X86_FEATURE_X2APIC ∨
        h = cfg.X86_FEATURE_CMP_LEGACY ∨ h = cfg.X86_FEATURE_ITSC)
      (__set_bit cfg.X86_FEATURE_CMP_LEGACY (__set_bit cfg.X86_FEATURE_X2APIC
        (__set_bit cfg.X86_FEATURE_HTT
          (if (d.is_hvm_domain && !d.hap_enabled) = true then
            fill cfg.FSCAPINTS (fun i =>
              word (cpuid_policy_to_featureset cfg (recalculate_cpuid_policy.max env d)) i &&&
                word cfg.hvm_shadow_featuremask i)
          else cpuid_policy_to_featureset cfg (recalculate_cpuid_policy.max env d))))) := by
    refine bits_from_set _ _ _ _ (Or.inr (Or.inr (Or.inl rfl)))
      (bits_from_set _ _ _ _ (Or.inr (Or.inl rfl)) (bits_from_set _ _ _ _ (Or.inl rfl) ?_))
    apply bits_from_ite
    · intro _; exact bits_from_mask _ _ _ _
    · intro _ h hh; exact Or.inr hh
  have h1 := bits_from_ite _ _ (d.is_pv_32bit_domain = true) _ _
    (fun _ => bits_from_ite _ _ (env.boot_cpu_data_x86_vendor ≠ cfg.X86_VENDOR_AMD) _ _
      (fun _ => bits_from_clear _ _ cfg.X86_FEATURE_SYSCALL _
        (bits_from_clear _ _ cfg.X86_FEATURE_LM _ h0))
      (fun _ => bits_from_clear _ _ cfg.X86_FEATURE_LM _ h0))
    (fun _ => h0)
  apply bits_from_ite
  · intro _; exact bits_from_set _ _ _ _ (Or.inr (Or.inr (Or.inr rfl))) h1
  · intro _; exact h1

theorem clamped_bits (cfg : Config) (env : Env) (d : domain) (h : Nat)
    (hh : test_bit h (recalculate_cpuid_policy.clamped cfg env d) = true) :
    test_bit h (cpuid_policy_to_featureset cfg d.cpuid) = true ∧
    test_bit h (recalculate_cpuid_policy.max_fs cfg env d) = true := by
  unfold recalculate_cpuid_policy.clamped at hh
  dsimp only at hh
  have key : test_bit h (fill cfg.FSCAPINTS (fun i =>
      word (cpuid_policy_to_featureset cfg (recalculate_cpuid_policy.maxima env d)) i &&&
        word (recalculate_cpuid_policy.max_fs cfg env d) i)) = true := by
    split_ifs at hh
    · exact test_bit_clear_bit _ _ _ hh
    · exact hh
  rw [test_bit_and_fill, to_featureset_maxima] at key
  simp only [Bool.and_eq_true] at key
  exact key.2

theorem fold_bits (cfg : Config) (env : Env) (fs : List Nat) (h : Nat)
    (hs : ¬ is_special_7b0 cfg h) (hh : test_bit h (recalculate_cpuid_policy.fold cfg env fs) = true) :
    test_bit h fs = true := by
  unfold recalculate_cpuid_policy.fold test_bit at *
  simp only [word_set, List.length_set] at hh
  have h32 : h % 32 < 32 := Nat.mod_lt _ (by norm_num)
  by_cases hi : h / 32 = cfg.FEATURESET_7b0 ∧ cfg.FEATURESET_7b0 < fs.length
  · simp only [hi, and_self, if_true, true_and, Nat.testBit_or, Nat.testBit_and, testBit_not32,
      Bool.or_eq_true, Bool.and_eq_true] at hh
    rcases hh with hh | hh
    · rw [hi.1]; exact hh.1
    · exact absurd ⟨hi.1, hh.2⟩ hs
  · simp only [hi, if_false] at hh
    exact hh

/-- C5: `recalculate_cpuid_policy` only narrows: outside the shared bits of
word `e1d` and the special bits of word `7b0`, a feature set after the call was
set before it, and is set in the max policy or is one of HTT, X2APIC,
CMP_LEGACY, ITSC. -/
theorem recalculate_cpuid_policy_narrows (cfg : Config) (hC : cfg.deps_complete) (env : Env)
    (d : domain) :
    ∃ d', recalculate_cpuid_policy cfg env d = some d' ∧
      ∀ h, ¬ is_shared_e1d cfg h → ¬ is_special_7b0 cfg h →
        test_bit h (cpuid_policy_to_featureset cfg d'.cpuid) = true →
        test_bit h (cpuid_policy_to_featureset cfg d.cpuid) = true ∧
        (test_bit h (cpuid_policy_to_featureset cfg
            (if d.is_pv_domain then env.pv_max_policy else env.hvm_max_policy)) = true ∨
          h = cfg.X86_FEATURE_HTT ∨ h = cfg.X86_FEATURE_X2APIC ∨
          h = cfg.X86_FEATURE_CMP_LEGACY ∨ h = cfg.X86_FEATURE_ITSC) := by
  obtain ⟨out, hrun, _, hn⟩ := sanitise_narrow cfg hC (recalculate_cpuid_policy.clamped cfg env d)
  refine ⟨{ d with cpuid := (recalculate_xstate cfg env
    (cpuid_featureset_to_policy cfg (recalculate_cpuid_policy.fold cfg env out)
      (recalculate_cpuid_policy.maxima env d))) },
    by unfold recalculate_cpuid_policy; simp only [hrun], ?_⟩
  intro h hsh hsp hh
  have h1 := roundtrip_bits cfg env _ _ h hh
  have h2 := fold_bits cfg env out h hsp h1
  rcases hn h h2 with ⟨h3, _⟩ | ⟨h3, _⟩
  · obtain ⟨h4, h5⟩ := clamped_bits cfg env d h h3
    refine ⟨h4, ?_⟩
    rcases max_fs_bits cfg env d h h5 with h6 | h6
    · exact Or.inr h6
    · exact Or.inl h6
  · exact absurd h3 hsh

set_option maxRecDepth 100000 in
/-- Witness for C5: a shadow-paging HVM domain created from `hvm_max_policy`
in the booted sample environment. -/
theorem recalculate_cpuid_policy_narrows_witness :
    sample_cfg.deps_complete ∧
    ∃ d', recalculate_cpuid_policy sample_cfg booted_env
        (sample_domain booted_env.hvm_max_policy) = some d' ∧
      ∀ h, ¬ is_shared_e1d sample_cfg h → ¬ is_special_7b0 sample_cfg h →
        test_bit h (cpuid_policy_to_featureset sample_cfg d'.cpuid) = true →
        test_bit h (cpuid_policy_to_featureset sample_cfg
          (sample_domain booted_env.hvm_max_policy).cpuid) = true ∧
        (test_bit h (cpuid_policy_to_featureset sample_cfg
            (if (sample_domain booted_env.hvm_max_policy).is_pv_domain then
              booted_env.pv_max_policy else booted_env.hvm_max_policy)) = true ∨
          h = sample_cfg.X86_FEATURE_HTT ∨ h = sample_cfg.X86_FEATURE_X2APIC ∨
          h = sample_cfg.X86_FEATURE_CMP_LEGACY ∨ h = sample_cfg.X86_FEATURE_ITSC) :=
  ⟨by decide, recalculate_cpuid_policy_narrows sample_cfg (by decide) booted_env
    (sample_domain booted_env.hvm_max_policy)⟩

theorem test_bit_false_ite (n : Nat) (c : Prop) [Decidable c] (a b : List Nat)
    (ha : test_bit n a = false) (hb : test_bit n b = false) :
    test_bit n (if c then a else b) = false := by
  split_ifs
  · exact ha
  · exact hb

theorem test_bit_false_set (n m : Nat) (fs : List Nat) (hne : n ≠ m)
    (h : test_bit n fs = false) : test_bit n (__set_bit m fs) = false := by
  by_contra hc
  rcases test_bit_set_bit _ _ _ (by simpa using hc) with h1 | h1
  · exact hne h1
  · rw [h] at h1; cases h1

theorem test_bit_false_clear (n m : Nat) (fs : List Nat) (h : test_bit n fs = false) :
    test_bit n (__clear_bit m fs) = false := by
  by_contra hc
  have := test_bit_clear_bit _ _ _ (by simpa using hc)
  rw [h] at this; cases this

theorem test_bit_false_and (n w : Nat) (a m : List Nat)
    (h : test_bit n a = false ∨ test_bit n m = false) :
    test_bit n (fill w (fun i => word a i &&& word m i)) = false := by
  rw [test_bit_and_fill]
  rcases h with h | h <;> simp [h]

theorem test_bit_max_fs_lm (cfg : Config) (hI : cfg.X86_FEATURE_ITSC ≠ cfg.X86_FEATURE_LM)
    (env : Env) (d : domain) (h32 : d.is_pv_32bit_domain = true) :
    test_bit cfg.X86_FEATURE_LM (recalculate_cpuid_policy.max_fs cfg env d) = false := by
  unfold recalculate_cpuid_policy.max_fs
  simp only [h32, if_true]
  have hX : ∀ m, test_bit cfg.X86_FEATURE_LM
      (if env.boot_cpu_data_x86_vendor ≠ cfg.X86_VENDOR_AMD then
        __clear_bit cfg.X86_FEATURE_SYSCALL (__clear_bit cfg.X86_FEATURE_LM m)
      else __clear_bit cfg.X86_FEATURE_LM m) = false := fun m =>
    test_bit_false_ite _ _ _ _
      (test_bit_false_clear _ _ _ (test_bit_clear_bit_self _ _)) (test_bit_clear_bit_self _ _)
  exact test_bit_false_ite _ _ _ _ (test_bit_false_set _ _ _ hI.symm (hX _)) (hX _)

/-- C8: after `recalculate_cpuid_policy` the long-mode bit is clear in the
policy of every 32-bit PV domain. -/
theorem recalculate_cpuid_policy_pv32_no_lm (cfg : Config) (hC : cfg.deps_complete)
    (hW : cfg.X86_FEATURE_LM / 32 = cfg.FEATURESET_e1d)
    (hS : cfg.CPUID_COMMON_1D_FEATURES.testBit (cfg.X86_FEATURE_LM % 32) = false)
    (hne : cfg.FEATURESET_7b0 ≠ cfg.FEATURESET_e1d)
    (hI : cfg.X86_FEATURE_ITSC ≠ cfg.X86_FEATURE_LM)
    (env : Env) (d : domain) (h32 : d.is_pv_32bit_domain = true) :
    ∃ d', recalculate_cpuid_policy cfg env d = some d' ∧ d'.cpuid.extd.lm cfg = false := by
  obtain ⟨out, hrun, _, hn⟩ := sanitise_narrow cfg hC (recalculate_cpuid_policy.clamped cfg env d)
  refine ⟨{ d with cpuid := (recalculate_xstate cfg env
    (cpuid_featureset_to_policy cfg (recalculate_cpuid_policy.fold cfg env out)
      (recalculate_cpuid_policy.maxima env d))) },
    by unfold recalculate_cpuid_policy; simp only [hrun], ?_⟩
  obtain ⟨_, _, f3, _, _⟩ := recalculate_xstate_frame cfg env
    (cpuid_featureset_to_policy cfg (recalculate_cpuid_policy.fold cfg env out)
      (recalculate_cpuid_policy.maxima env d))
  obtain ⟨_, _, g3, _⟩ := to_policy_fields cfg (recalculate_cpuid_policy.fold cfg env out)
    (recalculate_cpuid_policy.maxima env d)
  show extd_t.lm cfg (recalculate_xstate cfg env _).extd = false
  rw [f3]
  unfold extd_t.lm bitfield cpufeat_bit
  rw [g3]
  by_contra hc
  have h1 : test_bit cfg.X86_FEATURE_LM (recalculate_cpuid_policy.fold cfg env out) = true := by
    unfold test_bit; rw [hW]; simpa using hc
  have h2 := fold_bits cfg env out _ (fun hs => hne (hs.1.symm.trans hW)) h1
  rcases hn _ h2 with ⟨h3, _⟩ | ⟨h3, _⟩
  · have h4 := (clamped_bits cfg env d _ h3).2
    rw [test_bit_max_fs_lm cfg hI env d h32] at h4
    cases h4
  · rw [h3.2] at hS; cases hS

set_option maxRecDepth 100000 in
/-- Witness for C8: a 32-bit PV domain created from `pv_max_policy` in the
booted sample environment. -/
theorem recalculate_cpuid_policy_pv32_no_lm_witness :
    sample_cfg.deps_complete ∧
    sample_cfg.X86_FEATURE_LM / 32 = sample_cfg.FEATURESET_e1d ∧
    sample_cfg.CPUID_COMMON_1D_FEATURES.testBit (sample_cfg.X86_FEATURE_LM % 32) = false ∧
    sample_cfg.FEATURESET_7b0 ≠ sample_cfg.FEATURESET_e1d ∧
    sample_cfg.X86_FEATURE_ITSC ≠ sample_cfg.X86_FEATURE_LM ∧
    ({ sample_domain booted_env.pv_max_policy with
        is_pv_domain := true, is_hvm_domain := false, is_pv_32bit_domain := true } : domain).is_pv_32bit_domain = true ∧
    ∃ d', recalculate_cpuid_policy sample_cfg booted_env
        { sample_domain booted_env.pv_max_policy with
          is_pv_domain := true, is_hvm_domain := false, is_pv_32bit_domain := true } = some d' ∧
      d'.cpuid.extd.lm sample_cfg = false :=
  ⟨by decide, by decide, by decide, by decide, by decide, rfl,
   recalculate_cpuid_policy_pv32_no_lm sample_cfg (by decide) (by decide) (by decide)
     (by decide) (by decide) booted_env
     { sample_domain booted_env.pv_max_policy with
       is_pv_domain := true, is_hvm_domain := false, is_pv_32bit_domain := true } rfl⟩

/-! ## Claims on `guest_cpuid` -/

/-- C6: `guest_cpuid` returns the all-zero leaf for every out-of-range query:
(i) a basic leaf above `basic.max_leaf`, (ii) leaf 7 with a subleaf above
`feat.max_subleaf`, (iii) an extended leaf above `extd.max_leaf`, (iv) a leaf
outside the basic, hypervisor and extended ranges. -/
theorem guest_cpuid_out_of_range (cfg : Config)
    (hB : 0 < cfg.CPUID_GUEST_NR_BASIC ∧ cfg.CPUID_GUEST_NR_BASIC ≤ 0x40000000) (env : Env) (v leaf subleaf : Nat)
    (h : (leaf < cfg.CPUID_GUEST_NR_BASIC ∧ leaf > (env.vcpus v).domain.cpuid.basic.max_leaf) ∨
      (leaf = 7 ∧ subleaf > (env.vcpus v).domain.cpuid.feat.max_subleaf) ∨
      (0x80000000 ≤ leaf ∧ leaf ≤ 0x80000000 + cfg.CPUID_GUEST_NR_EXTD - 1 ∧
        leaf > (env.vcpus v).domain.cpuid.extd.max_leaf) ∨
      (¬ leaf < cfg.CPUID_GUEST_NR_BASIC ∧ ¬ (0x40000000 ≤ leaf ∧ leaf ≤ 0x400001ff) ∧
        ¬ (0x80000000 ≤ leaf ∧ leaf ≤ 0x80000000 + cfg.CPUID_GUEST_NR_EXTD - 1))) :
    guest_cpuid cfg env v leaf subleaf = some EMPTY_LEAF := by
  unfold guest_cpuid guest_cpuid.first
  dsimp only
  rcases h with ⟨h1, h2⟩ | ⟨h1, h2⟩ | ⟨h1, h2, h3⟩ | ⟨h1, h2, h3⟩
  · have : leaf ≤ cfg.CPUID_GUEST_NR_BASIC - 1 := by omega
    simp [this, h2]
  · subst h1
    by_cases hb : 7 ≤ cfg.CPUID_GUEST_NR_BASIC - 1
    · by_cases hm : 7 > (env.vcpus v).domain.cpuid.basic.max_leaf
      · simp [hb, hm]
      · simp [hb, hm, h2]
    · simp [hb]
  · have : ¬ leaf ≤ cfg.CPUID_GUEST_NR_BASIC - 1 := by omega
    have a1 : ¬ (0x40000000 ≤ leaf ∧ leaf ≤ 0x400000ff) := by omega
    have a2 : ¬ (0x40000100 ≤ leaf ∧ leaf ≤ 0x400001ff) := by omega
    simp only [this, a1, a2, h1, h2, h3, and_self, if_true, if_false]
  · have : ¬ leaf ≤ cfg.CPUID_GUEST_NR_BASIC - 1 := by omega
    have a1 : ¬ (0x40000000 ≤ leaf ∧ leaf ≤ 0x400000ff) := by omega
    have a2 : ¬ (0x40000100 ≤ leaf ∧ leaf ≤ 0x400001ff) := by omega
    simp only [this, a1, a2, h3, if_false]

/-- Witness for C6: leaf 0x12345678 lies outside every range. -/
theorem guest_cpuid_out_of_range_witness :
    (0 < sample_cfg.CPUID_GUEST_NR_BASIC ∧ sample_cfg.CPUID_GUEST_NR_BASIC ≤ 0x40000000) ∧
    guest_cpuid sample_cfg booted_env 0 0x12345678 0 = some EMPTY_LEAF :=
  ⟨by decide, guest_cpuid_out_of_range sample_cfg (by decide) booted_env 0 0x12345678 0
    (Or.inr (Or.inr (Or.inr ⟨by decide, by decide, by decide⟩)))⟩

theorem guest_cpuid_leaf7_static (cfg : Config) (env : Env) (v subleaf : Nat)
    (hv : v ≠ env.current)
    (hinv : (env.vcpus v).domain.cpuid.feat.max_subleaf < cfg.CPUID_GUEST_NR_FEAT) :
    guest_cpuid cfg env v 7 subleaf =
      some (if 7 ≤ cfg.CPUID_GUEST_NR_BASIC - 1 ∧
          7 ≤ (env.vcpus v).domain.cpuid.basic.max_leaf ∧
          subleaf ≤ (env.vcpus v).domain.cpuid.feat.max_subleaf then
        (env.vcpus v).domain.cpuid.feat.raw subleaf else EMPTY_LEAF) := by
  unfold guest_cpuid guest_cpuid.first
  dsimp only
  by_cases hb : 7 ≤ cfg.CPUID_GUEST_NR_BASIC - 1
  · by_cases hm : 7 ≤ (env.vcpus v).domain.cpuid.basic.max_leaf
    · by_cases hs : subleaf ≤ (env.vcpus v).domain.cpuid.feat.max_subleaf
      · have h1 : ¬ 7 > (env.vcpus v).domain.cpuid.basic.max_leaf := by omega
        have h2 : ¬ subleaf > (env.vcpus v).domain.cpuid.feat.max_subleaf := by omega
        have h3 : ¬ subleaf ≥ cfg.CPUID_GUEST_NR_FEAT := by omega
        simp only [hb, h1, h2, h3, hm, hs, hv, and_self, if_true, if_false, ne_eq,
          not_false_eq_true]
      · have h1 : ¬ 7 > (env.vcpus v).domain.cpuid.basic.max_leaf := by omega
        have h2 : subleaf > (env.vcpus v).domain.cpuid.feat.max_subleaf := by omega
        simp only [hb, h1, h2, hm, hs, and_false, and_true, if_true, if_false]
    · have h1 : 7 > (env.vcpus v).domain.cpuid.basic.max_leaf := by omega
      simp only [hb, h1, hm, and_false, false_and, if_true, if_false]
  · have a1 : ¬ (0x40000000 ≤ 7 ∧ 7 ≤ 0x400000ff) := by omega
    have a2 : ¬ (0x40000100 ≤ 7 ∧ 7 ≤ 0x400001ff) := by omega
    have a3 : ¬ (0x80000000 ≤ 7 ∧ 7 ≤ 0x80000000 + cfg.CPUID_GUEST_NR_EXTD - 1) := by omega
    simp only [hb, a1, a2, a3, false_and, if_false]

theorem guest_cpuid_xstate_static (cfg : Config) (env : Env) (v subleaf : Nat)
    (hv : v ≠ env.current) :
    guest_cpuid cfg env v XSTATE_CPUID subleaf =
      some (if XSTATE_CPUID ≤ cfg.CPUID_GUEST_NR_BASIC - 1 ∧
          XSTATE_CPUID ≤ (env.vcpus v).domain.cpuid.basic.max_leaf ∧
          (env.vcpus v).domain.cpuid.basic.xsave cfg = true ∧
          subleaf < cfg.CPUID_GUEST_NR_XSTATE then
        (env.vcpus v).domain.cpuid.xstate.raw subleaf else EMPTY_LEAF) := by
  unfold guest_cpuid guest_cpuid.first
  dsimp only
  have h7 : ¬ XSTATE_CPUID = 7 := by decide
  by_cases hb : XSTATE_CPUID ≤ cfg.CPUID_GUEST_NR_BASIC - 1
  · by_cases hm : XSTATE_CPUID ≤ (env.vcpus v).domain.cpuid.basic.max_leaf
    · have h1 : ¬ XSTATE_CPUID > (env.vcpus v).domain.cpuid.basic.max_leaf := by omega
      by_cases hx : (env.vcpus v).domain.cpuid.basic.xsave cfg = true
      · by_cases hs : subleaf < cfg.CPUID_GUEST_NR_XSTATE
        · have h2 : ¬ subleaf ≥ cfg.CPUID_GUEST_NR_XSTATE := by omega
          simp [hb, h1, h7, hx, h2, hm, hs, hv]
        · have h2 : subleaf ≥ cfg.CPUID_GUEST_NR_XSTATE := by omega
          simp [hb, h1, h7, hx, h2, hm, hs]
      · simp [hb, h1, h7, hx, hm]
    · have h1 : XSTATE_CPUID > (env.vcpus v).domain.cpuid.basic.max_leaf := by omega
      simp [hb, h1, hm]
  · have a1 : ¬ (0x40000000 ≤ XSTATE_CPUID ∧ XSTATE_CPUID ≤ 0x400000ff) := by decide
    have a2 : ¬ (0x40000100 ≤ XSTATE_CPUID ∧ XSTATE_CPUID ≤ 0x400001ff) := by decide
    have a3 : ¬ (0x80000000 ≤ XSTATE_CPUID ∧
        XSTATE_CPUID ≤ 0x80000000 + cfg.CPUID_GUEST_NR_EXTD - 1) := by
      unfold XSTATE_CPUID; omega
    simp only [hb, a1, a2, a3, false_and, if_false]

/-- C7: for a vcpu other than the current one, `guest_cpuid` for leaf 7 returns
the stored entry `feat.raw[subleaf]` and for leaf 0xd the stored entry
`xstate.raw[subleaf]` (all-zero when out of range), whatever the control
registers and the hardware hold: two environments that agree on the policy
return the same leaf. -/
theorem guest_cpuid_not_current (cfg : Config) (env : Env) (v subleaf : Nat)
    (hv : v ≠ env.current)
    (hinv : (env.vcpus v).domain.cpuid.feat.max_subleaf < cfg.CPUID_GUEST_NR_FEAT) :
    guest_cpuid cfg env v 7 subleaf =
      some (if 7 ≤ cfg.CPUID_GUEST_NR_BASIC - 1 ∧
          7 ≤ (env.vcpus v).domain.cpuid.basic.max_leaf ∧
          subleaf ≤ (env.vcpus v).domain.cpuid.feat.max_subleaf then
        (env.vcpus v).domain.cpuid.feat.raw subleaf else EMPTY_LEAF) ∧
    guest_cpuid cfg env v XSTATE_CPUID subleaf =
      some (if XSTATE_CPUID ≤ cfg.CPUID_GUEST_NR_BASIC - 1 ∧
          XSTATE_CPUID ≤ (env.vcpus v).domain.cpuid.basic.max_leaf ∧
          (env.vcpus v).domain.cpuid.basic.xsave cfg = true ∧
          subleaf < cfg.CPUID_GUEST_NR_XSTATE then
        (env.vcpus v).domain.cpuid.xstate.raw subleaf else EMPTY_LEAF) ∧
    ∀ env2 : Env, (env2.vcpus v).domain.cpuid = (env.vcpus v).domain.cpuid →
      v ≠ env2.current →
      guest_cpuid cfg env2 v 7 subleaf = guest_cpuid cfg env v 7 subleaf ∧
      guest_cpuid cfg env2 v XSTATE_CPUID subleaf = guest_cpuid cfg env v XSTATE_CPUID subleaf := by
  refine ⟨guest_cpuid_leaf7_static cfg env v subleaf hv hinv,
    guest_cpuid_xstate_static cfg env v subleaf hv, ?_⟩
  intro env2 hp hv2
  rw [guest_cpuid_leaf7_static cfg env v subleaf hv hinv,
    guest_cpuid_xstate_static cfg env v subleaf hv,
    guest_cpuid_leaf7_static cfg env2 v subleaf hv2 (by rw [hp]; exact hinv),
    guest_cpuid_xstate_static cfg env2 v subleaf hv2, hp]
  exact ⟨rfl, rfl⟩

set_option maxRecDepth 100000 in
/-- Witness for C7: vcpu 1 of the sample guest, where vcpu 0 is the current one. -/
theorem guest_cpuid_not_current_witness :
    (1 : Nat) ≠ guest_env.current ∧
    (guest_env.vcpus 1).domain.cpuid.feat.max_subleaf < sample_cfg.CPUID_GUEST_NR_FEAT ∧
    guest_cpuid sample_cfg guest_env 1 7 0 =
      some (if 7 ≤ sample_cfg.CPUID_GUEST_NR_BASIC - 1 ∧
          7 ≤ (guest_env.vcpus 1).domain.cpuid.basic.max_leaf ∧
          0 ≤ (guest_env.vcpus 1).domain.cpuid.feat.max_subleaf then
        (guest_env.vcpus 1).domain.cpuid.feat.raw 0 else EMPTY_LEAF) :=
  ⟨by decide, by decide,
   (guest_cpuid_not_current sample_cfg guest_env 1 0 (by decide) (by decide)).1⟩

theorem testBit_clear_mask (x n : Nat) (hn : n < 32) :
    (x &&& not32 (1 <<< n)).testBit n = false := by
  rw [Nat.testBit_and, testBit_not32, Nat.one_shiftLeft, Nat.testBit_two_pow]
  simp [hn]

theorem vpmu_ds_pse36 (cfg : Config) (env : Env) (v : vcpu) (res : cpuid_leaf)
    (hDS : cpufeat_bit cfg.X86_FEATURE_DS ≠ cpufeat_bit cfg.X86_FEATURE_PSE36)
    (h : res.d.testBit (cpufeat_bit cfg.X86_FEATURE_PSE36) = false) :
    (vpmu_ds cfg env v res).d.testBit (cpufeat_bit cfg.X86_FEATURE_PSE36) = false := by
  unfold vpmu_ds
  have key : (res.d ||| cpufeat_mask cfg.X86_FEATURE_DS).testBit
      (cpufeat_bit cfg.X86_FEATURE_PSE36) = false := by
    rw [Nat.testBit_or, h]
    unfold cpufeat_mask
    rw [Nat.one_shiftLeft, Nat.testBit_two_pow]
    simp [hDS]
  split_ifs <;> first | exact h | exact key

theorem hvm_pse36_clear (cfg : Config) (v : vcpu) (res : cpuid_leaf)
    (hhap : v.domain.hap_enabled = false) (hpae : v.hvm_pae_enabled = false)
    (hlm : v.hvm_long_mode_enabled = false) :
    (hvm_pse36 cfg v res).d.testBit (cpufeat_bit cfg.X86_FEATURE_PSE36) = false := by
  unfold hvm_pse36
  simp only [hhap, hpae, hlm, Bool.not_false, Bool.or_self, Bool.and_self, if_true]
  exact testBit_clear_mask _ _ (Nat.mod_lt _ (by norm_num))

theorem hvm_cpuid_pse36 (cfg : Config) (env : Env) (leaf subleaf : Nat) (res : cpuid_leaf)
    (hleaf : leaf = 1 ∨ leaf = 0x80000001)
    (hhap : (env.vcpus env.current).domain.hap_enabled = false)
    (hpae : (env.vcpus env.current).hvm_pae_enabled = false)
    (hlm : (env.vcpus env.current).hvm_long_mode_enabled = false)
    (hDS : cpufeat_bit cfg.X86_FEATURE_DS ≠ cpufeat_bit cfg.X86_FEATURE_PSE36) :
    ∃ r, hvm_cpuid cfg env leaf subleaf res = some r ∧
      r.d.testBit (cpufeat_bit cfg.X86_FEATURE_PSE36) = false := by
  unfold hvm_cpuid
  dsimp only
  rcases hleaf with h | h
  · subst h
    simp only [if_true]
    exact ⟨_, rfl, vpmu_ds_pse36 cfg env _ _ hDS (hvm_pse36_clear cfg _ _ hhap hpae hlm)⟩
  · subst h
    have e1 : ¬ (0x80000001 = 0x1) := by decide
    have e2 : ¬ (0x80000001 = 0xb) := by decide
    have e3 : ¬ (0x80000001 = 0x0000000a) := by decide
    simp only [e1, e2, e3, if_true, if_false]
    by_cases hc : ((env.vcpus env.current).domain.cpuid.x86_vendor = cfg.X86_VENDOR_INTEL &&
        !(env.vcpus env.current).hvm_long_mode_enabled) = true
    · rw [if_pos hc]
      refine ⟨_, rfl, ?_⟩
      dsimp only
      rw [Nat.testBit_and, hvm_pse36_clear cfg _ _ hhap hpae hlm]
      rfl
    · rw [if_neg hc]
      exact ⟨_, rfl, hvm_pse36_clear cfg _ _ hhap hpae hlm⟩

set_option maxRecDepth 100000 in
/-- Counterexample to C9 as stated: vcpu 1 of the sample guest is an HVM vcpu
of a shadow-paging domain with neither PAE paging nor long mode enabled, and it
is not the executing vcpu (which is 0); `guest_cpuid` for leaf 1 and for leaf
0x80000001 stops at `ASSERT(v == current)` and returns no EDX at all. -/
theorem guest_cpuid_shadow_pse36_not_current :
    (guest_env.vcpus 1).domain.is_hvm_domain = true ∧
    (guest_env.vcpus 1).domain.hap_enabled = false ∧
    (guest_env.vcpus 1).hvm_pae_enabled = false ∧
    (guest_env.vcpus 1).hvm_long_mode_enabled = false ∧
    (1 : Nat) ≠ guest_env.current ∧
    guest_cpuid sample_cfg guest_env 1 1 0 = none ∧
    guest_cpuid sample_cfg guest_env 1 0x80000001 0 = none ∧
    ¬ ∃ r, guest_cpuid sample_cfg guest_env 1 1 0 = some r ∧
      r.d.testBit (cpufeat_bit sample_cfg.X86_FEATURE_PSE36) = false := by
  refine ⟨by decide, by decide, by decide, by decide, by decide, by decide, by decide, ?_⟩
  rintro ⟨r, hr, _⟩
  have hn : guest_cpuid sample_cfg guest_env 1 1 0 = none := by decide
  rw [hn] at hr
  cases hr

/-- C9 (as amended): for the executing vcpu, when it is an HVM vcpu of a
shadow-paging domain with neither PAE paging nor long mode enabled,
`guest_cpuid` for leaf 1 and for leaf 0x80000001 returns a leaf whose EDX has
the PSE36 bit clear, whatever the policy and the override leaves hold. -/
theorem guest_cpuid_shadow_no_pse36 (cfg : Config) (env : Env) (v leaf subleaf : Nat)
    (hv : v = env.current)
    (hleaf : leaf = 1 ∨ leaf = 0x80000001)
    (hhvm : (env.vcpus v).domain.is_hvm_domain = true)
    (hhap : (env.vcpus v).domain.hap_enabled = false)
    (hpae : (env.vcpus v).hvm_pae_enabled = false)
    (hlm : (env.vcpus v).hvm_long_mode_enabled = false)
    (hDS : cpufeat_bit cfg.X86_FEATURE_DS ≠ cpufeat_bit cfg.X86_FEATURE_PSE36) :
    ∃ r, guest_cpuid cfg env v leaf subleaf = some r ∧
      r.d.testBit (cpufeat_bit cfg.X86_FEATURE_PSE36) = false := by
  have hne7 : ¬ leaf = 0x7 := by rcases hleaf with h | h <;> omega
  have hned : ¬ leaf = XSTATE_CPUID := by unfold XSTATE_CPUID; rcases hleaf with h | h <;> omega
  have a1 : ¬ (0x40000000 ≤ leaf ∧ leaf ≤ 0x400000ff) := by rcases hleaf with h | h <;> omega
  have a2 : ¬ (0x40000100 ≤ leaf ∧ leaf ≤ 0x400001ff) := by rcases hleaf with h | h <;> omega
  have hfirst : guest_cpuid.first cfg env v leaf subleaf = .ret EMPTY_LEAF ∨
      guest_cpuid.first cfg env v leaf subleaf = .legacy := by
    unfold guest_cpuid.first
    dsimp only
    simp only [hne7, hned, a1, a2, if_false]
    split_ifs <;> simp
  unfold guest_cpuid
  rcases hfirst with hf | hf
  · rw [hf]
    exact ⟨EMPTY_LEAF, rfl, by simp [EMPTY_LEAF]⟩
  · rw [hf]
    simp only [hv, ne_eq, not_true_eq_false, if_false]
    rw [hv] at hhvm hhap hpae hlm
    simp only [hhvm, if_true]
    exact hvm_cpuid_pse36 cfg env leaf subleaf EMPTY_LEAF hleaf hhap hpae hlm hDS

set_option maxRecDepth 100000 in
/-- Witness for the amended C9: the executing vcpu of the sample guest, leaf 1;
the policy has PSE36 (bit 17) set in `basic._1d`. -/
theorem guest_cpuid_shadow_no_pse36_witness :
    (0 : Nat) = guest_env.current ∧
    (guest_env.vcpus 0).domain.is_hvm_domain = true ∧
    (guest_env.vcpus 0).domain.hap_enabled = false ∧
    (guest_env.vcpus 0).hvm_pae_enabled = false ∧
    (guest_env.vcpus 0).hvm_long_mode_enabled = false ∧
    cpufeat_bit sample_cfg.X86_FEATURE_DS ≠ cpufeat_bit sample_cfg.X86_FEATURE_PSE36 ∧
    (guest_env.vcpus 0).domain.cpuid.basic._1d.testBit
      (cpufeat_bit sample_cfg.X86_FEATURE_PSE36) = true ∧
    ∃ r, guest_cpuid sample_cfg guest_env 0 1 0 = some r ∧
      r.d.testBit (cpufeat_bit sample_cfg.X86_FEATURE_PSE36) = false :=
  ⟨by decide, by decide, by decide, by decide, by decide, by decide, by decide,
   guest_cpuid_shadow_no_pse36 sample_cfg guest_env 0 1 0 (by decide) (Or.inl rfl) (by decide)
     (by decide) (by decide) (by decide) (by decide)⟩

theorem guest_cpuid_xstate_zero (cfg : Config) (env : Env) (v subleaf : Nat)
    (hx : (env.vcpus v).domain.cpuid.basic.xsave cfg = false) :
    guest_cpuid cfg env v XSTATE_CPUID subleaf = some EMPTY_LEAF := by
  have hfirst : guest_cpuid.first cfg env v XSTATE_CPUID subleaf = .ret EMPTY_LEAF := by
    unfold guest_cpuid.first
    dsimp only
    have h7 : ¬ XSTATE_CPUID = 7 := by decide
    have a1 : ¬ (0x40000000 ≤ XSTATE_CPUID ∧ XSTATE_CPUID ≤ 0x400000ff) := by decide
    have a2 : ¬ (0x40000100 ≤ XSTATE_CPUID ∧ XSTATE_CPUID ≤ 0x400001ff) := by decide
    have a3 : ¬ (0x80000000 ≤ XSTATE_CPUID ∧
        XSTATE_CPUID ≤ 0x80000000 + cfg.CPUID_GUEST_NR_EXTD - 1) := by
      unfold XSTATE_CPUID; omega
    simp only [h7, a1, a2, a3, hx, Bool.not_false, Bool.true_or, if_true, if_false]
    split_ifs <;> rfl
  unfold guest_cpuid
  rw [hfirst]

theorem xsave_of_featureset (cfg : Config)
    (hX : cfg.X86_FEATURE_XSAVE / 32 = cfg.FEATURESET_1c) (env : Env) (fs : List Nat)
    (p : cpuid_policy) :
    (recalculate_xstate cfg env (cpuid_featureset_to_policy cfg fs p)).basic.xsave cfg =
      test_bit cfg.X86_FEATURE_XSAVE fs := by
  obtain ⟨f1, _⟩ := recalculate_xstate_frame cfg env (cpuid_featureset_to_policy cfg fs p)
  obtain ⟨_, g2, _⟩ := to_policy_fields cfg fs p
  rw [f1]
  unfold basic_t.xsave bitfield cpufeat_bit test_bit
  rw [g2, hX]

theorem sanitise_keeps_clear (cfg : Config) (hC : cfg.deps_complete) (fs : List Nat) (n : Nat)
    (hn : ¬ is_shared_e1d cfg n) (h : test_bit n fs = false) :
    ∃ out, sanitise_featureset cfg fs = some out ∧ test_bit n out = false := by
  obtain ⟨out, hrun, _, hnar⟩ := sanitise_narrow cfg hC fs
  refine ⟨out, hrun, ?_⟩
  by_contra hc
  rcases hnar n (by simpa using hc) with ⟨h1, _⟩ | ⟨h1, _⟩
  · rw [h] at h1; cases h1
  · exact hn h1

theorem xsave_of_policy (cfg : Config) (hL : cfg.layout)
    (hX : cfg.X86_FEATURE_XSAVE / 32 = cfg.FEATURESET_1c) (p : cpuid_policy) :
    test_bit cfg.X86_FEATURE_XSAVE (cpuid_policy_to_featureset cfg p) = p.basic.xsave cfg := by
  obtain ⟨_, e2, _⟩ := to_featureset_exact cfg hL p
  unfold basic_t.xsave bitfield cpufeat_bit test_bit
  rw [hX, e2]

theorem layout_1c (cfg : Config) (hL : cfg.layout) :
    cfg.FEATURESET_1c ≠ cfg.FEATURESET_e1d ∧ cfg.FEATURESET_1c ≠ cfg.FEATURESET_7b0 := by
  obtain ⟨hnd, _⟩ := hL
  simp only [List.nodup_cons, List.mem_cons, List.mem_singleton, not_or, List.not_mem_nil,
    not_false_eq_true, List.nodup_nil, and_true] at hnd
  exact ⟨hnd.2.1.1, hnd.2.1.2.2.2.1⟩

theorem max_xsave_clear (cfg : Config) (hC : cfg.deps_complete) (hL : cfg.layout)
    (hX : cfg.X86_FEATURE_XSAVE / 32 = cfg.FEATURESET_1c) (env : Env)
    (forced : Nat → Prop) (hF : ¬ forced cfg.X86_FEATURE_XSAVE) (fs : List Nat)
    (hbits : bits_from (cpuid_policy_to_featureset cfg env.host_policy) forced fs)
    (hhost : test_bit cfg.X86_FEATURE_XSAVE (cpuid_policy_to_featureset cfg env.host_policy) = false) :
    ∃ out, sanitise_featureset cfg fs = some out ∧
      (recalculate_xstate cfg env (cpuid_featureset_to_policy cfg out env.host_policy)).basic.xsave
        cfg = false := by
  have hin : test_bit cfg.X86_FEATURE_XSAVE fs = false := by
    by_contra hc
    rcases hbits _ (by simpa using hc) with h1 | h1
    · exact hF h1
    · rw [hhost] at h1; cases h1
  obtain ⟨out, hrun, hout⟩ := sanitise_keeps_clear cfg hC fs cfg.X86_FEATURE_XSAVE
    (fun hs => (layout_1c cfg hL).1 (hX.symm.trans hs.1)) hin
  exact ⟨out, hrun, by rw [xsave_of_featureset cfg hX, hout]⟩

theorem recalculate_xsave_clear (cfg : Config) (hC : cfg.deps_complete) (hL : cfg.layout)
    (hX : cfg.X86_FEATURE_XSAVE / 32 = cfg.FEATURESET_1c) (hNF : cfg.xsave_not_forced)
    (env : Env) (d : domain)
    (hmax : (recalculate_cpuid_policy.max env d).basic.xsave cfg = false) :
    ∃ d', recalculate_cpuid_policy cfg env d = some d' ∧ d'.cpuid.basic.xsave cfg = false := by
  unfold Config.xsave_not_forced at hNF
  simp only [List.mem_cons, List.mem_singleton, List.not_mem_nil, or_false, not_or] at hNF
  obtain ⟨_, _, _, n4, n5, n6, n7⟩ := hNF
  have hmfs : test_bit cfg.X86_FEATURE_XSAVE (recalculate_cpuid_policy.max_fs cfg env d) = false := by
    by_contra hc
    rcases max_fs_bits cfg env d _ (by simpa using hc) with h1 | h1
    · rcases h1 with h1 | h1 | h1 | h1
      · exact n4 h1
      · exact n5 h1
      · exact n6 h1
      · exact n7 h1
    · rw [xsave_of_policy cfg hL hX, hmax] at h1; cases h1
  have hcl : test_bit cfg.X86_FEATURE_XSAVE (recalculate_cpuid_policy.clamped cfg env d) = false := by
    by_contra hc
    have := (clamped_bits cfg env d _ (by simpa using hc)).2
    rw [hmfs] at this; cases this
  obtain ⟨out, hrun, hout⟩ := sanitise_keeps_clear cfg hC _ cfg.X86_FEATURE_XSAVE
    (fun hs => (layout_1c cfg hL).1 (hX.symm.trans hs.1)) hcl
  refine ⟨{ d with cpuid := (recalculate_xstate cfg env
    (cpuid_featureset_to_policy cfg (recalculate_cpuid_policy.fold cfg env out)
      (recalculate_cpuid_policy.maxima env d))) },
    by unfold recalculate_cpuid_policy; simp only [hrun], ?_⟩
  show (recalculate_xstate cfg env _).basic.xsave cfg = false
  rw [xsave_of_featureset cfg hX]
  by_contra hc
  have := fold_bits cfg env out _ (fun hs => (layout_1c cfg hL).2 (hX.symm.trans hs.1))
    (by simpa using hc)
  rw [hout] at this; cases this

/-- C10: when the XSAVE bit is clear in the host featureset, every domain
policy obtained by `recalculate_cpuid_policy` against the `pv_max_policy` or
`hvm_max_policy` computed at boot answers leaf 0xd with the all-zero leaf, for
every subleaf and every vcpu. -/
theorem xstate_leaf_zero_without_host_xsave (cfg : Config) (hC : cfg.deps_complete)
    (hL : cfg.layout) (hX : cfg.X86_FEATURE_XSAVE / 32 = cfg.FEATURESET_1c)
    (hNF : cfg.xsave_not_forced) (env : Env)
    (hhost : test_bit cfg.X86_FEATURE_XSAVE
      (cpuid_policy_to_featureset cfg env.host_policy) = false)
    (hz : env.hvm_enabled = false → env.hvm_max_policy.basic.xsave cfg = false) :
    ∃ pv hvm, calculate_pv_max_policy cfg env = some pv ∧
      calculate_hvm_max_policy cfg env = some hvm ∧
      ∀ env' : Env, env'.pv_max_policy = pv → env'.hvm_max_policy = hvm →
        ∀ d : domain, ∃ d', recalculate_cpuid_policy cfg env' d = some d' ∧
          ∀ (env2 : Env) (v subleaf : Nat), (env2.vcpus v).domain.cpuid = d'.cpuid →
            guest_cpuid cfg env2 v XSTATE_CPUID subleaf = some EMPTY_LEAF := by
  have hNF' := hNF
  unfold Config.xsave_not_forced at hNF'
  simp only [List.mem_cons, List.mem_singleton, List.not_mem_nil, or_false, not_or] at hNF'
  obtain ⟨n1, n2, n3, _⟩ := hNF'
  obtain ⟨o1, hr1, hx1⟩ := max_xsave_clear cfg hC hL hX env (forced_pv_max cfg) n1
    (calculate_pv_max_policy.featureset cfg env) (pv_featureset_bits cfg env) hhost
  have hhvm : ∃ hvm, calculate_hvm_max_policy cfg env = some hvm ∧
      hvm.basic.xsave cfg = false := by
    by_cases hen : env.hvm_enabled = true
    · obtain ⟨o2, hr2, hx2⟩ := max_xsave_clear cfg hC hL hX env (forced_hvm_max cfg env)
        (fun hf => by
          rcases hf with h | h | h
          · exact n1 h
          · exact n2 h
          · exact n3 h.1)
        (calculate_hvm_max_policy.featureset cfg env) (hvm_featureset_bits cfg env) hhost
      refine ⟨recalculate_xstate cfg env (cpuid_featureset_to_policy cfg o2 env.host_policy),
        ?_, hx2⟩
      unfold calculate_hvm_max_policy
      simp only [hen, Bool.not_true, Bool.false_eq_true, if_false, hr2]
    · have hen' : env.hvm_enabled = false := by simpa using hen
      exact ⟨env.hvm_max_policy, by unfold calculate_hvm_max_policy; simp [hen'], hz hen'⟩
  obtain ⟨hvm, hr2, hx2⟩ := hhvm
  refine ⟨recalculate_xstate cfg env (cpuid_featureset_to_policy cfg o1 env.host_policy), hvm,
    by unfold calculate_pv_max_policy; simp only [hr1], hr2, ?_⟩
  intro env' hpv hhv d
  have hmax : (recalculate_cpuid_policy.max env' d).basic.xsave cfg = false := by
    unfold recalculate_cpuid_policy.max
    split_ifs
    · rw [hpv]; exact hx1
    · rw [hhv]; exact hx2
  obtain ⟨d', hd', hxd⟩ := recalculate_xsave_clear cfg hC hL hX hNF env' d hmax
  refine ⟨d', hd', ?_⟩
  intro env2 v subleaf hp
  exact guest_cpuid_xstate_zero cfg env2 v subleaf (by rw [hp]; exact hxd)

set_option maxRecDepth 100000 in
/-- Witness for C10: the sample host without XSAVE. -/
theorem xstate_leaf_zero_without_host_xsave_witness :
    sample_cfg.deps_complete ∧ sample_cfg.layout ∧
    sample_cfg.X86_FEATURE_XSAVE / 32 = sample_cfg.FEATURESET_1c ∧
    sample_cfg.xsave_not_forced ∧
    test_bit sample_cfg.X86_FEATURE_XSAVE
      (cpuid_policy_to_featureset sample_cfg no_xsave_env.host_policy) = false ∧
    (no_xsave_env.hvm_enabled = false →
      no_xsave_env.hvm_max_policy.basic.xsave sample_cfg = false) ∧
    ∃ pv hvm, calculate_pv_max_policy sample_cfg no_xsave_env = some pv ∧
      calculate_hvm_max_policy sample_cfg no_xsave_env = some hvm ∧
      ∀ env' : Env, env'.pv_max_policy = pv → env'.hvm_max_policy = hvm →
        ∀ d : domain, ∃ d', recalculate_cpuid_policy sample_cfg env' d = some d' ∧
          ∀ (env2 : Env) (v subleaf : Nat), (env2.vcpus v).domain.cpuid = d'.cpuid →
            guest_cpuid sample_cfg env2 v XSTATE_CPUID subleaf = some EMPTY_LEAF :=
  ⟨by decide, by decide, by decide, by decide, by decide, by decide,
   xstate_leaf_zero_without_host_xsave sample_cfg (by decide) (by decide) (by decide)
     (by decide) no_xsave_env (by decide) (by decide)⟩

/-! ## Claims on `recalculate_xstate` -/

theorem recalculate_xstate_of_not_xsave (cfg : Config) (env : Env) (p : cpuid_policy)
    (hx : p.basic.xsave cfg = false) :
    recalculate_xstate cfg env p = { p with xstate := ⟨fun _ => EMPTY_LEAF⟩ } := by
  unfold recalculate_xstate
  simp [hx]

/-- C13: when `basic.xsave` is clear, `recalculate_xstate` leaves the whole
extended-state block all-zero, whatever it held, and changes nothing outside
that block. -/
theorem recalculate_xstate_zero_without_xsave (cfg : Config) (env : Env) (p : cpuid_policy)
    (hx : p.basic.xsave cfg = false) :
    (∀ i, (recalculate_xstate cfg env p).xstate.raw i = EMPTY_LEAF) ∧
    (recalculate_xstate cfg env p).xstate.max_size = 0 ∧
    (recalculate_xstate cfg env p).xstate.xcr0_low = 0 ∧
    (recalculate_xstate cfg env p).xstate.xcr0_high = 0 ∧
    (recalculate_xstate cfg env p).xstate.xss_low = 0 ∧
    (recalculate_xstate cfg env p).xstate.xss_high = 0 ∧
    (recalculate_xstate cfg env p).xstate.Da1 = 0 ∧
    (recalculate_xstate cfg env p).basic = p.basic ∧
    (recalculate_xstate cfg env p).feat = p.feat ∧
    (recalculate_xstate cfg env p).extd = p.extd ∧
    (recalculate_xstate cfg env p).legacy = p.legacy ∧
    (recalculate_xstate cfg env p).x86_vendor = p.x86_vendor := by
  rw [recalculate_xstate_of_not_xsave cfg env p hx]
  refine ⟨fun i => rfl, rfl, rfl, rfl, rfl, rfl, rfl, rfl, rfl, rfl, rfl, rfl⟩

/-- Witness for C13: a policy without XSAVE whose extended-state block is not
zero before the call. -/
theorem recalculate_xstate_zero_without_xsave_witness :
    ({ zero_policy with xstate := ⟨fun _ => ⟨1, 2, 3, 4⟩⟩ } : cpuid_policy).basic.xsave sample_cfg
      = false ∧
    ∀ i, (recalculate_xstate sample_cfg booted_env
      { zero_policy with xstate := ⟨fun _ => ⟨1, 2, 3, 4⟩⟩ }).xstate.raw i = EMPTY_LEAF :=
  ⟨by decide, (recalculate_xstate_zero_without_xsave sample_cfg booted_env
    { zero_policy with xstate := ⟨fun _ => ⟨1, 2, 3, 4⟩⟩ } (by decide)).1⟩

/-- Counterexample to C14 as stated: a policy without XSAVE whose `Da1` is 1
before the call has `Da1` zero after it. -/
theorem recalculate_xstate_drops_Da1 :
    ({ zero_policy with xstate := ⟨fun _ => ⟨1, 0, 0, 0⟩⟩ } : cpuid_policy).xstate.Da1 = 1 ∧
    (recalculate_xstate sample_cfg booted_env
      { zero_policy with xstate := ⟨fun _ => ⟨1, 0, 0, 0⟩⟩ }).xstate.Da1 = 0 := by
  decide

/-- C14 (as amended): `recalculate_xstate` preserves `Da1` when `basic.xsave`
is set, and leaves it zero when `basic.xsave` is clear. -/
theorem recalculate_xstate_preserves_Da1 (cfg : Config) (env : Env) (p : cpuid_policy) :
    (p.basic.xsave cfg = true → (recalculate_xstate cfg env p).xstate.Da1 = p.xstate.Da1) ∧
    (p.basic.xsave cfg = false → (recalculate_xstate cfg env p).xstate.Da1 = 0) := by
  constructor
  · intro hx
    rw [recalculate_xstate_Da1, if_pos hx]
  · intro hx
    rw [recalculate_xstate_of_not_xsave cfg env p hx]
    rfl

set_option maxRecDepth 100000 in
/-- Witness for the amended C14: the sample host policy, which has XSAVE. -/
theorem recalculate_xstate_preserves_Da1_witness :
    booted_env.host_policy.basic.xsave sample_cfg = true ∧
    (recalculate_xstate sample_cfg booted_env booted_env.host_policy).xstate.Da1 =
      booted_env.host_policy.xstate.Da1 :=
  ⟨by decide,
   (recalculate_xstate_preserves_Da1 sample_cfg booted_env booted_env.host_policy).1 (by decide)⟩

theorem recalculate_xstate_congr (cfg : Config) (env : Env) (p q : cpuid_policy)
    (h1 : p.basic = q.basic) (h2 : p.feat = q.feat) (h3 : p.extd = q.extd)
    (h4 : p.legacy = q.legacy) (h5 : p.x86_vendor = q.x86_vendor)
    (h6 : p.xstate.Da1 = q.xstate.Da1) :
    recalculate_xstate cfg env p = recalculate_xstate cfg env q := by
  cases p with
  | mk pb pf px pe pl pv =>
    cases q with
    | mk qb qf qx qe ql qv =>
      simp only at h1 h2 h3 h4 h5 h6
      subst h1 h2 h3 h4 h5
      unfold recalculate_xstate recalculate_xstate.features
      simp only [h6]

/-- C15: recomputing the extended-state layout twice gives the same policy as
computing it once. -/
theorem recalculate_xstate_idempotent (cfg : Config) (env : Env) (p : cpuid_policy) :
    recalculate_xstate cfg env (recalculate_xstate cfg env p) = recalculate_xstate cfg env p := by
  obtain ⟨f1, f2, f3, f4, f5⟩ := recalculate_xstate_frame cfg env p
  by_cases hx : p.basic.xsave cfg = true
  · apply recalculate_xstate_congr cfg env _ _ f1 f2 f3 f4 f5
    rw [recalculate_xstate_Da1, if_pos hx]
  · have hx' : p.basic.xsave cfg = false := by simpa using hx
    have hq : (recalculate_xstate cfg env p).basic.xsave cfg = false := by rw [f1]; exact hx'
    rw [recalculate_xstate_of_not_xsave cfg env _ hq, recalculate_xstate_of_not_xsave cfg env p hx']

/-! ## Claims on `domain_cpuid` and `lookup_deep_deps` -/

theorem domain_cpuid_loop_none (cfg : Config) (d : domain) (leaf subleaf : Nat)
    (res : cpuid_leaf) :
    ∀ n i, (∀ j, i ≤ j → j < i + n → ¬ slot_matches cfg (d.cpuid.legacy j) leaf subleaf) →
      domain_cpuid.loop cfg d leaf subleaf res n i = res := by
  intro n
  induction n with
  | zero => intro i _; rfl
  | succ n ih =>
    intro i h
    unfold domain_cpuid.loop
    have hi := h i (Nat.le_refl _) (by omega)
    unfold slot_matches at hi
    have hc : ¬ ((d.cpuid.legacy i).input0 = leaf &&
        ((d.cpuid.legacy i).input1 = cfg.XEN_CPUID_INPUT_UNUSED ||
          (d.cpuid.legacy i).input1 = subleaf)) = true := by
      simpa using hi
    simp only [hc, if_false]
    exact ih (i + 1) (fun j h1 h2 => h j (by omega) (by omega))

theorem domain_cpuid_loop_first (cfg : Config) (d : domain) (leaf subleaf : Nat)
    (res : cpuid_leaf) (k : Nat) (hk : slot_matches cfg (d.cpuid.legacy k) leaf subleaf) :
    ∀ n i, i ≤ k → k < i + n →
      (∀ j, i ≤ j → j < k → ¬ slot_matches cfg (d.cpuid.legacy j) leaf subleaf) →
      domain_cpuid.loop cfg d leaf subleaf res n i =
        ⟨(d.cpuid.legacy k).eax, (d.cpuid.legacy k).ebx, (d.cpuid.legacy k).ecx,
         (d.cpuid.legacy k).edx⟩ := by
  intro n
  induction n with
  | zero => intro i h1 h2; omega
  | succ n ih =>
    intro i h1 h2 h
    unfold domain_cpuid.loop
    by_cases hik : i = k
    · subst hik
      unfold slot_matches at hk
      have hc : ((d.cpuid.legacy i).input0 = leaf &&
          ((d.cpuid.legacy i).input1 = cfg.XEN_CPUID_INPUT_UNUSED ||
            (d.cpuid.legacy i).input1 = subleaf)) = true := by
        simpa using hk
      simp only [hc, if_true]
    · have hi := h i (Nat.le_refl _) (by omega)
      unfold slot_matches at hi
      have hc : ¬ ((d.cpuid.legacy i).input0 = leaf &&
          ((d.cpuid.legacy i).input1 = cfg.XEN_CPUID_INPUT_UNUSED ||
            (d.cpuid.legacy i).input1 = subleaf)) = true := by
        simpa using hi
      simp only [hc, if_false]
      exact ih (i + 1) (by omega) (by omega) (fun j h3 h4 => h j (by omega) h4)

/-- C18: `domain_cpuid` is a first-match lookup: the result is the registers
of the lowest-indexed slot that matches the leaf and (by value or by wildcard)
the subleaf, and is left as it was when no slot matches. -/
theorem domain_cpuid_first_match (cfg : Config) (d : domain) (leaf subleaf : Nat)
    (res : cpuid_leaf) :
    (∀ k, k < cfg.MAX_CPUID_INPUT → slot_matches cfg (d.cpuid.legacy k) leaf subleaf →
      (∀ j, j < k → ¬ slot_matches cfg (d.cpuid.legacy j) leaf subleaf) →
      domain_cpuid cfg d leaf subleaf res =
        ⟨(d.cpuid.legacy k).eax, (d.cpuid.legacy k).ebx, (d.cpuid.legacy k).ecx,
         (d.cpuid.legacy k).edx⟩) ∧
    ((∀ k, k < cfg.MAX_CPUID_INPUT → ¬ slot_matches cfg (d.cpuid.legacy k) leaf subleaf) →
      domain_cpuid cfg d leaf subleaf res = res) := by
  constructor
  · intro k hk hm hfirst
    exact domain_cpuid_loop_first cfg d leaf subleaf res k hm cfg.MAX_CPUID_INPUT 0
      (Nat.zero_le _) (by omega) (fun j _ h2 => hfirst j h2)
  · intro h
    exact domain_cpuid_loop_none cfg d leaf subleaf res cfg.MAX_CPUID_INPUT 0
      (fun j _ h2 => h j (by omega))

theorem search_fuel (tbl : List deep_dep) (feature : Nat) :
    ∀ fuel fuel' start stop, stop - start < fuel → stop - start < fuel' →
      lookup_deep_deps.search tbl feature fuel start stop =
        lookup_deep_deps.search tbl feature fuel' start stop := by
  intro fuel
  induction fuel with
  | zero => intro fuel' start stop h; omega
  | succ n ih =>
    intro fuel' start stop h h'
    cases fuel' with
    | zero => omega
    | succ m =>
      unfold lookup_deep_deps.search
      by_cases hlt : start < stop
      · simp only [hlt, if_true]
        cases hm : tbl[start + (stop - start) / 2]? with
        | none => rfl
        | some e =>
          simp only
          by_cases h1 : e.feature > feature
          · simp only [h1, if_true]
            exact ih m start _ (by omega) (by omega)
          · by_cases h2 : e.feature < feature
            · simp only [h1, h2, if_true, if_false]
              exact ih m _ stop (by omega) (by omega)
            · simp only [h1, h2, if_false]
      · simp only [hlt, if_false]

theorem search_none (tbl : List deep_dep) (feature : Nat) :
    ∀ fuel start stop, stop - start < fuel →
      (∀ k e, start ≤ k → k < stop → tbl[k]? = some e → e.feature ≠ feature) →
      lookup_deep_deps.search tbl feature fuel start stop = some none := by
  intro fuel
  induction fuel with
  | zero => intro start stop hf _; omega
  | succ n ih =>
    intro start stop hf h
    unfold lookup_deep_deps.search
    by_cases hlt : start < stop
    · simp only [hlt, if_true]
      cases hm : tbl[start + (stop - start) / 2]? with
      | none => rfl
      | some e =>
        simp only
        have hne := h _ e (by omega) (by omega) hm
        by_cases h1 : e.feature > feature
        · simp only [h1, if_true]
          exact ih start _ (by omega) (fun k e' a b c => h k e' a (by omega) c)
        · by_cases h2 : e.feature < feature
          · simp only [h1, h2, if_true, if_false]
            exact ih _ stop (by omega) (fun k e' a b c => h k e' (by omega) b c)
          · exact absurd (by omega) hne
    · simp only [hlt, if_false]

theorem search_found (tbl : List deep_dep) (feature : Nat)
    (hs : tbl.Pairwise (fun a b => a.feature < b.feature)) (k : Nat) (e : deep_dep)
    (hk : tbl[k]? = some e) (he : e.feature = feature) :
    ∀ fuel start stop, start ≤ k → k < stop → stop ≤ tbl.length → stop - start < fuel →
      lookup_deep_deps.search tbl feature fuel start stop = some (some e.fs) := by
  have hord : ∀ (i j : Nat) (ei ej : deep_dep), tbl[i]? = some ei → tbl[j]? = some ej → i < j →
      ei.feature < ej.feature := by
    intro i j ei ej hi hj hij
    obtain ⟨hi1, hi2⟩ := List.getElem?_eq_some.mp hi
    obtain ⟨hj1, hj2⟩ := List.getElem?_eq_some.mp hj
    have := (List.pairwise_iff_getElem.mp hs) i j hi1 hj1 hij
    rw [hi2, hj2] at this
    exact this
  intro fuel
  induction fuel with
  | zero => intro start stop _ _ _ h; omega
  | succ n ih =>
    intro start stop h1 h2 h3 h4
    unfold lookup_deep_deps.search
    have hlt : start < stop := by omega
    simp only [hlt, if_true]
    have hmid : start + (stop - start) / 2 < tbl.length := by omega
    rw [List.getElem?_eq_getElem hmid]
    simp only
    have hm : tbl[start + (stop - start) / 2]? = some tbl[start + (stop - start) / 2] :=
      List.getElem?_eq_getElem hmid
    by_cases c1 : tbl[start + (stop - start) / 2].feature > feature
    · simp only [c1, if_true]
      apply ih start (start + (stop - start) / 2) h1 ?_ (by omega) (by omega)
      by_contra hc
      by_cases heq : k = start + (stop - start) / 2
      · rw [heq, hm] at hk
        cases hk
        omega
      · have := hord _ k _ e hm hk (by omega)
        omega
    · by_cases c2 : tbl[start + (stop - start) / 2].feature < feature
      · simp only [c1, c2, if_true, if_false]
        apply ih (start + (stop - start) / 2 + 1) stop ?_ h2 h3 (by omega)
        by_contra hc
        by_cases heq : k = start + (stop - start) / 2
        · rw [heq, hm] at hk
          cases hk
          omega
        · have := hord k _ e _ hk hm (by omega)
          omega
      · simp only [c1, c2, if_false]
        have heq : k = start + (stop - start) / 2 := by
          by_contra hne
          rcases Nat.lt_or_gt_of_ne hne with hlt' | hgt'
          · have := hord k _ e _ hk hm hlt'
            omega
          · have := hord _ k _ e hm hk hgt'
            omega
        rw [heq, hm] at hk
        cases hk
        rfl

theorem lookup_of_search (cfg : Config) (f : Nat) (r : Option (List Nat))
    (hd : test_bit f cfg.deep_features = true)
    (hs : lookup_deep_deps.search cfg.deep_deps f (cfg.deep_deps.length + 1) 0
      cfg.deep_deps.length = some r) : lookup_deep_deps cfg f = r := by
  unfold lookup_deep_deps
  simp only [hd, Bool.not_true, Bool.false_eq_true, if_false, hs]

/-- C17: `lookup_deep_deps` returns `NULL` for a feature that is not marked in
`deep_features`; on a table sorted strictly ascending it returns, for a marked
feature, the set of the entry with that feature index, and `NULL` when there is
no such entry.  The binary search terminates for every table, argument and
interval: within `stop - start + 1` iterations the loop has ended with a return
value, `lookup_deep_deps` returns that value, and allowing more iterations
changes nothing. -/
theorem lookup_deep_deps_spec (cfg : Config) :
    (∀ f, test_bit f cfg.deep_features = false → lookup_deep_deps cfg f = none) ∧
    (cfg.deps_sorted → ∀ f, test_bit f cfg.deep_features = true →
      (∀ e ∈ cfg.deep_deps, e.feature = f → lookup_deep_deps cfg f = some e.fs) ∧
      ((∀ e ∈ cfg.deep_deps, e.feature ≠ f) → lookup_deep_deps cfg f = none)) ∧
    (∀ (tbl : List deep_dep) (f start stop : Nat),
      ∃ r, lookup_deep_deps.search tbl f (stop - start + 1) start stop = some r ∧
        ∀ n, lookup_deep_deps.search tbl f (stop - start + 1 + n) start stop = some r) ∧
    (∀ f, test_bit f cfg.deep_features = true →
      ∃ r, lookup_deep_deps.search cfg.deep_deps f (cfg.deep_deps.length + 1) 0
          cfg.deep_deps.length = some r ∧ lookup_deep_deps cfg f = r) := by
  refine ⟨?_, ?_, ?_, ?_⟩
  · intro f hf
    unfold lookup_deep_deps
    simp [hf]
  · intro hs f hf
    constructor
    · intro e he hef
      obtain ⟨k, hk⟩ := List.getElem?_of_mem he
      have hlen : k < cfg.deep_deps.length := (List.getElem?_eq_some.mp hk).1
      exact lookup_of_search cfg f _ hf
        (search_found cfg.deep_deps f hs k e hk hef _ 0 _ (Nat.zero_le _) hlen
          (Nat.le_refl _) (by omega))
    · intro hno
      exact lookup_of_search cfg f _ hf
        (search_none cfg.deep_deps f _ 0 _ (by omega)
          (fun k e _ _ hk => hno e (List.getElem?_mem hk)))
  · intro tbl f start stop
    obtain ⟨r, hr⟩ := search_terminates tbl f (stop - start + 1) start stop (by omega)
    refine ⟨r, hr, fun n => ?_⟩
    rw [← hr]
    exact search_fuel tbl f _ _ start stop (by omega) (by omega)
  · intro f hf
    obtain ⟨r, hr⟩ := search_terminates cfg.deep_deps f (cfg.deep_deps.length + 1) 0
      cfg.deep_deps.length (by omega)
    exact ⟨r, hr, lookup_of_search cfg f r hf hr⟩

set_option maxRecDepth 100000 in
/-- Witness for C17 on the sample table: XSAVE (feature 58) is found, and the
search for a feature that has no entry ends with `NULL`. -/
theorem lookup_deep_deps_spec_witness :
    sample_cfg.deps_sorted ∧ test_bit 58 sample_cfg.deep_features = true ∧
    (⟨58, [0, 0x30001000, 0, 0x00018800, 0x0000000f, 0xdc234020, 0x0000000a, 0, 0]⟩ : deep_dep) ∈
      sample_cfg.deep_deps ∧
    lookup_deep_deps.search sample_cfg.deep_deps 5 (sample_cfg.deep_deps.length + 1) 0
      sample_cfg.deep_deps.length = some none ∧
    lookup_deep_deps sample_cfg 58 =
      some [0, 0x30001000, 0, 0x00018800, 0x0000000f, 0xdc234020, 0x0000000a, 0, 0] :=
  ⟨by decide, by decide, by decide, by decide,
   ((lookup_deep_deps_spec sample_cfg).2.1 (by decide) 58 (by decide)).1
     ⟨58, [0, 0x30001000, 0, 0x00018800, 0x0000000f, 0xdc234020, 0x0000000a, 0, 0]⟩
     (by decide) rfl⟩

set_option maxRecDepth 100000 in
/-- Witness for C18: slot 2 is the first slot that answers leaf 2, subleaf 0. -/
theorem domain_cpuid_first_match_witness :
    (2 : Nat) < sample_cfg.MAX_CPUID_INPUT ∧
    slot_matches sample_cfg (override_domain.cpuid.legacy 2) 2 0 ∧
    (∀ j, j < 2 → ¬ slot_matches sample_cfg (override_domain.cpuid.legacy j) 2 0) ∧
    domain_cpuid sample_cfg override_domain 2 0 EMPTY_LEAF = ⟨0x11, 0x22, 0x33, 0x44⟩ :=
  ⟨by decide, by decide, by decide,
   (domain_cpuid_first_match sample_cfg override_domain 2 0 EMPTY_LEAF).1 2 (by decide)
     (by decide) (by decide)⟩

/-! ## Further claims on `guest_cpuid` -/

set_option maxRecDepth 100000 in
/-- Counterexample to C11 as stated: the domain has the override entry
(0x40000000, wildcard) with registers (1, 2, 3, 4), and `guest_cpuid` for leaf
0x40000000 returns what the hypervisor leaves handler returns, here the
all-zero leaf. -/
theorem guest_cpuid_ignores_hypervisor_override :
    slot_matches sample_cfg ((override_env.vcpus 0).domain.cpuid.legacy 1) 0x40000000 0 ∧
    (override_env.vcpus 0).domain.cpuid.legacy 1 = ⟨0x40000000, 0xFFFFFFFF, 1, 2, 3, 4⟩ ∧
    guest_cpuid sample_cfg override_env 0 0x40000000 0 = some EMPTY_LEAF := by
  decide

/-- C11 (as amended): for every leaf in 0x40000000 .. 0x400001ff `guest_cpuid`
returns what the hypervisor leaves handler returns on the all-zero leaf
(`cpuid_viridian_leaves` for a viridian domain and a leaf up to 0x400000ff,
`cpuid_hypervisor_leaves` otherwise); it does not consult the override list. -/
theorem guest_cpuid_hypervisor_leaves (cfg : Config)
    (hB : cfg.CPUID_GUEST_NR_BASIC ≤ 0x40000000) (env : Env) (v leaf subleaf : Nat)
    (hl : 0x40000000 ≤ leaf ∧ leaf ≤ 0x400001ff) :
    guest_cpuid cfg env v leaf subleaf =
      some (if leaf ≤ 0x400000ff ∧ (env.vcpus v).domain.is_viridian_domain = true then
        env.cpuid_viridian_leaves v leaf subleaf EMPTY_LEAF
      else env.cpuid_hypervisor_leaves v leaf subleaf EMPTY_LEAF) := by
  have h0 : ¬ leaf ≤ cfg.CPUID_GUEST_NR_BASIC - 1 := by omega
  have hf : guest_cpuid.first cfg env v leaf subleaf =
      .ret (if leaf ≤ 0x400000ff ∧ (env.vcpus v).domain.is_viridian_domain = true then
        env.cpuid_viridian_leaves v leaf subleaf EMPTY_LEAF
      else env.cpuid_hypervisor_leaves v leaf subleaf EMPTY_LEAF) := by
    unfold guest_cpuid.first
    dsimp only
    rw [if_neg h0]
    by_cases h1 : leaf ≤ 0x400000ff
    · rw [if_pos (⟨hl.1, h1⟩ : 0x40000000 ≤ leaf ∧ leaf ≤ 0x400000ff)]
      cases hv : (env.vcpus v).domain.is_viridian_domain
      · rw [if_neg (by simp), if_neg (by simp)]
      · rw [if_pos rfl, if_pos ⟨h1, rfl⟩]
    · rw [if_neg (fun h => h1 h.2 : ¬ (0x40000000 ≤ leaf ∧ leaf ≤ 0x400000ff)),
        if_pos (⟨by omega, hl.2⟩ : 0x40000100 ≤ leaf ∧ leaf ≤ 0x400001ff),
        if_neg (fun h => h1 h.1)]
  unfold guest_cpuid
  rw [hf]

set_option maxRecDepth 100000 in
/-- Witness for the amended C11: leaf 0x40000000 on the domain with overrides. -/
theorem guest_cpuid_hypervisor_leaves_witness :
    sample_cfg.CPUID_GUEST_NR_BASIC ≤ 0x40000000 ∧
    guest_cpuid sample_cfg override_env 0 0x40000000 0 =
      some (if 0x40000000 ≤ 0x400000ff ∧
          (override_env.vcpus 0).domain.is_viridian_domain = true then
        override_env.cpuid_viridian_leaves 0 0x40000000 0 EMPTY_LEAF
      else override_env.cpuid_hypervisor_leaves 0 0x40000000 0 EMPTY_LEAF) :=
  ⟨by decide, guest_cpuid_hypervisor_leaves sample_cfg (by decide) override_env 0 0x40000000 0
    ⟨by decide, by decide⟩⟩

/-! ## Totality of `guest_cpuid` -/

theorem pv_cpuid_isSome (cfg : Config) (env : Env) (leaf subleaf : Nat) (res : cpuid_leaf)
    (h7 : leaf ≠ 0x7) (hd : leaf ≠ XSTATE_CPUID) :
    (pv_cpuid cfg env leaf subleaf res).isSome = true := by
  unfold pv_cpuid
  simp only [apply_ite Option.isSome, Option.isSome_some, Option.isSome_none]
  simp [h7, hd]

theorem hvm_cpuid_isSome (cfg : Config) (env : Env) (leaf subleaf : Nat) (res : cpuid_leaf)
    (h7 : leaf ≠ 0x7) (hd : leaf ≠ XSTATE_CPUID) :
    (hvm_cpuid cfg env leaf subleaf res).isSome = true := by
  unfold hvm_cpuid
  simp only [apply_ite Option.isSome, Option.isSome_some, Option.isSome_none]
  simp [h7, hd]

theorem first_legacy_iff (cfg : Config) (env : Env) (v leaf subleaf : Nat) :
    guest_cpuid.first cfg env v leaf subleaf = .legacy ↔
      legacy_leaf cfg (env.vcpus v).domain.cpuid leaf := by
  unfold guest_cpuid.first legacy_leaf
  dsimp only
  split_ifs <;> simp_all <;> omega

theorem first_bug_iff (cfg : Config) (env : Env) (v leaf subleaf : Nat) :
    guest_cpuid.first cfg env v leaf subleaf = .bug ↔
      feat_overrun cfg (env.vcpus v).domain.cpuid leaf subleaf := by
  unfold guest_cpuid.first feat_overrun
  dsimp only
  split_ifs <;> simp_all

theorem legacy_leaf_ne (cfg : Config) (p : cpuid_policy) (leaf : Nat)
    (h : legacy_leaf cfg p leaf) : leaf ≠ 0x7 ∧ leaf ≠ XSTATE_CPUID := by
  unfold legacy_leaf at h
  unfold XSTATE_CPUID at *
  rcases h with ⟨_, _, h1, h2⟩ | ⟨_, h1, _, _⟩
  · exact ⟨h1, h2⟩
  · constructor <;> omega

set_option maxRecDepth 100000 in
/-- Counterexample to C12 as stated: in the sample guest environment the
executing vcpu is 0; a query for vcpu 1 on leaf 1, an in-range basic leaf that
takes the legacy path, reaches `ASSERT(v == current)`, which fails. -/
theorem guest_cpuid_asserts_not_current :
    (1 : Nat) ≠ guest_env.current ∧
    legacy_leaf sample_cfg (guest_env.vcpus 1).domain.cpuid 1 ∧
    guest_cpuid sample_cfg guest_env 1 1 0 = none := by
  decide

/-- C12 (as amended): `guest_cpuid` completes with a leaf value, without firing
`ASSERT(v == current)`, `ASSERT_UNREACHABLE()` or `BUG_ON`, exactly when the
query is neither for a legacy-path leaf on a vcpu other than the executing one
nor for a subleaf of leaf 7 within `feat.max_subleaf` but beyond the `feat.raw`
array. -/
theorem guest_cpuid_returns_iff (cfg : Config) (env : Env) (v leaf subleaf : Nat) :
    (guest_cpuid cfg env v leaf subleaf).isSome = true ↔
      ¬ (legacy_leaf cfg (env.vcpus v).domain.cpuid leaf ∧ v ≠ env.current) ∧
      ¬ feat_overrun cfg (env.vcpus v).domain.cpuid leaf subleaf := by
  have hl := first_legacy_iff cfg env v leaf subleaf
  have hb := first_bug_iff cfg env v leaf subleaf
  unfold guest_cpuid
  cases hf : guest_cpuid.first cfg env v leaf subleaf with
  | ret res =>
    rw [hf] at hl hb
    simp only [Option.isSome_some, true_iff]
    exact ⟨fun h => first_pass.noConfusion (hl.2 h.1), fun h => first_pass.noConfusion (hb.2 h)⟩
  | brk res =>
    rw [hf] at hl hb
    have : (if v ≠ env.current then some res
        else some (guest_cpuid.second cfg env v leaf subleaf res)).isSome = true := by
      split_ifs <;> rfl
    simp only [this, true_iff]
    exact ⟨fun h => first_pass.noConfusion (hl.2 h.1), fun h => first_pass.noConfusion (hb.2 h)⟩
  | bug =>
    rw [hf] at hb
    constructor
    · intro h; cases h
    · intro h; exact absurd (hb.1 rfl) h.2
  | legacy =>
    rw [hf] at hl hb
    have hleg := hl.1 rfl
    obtain ⟨h7, hd⟩ := legacy_leaf_ne cfg _ leaf hleg
    have hnb : ¬ feat_overrun cfg (env.vcpus v).domain.cpuid leaf subleaf :=
      fun h => first_pass.noConfusion (hb.2 h)
    by_cases hv : v = env.current
    · have : (if v ≠ env.current then none
          else if (env.vcpus v).domain.is_hvm_domain = true then
            hvm_cpuid cfg env leaf subleaf EMPTY_LEAF
          else pv_cpuid cfg env leaf subleaf EMPTY_LEAF).isSome = true := by
        rw [if_neg (not_not.2 hv)]
        split_ifs
        · exact hvm_cpuid_isSome cfg env leaf subleaf _ h7 hd
        · exact pv_cpuid_isSome cfg env leaf subleaf _ h7 hd
      simp only [this, true_iff]
      exact ⟨fun h => h.2 hv, hnb⟩
    · rw [if_pos hv]
      constructor
      · intro h; cases h
      · intro h; exact absurd ⟨hleg, hv⟩ h.1

/-! ## Claims on `init_domain_cpuid_policy` -/

theorem recalculate_cpuid_policy_eq (cfg : Config) (hC : cfg.deps_complete) (env : Env)
    (d : domain) :
    ∃ out, sanitise_featureset cfg (recalculate_cpuid_policy.clamped cfg env d) = some out ∧
      out.length = cfg.FSCAPINTS ∧
      recalculate_cpuid_policy cfg env d = some { d with cpuid := (recalculate_xstate cfg env
        (cpuid_featureset_to_policy cfg (recalculate_cpuid_policy.fold cfg env out)
          (recalculate_cpuid_policy.maxima env d))) } := by
  obtain ⟨out, hrun, hlen, _⟩ :=
    sanitise_narrow cfg hC (recalculate_cpuid_policy.clamped cfg env d)
  exact ⟨out, hrun, hlen, by unfold recalculate_cpuid_policy; simp only [hrun]⟩

theorem recalculate_cpuid_policy_some (cfg : Config) (hC : cfg.deps_complete) (env : Env)
    (d : domain) : ∃ d', recalculate_cpuid_policy cfg env d = some d' := by
  obtain ⟨_, _, _, h⟩ := recalculate_cpuid_policy_eq cfg hC env d
  exact ⟨_, h⟩

/-- C16: `init_domain_cpuid_policy` returns `-ENOMEM` exactly when the
allocation fails, and then leaves no policy installed; otherwise it returns 0
and the installed policy is the one `recalculate_cpuid_policy` computes from a
copy of `pv_max_policy` (PV domain) or `hvm_max_policy` (HVM domain), with both
inputs of every one of the `MAX_CPUID_INPUT` override slots set to
`XEN_CPUID_INPUT_UNUSED` and nothing else changed. -/
theorem init_domain_cpuid_policy_spec (cfg : Config) (hC : cfg.deps_complete)
    (hE : 0 < cfg.ENOMEM) (env : Env) (alloc : Bool) (d : domain) :
    ∃ r pol, init_domain_cpuid_policy cfg env alloc d = some (r, pol) ∧
      (r = -(cfg.ENOMEM : Int) ↔ alloc = false) ∧
      (alloc = false → pol = none) ∧
      (alloc = true → r = 0 ∧
        ∃ d' p, recalculate_cpuid_policy cfg env
            { d with cpuid :=
              if d.is_pv_domain then env.pv_max_policy else env.hvm_max_policy } = some d' ∧
          pol = some p ∧
          p.basic = d'.cpuid.basic ∧ p.feat = d'.cpuid.feat ∧ p.xstate = d'.cpuid.xstate ∧
          p.extd = d'.cpuid.extd ∧ p.x86_vendor = d'.cpuid.x86_vendor ∧
          (∀ i, i < cfg.MAX_CPUID_INPUT →
            (p.legacy i).input0 = cfg.XEN_CPUID_INPUT_UNUSED ∧
            (p.legacy i).input1 = cfg.XEN_CPUID_INPUT_UNUSED ∧
            (p.legacy i).eax = (d'.cpuid.legacy i).eax ∧
            (p.legacy i).ebx = (d'.cpuid.legacy i).ebx ∧
            (p.legacy i).ecx = (d'.cpuid.legacy i).ecx ∧
            (p.legacy i).edx = (d'.cpuid.legacy i).edx) ∧
          (∀ i, ¬ i < cfg.MAX_CPUID_INPUT → p.legacy i = d'.cpuid.legacy i)) := by
  cases alloc with
  | false =>
    refine ⟨-(cfg.ENOMEM : Int), none, ?_, ?_, ?_, ?_⟩
    · unfold init_domain_cpuid_policy; rfl
    · simp
    · intro _; rfl
    · intro h; cases h
  | true =>
    obtain ⟨d', hrun⟩ := recalculate_cpuid_policy_some cfg hC env
      { d with cpuid := if d.is_pv_domain then env.pv_max_policy else env.hvm_max_policy }
    refine ⟨0, some (init_domain_cpuid_policy.reset cfg d'.cpuid), ?_, ?_, ?_, ?_⟩
    · unfold init_domain_cpuid_policy
      simp only [Bool.not_true, Bool.false_eq_true, if_false, hrun]
    · constructor
      · intro h
        have : (cfg.ENOMEM : Int) = 0 := by omega
        omega
      · intro h; cases h
    · intro h; cases h
    · intro _
      refine ⟨rfl, d', _, hrun, rfl, rfl, rfl, rfl, rfl, rfl, ?_, ?_⟩
      · intro i hi
        simp only [init_domain_cpuid_policy.reset, if_pos hi, and_self]
      · intro i hi
        simp only [init_domain_cpuid_policy.reset, if_neg hi]

set_option maxRecDepth 100000 in
/-- Witness for C16: a successful allocation for the sample HVM domain in the
booted sample environment. -/
theorem init_domain_cpuid_policy_spec_witness :
    sample_cfg.deps_complete ∧ 0 < sample_cfg.ENOMEM ∧
    ∃ r pol, init_domain_cpuid_policy sample_cfg booted_env true (sample_domain zero_policy) =
        some (r, pol) ∧ r = 0 ∧ pol.isSome = true :=
  ⟨by decide, by decide,
    match init_domain_cpuid_policy_spec sample_cfg (by decide) (by decide) booted_env true
      (sample_domain zero_policy) with
    | ⟨r, pol, h1, _, _, h4⟩ =>
      ⟨r, pol, h1, (h4 rfl).1,
        match h4 rfl with
        | ⟨_, _, _, _, hp, _⟩ => by rw [hp]; rfl⟩⟩

/-! ## Further claims on `recalculate_cpuid_policy` -/

theorem fold_word_7b0 (cfg : Config) (env : Env) (fs : List Nat)
    (h7 : cfg.FEATURESET_7b0 < fs.length) :
    word (recalculate_cpuid_policy.fold cfg env fs) cfg.FEATURESET_7b0 =
      (word fs cfg.FEATURESET_7b0 &&& not32 (word cfg.special_features cfg.FEATURESET_7b0)) |||
        (env.host_policy.feat._7b0 &&& word cfg.special_features cfg.FEATURESET_7b0) := by
  unfold recalculate_cpuid_policy.fold
  simp only [word_set, List.length_set, h7, and_self, if_true]

theorem fold_special (a h s : Nat) : ((a &&& not32 s) ||| (h &&& s)) &&& s = h &&& s := by
  apply Nat.eq_of_testBit_eq
  intro i
  simp only [Nat.testBit_and, Nat.testBit_or, testBit_not32]
  cases a.testBit i <;> cases h.testBit i <;> cases s.testBit i <;> simp

theorem fold_rest (a h s : Nat) :
    ((a &&& not32 s) ||| (h &&& s)) &&& not32 s = a &&& not32 s := by
  apply Nat.eq_of_testBit_eq
  intro i
  simp only [Nat.testBit_and, Nat.testBit_or, testBit_not32]
  cases a.testBit i <;> cases h.testBit i <;> cases s.testBit i <;> simp

/-- C19: after `recalculate_cpuid_policy` the special bits of word `7b0` of the
domain policy are those of `host_policy.feat._7b0`, whatever the policy held
before, and the other bits of the word are those of the featureset that
`sanitise_featureset` produced. -/
theorem recalculate_cpuid_policy_special_7b0 (cfg : Config) (hC : cfg.deps_complete)
    (h7 : cfg.FEATURESET_7b0 < cfg.FSCAPINTS) (env : Env) (d : domain) :
    ∃ out d', sanitise_featureset cfg (recalculate_cpuid_policy.clamped cfg env d) = some out ∧
      recalculate_cpuid_policy cfg env d = some d' ∧
      d'.cpuid.feat._7b0 &&& word cfg.special_features cfg.FEATURESET_7b0 =
        env.host_policy.feat._7b0 &&& word cfg.special_features cfg.FEATURESET_7b0 ∧
      d'.cpuid.feat._7b0 &&& not32 (word cfg.special_features cfg.FEATURESET_7b0) =
        word out cfg.FEATURESET_7b0 &&&
          not32 (word cfg.special_features cfg.FEATURESET_7b0) := by
  obtain ⟨out, hrun, hlen, hrec⟩ := recalculate_cpuid_policy_eq cfg hC env d
  refine ⟨out, _, hrun, hrec, ?_, ?_⟩
  all_goals
    show (recalculate_xstate cfg env _).feat._7b0 &&& _ = _
    rw [(recalculate_xstate_frame cfg env _).2.1, (to_policy_fields cfg _ _).2.2.2.2.2.1,
      fold_word_7b0 cfg env out (by rw [hlen]; exact h7)]
  · exact fold_special _ _ _
  · exact fold_rest _ _ _

set_option maxRecDepth 100000 in
/-- Witness for C19: the sample HVM domain created from `hvm_max_policy` in
the booted sample environment. -/
theorem recalculate_cpuid_policy_special_7b0_witness :
    sample_cfg.deps_complete ∧ sample_cfg.FEATURESET_7b0 < sample_cfg.FSCAPINTS ∧
    ∃ out d', sanitise_featureset sample_cfg (recalculate_cpuid_policy.clamped sample_cfg
        booted_env (sample_domain booted_env.hvm_max_policy)) = some out ∧
      recalculate_cpuid_policy sample_cfg booted_env
        (sample_domain booted_env.hvm_max_policy) = some d' ∧
      d'.cpuid.feat._7b0 &&& word sample_cfg.special_features sample_cfg.FEATURESET_7b0 =
        booted_env.host_policy.feat._7b0 &&&
          word sample_cfg.special_features sample_cfg.FEATURESET_7b0 ∧
      d'.cpuid.feat._7b0 &&& not32 (word sample_cfg.special_features sample_cfg.FEATURESET_7b0) =
        word out sample_cfg.FEATURESET_7b0 &&&
          not32 (word sample_cfg.special_features sample_cfg.FEATURESET_7b0) :=
  ⟨by decide, by decide, recalculate_cpuid_policy_special_7b0 sample_cfg (by decide) (by decide)
    booted_env (sample_domain booted_env.hvm_max_policy)⟩

theorem maxima_max_leaf (env : Env) (d : domain) :
    (recalculate_cpuid_policy.maxima env d).basic.max_leaf =
      min d.cpuid.basic.max_leaf (recalculate_cpuid_policy.max env d).basic.max_leaf := by
  simp [recalculate_cpuid_policy.maxima, cpuid_policy.set_basic_max_leaf,
    cpuid_policy.set_feat_max_subleaf, cpuid_policy.set_extd_max_leaf, basic_t.max_leaf, upd]

/-- C20: when the domain's `basic.max_leaf`, clamped to that of the max policy,
is below `XSTATE_CPUID`, the policy left by `recalculate_cpuid_policy` has the
XSAVE bit clear and an all-zero extended-state block, whatever the toolstack
requested and whatever the max policy holds. -/
theorem recalculate_cpuid_policy_low_max_leaf (cfg : Config) (hC : cfg.deps_complete)
    (hL : cfg.layout) (hX : cfg.X86_FEATURE_XSAVE / 32 = cfg.FEATURESET_1c)
    (env : Env) (d : domain)
    (hmax : min d.cpuid.basic.max_leaf
      (if d.is_pv_domain then env.pv_max_policy else env.hvm_max_policy).basic.max_leaf <
        XSTATE_CPUID) :
    ∃ d', recalculate_cpuid_policy cfg env d = some d' ∧
      d'.cpuid.basic.xsave cfg = false ∧ d'.cpuid.xstate = ⟨fun _ => EMPTY_LEAF⟩ := by
  have hm : (recalculate_cpuid_policy.maxima env d).basic.max_leaf < XSTATE_CPUID := by
    rw [maxima_max_leaf]; exact hmax
  have hcl : test_bit cfg.X86_FEATURE_XSAVE (recalculate_cpuid_policy.clamped cfg env d) =
      false := by
    unfold recalculate_cpuid_policy.clamped
    dsimp only
    rw [if_pos hm]
    exact test_bit_clear_bit_self _ _
  obtain ⟨out, hrun, hout⟩ := sanitise_keeps_clear cfg hC _ cfg.X86_FEATURE_XSAVE
    (fun hs => (layout_1c cfg hL).1 (hX.symm.trans hs.1)) hcl
  have hfold : test_bit cfg.X86_FEATURE_XSAVE (recalculate_cpuid_policy.fold cfg env out) =
      false := by
    by_contra hc
    have := fold_bits cfg env out _ (fun hs => (layout_1c cfg hL).2 (hX.symm.trans hs.1))
      (by simpa using hc)
    rw [hout] at this; cases this
  have hx : (recalculate_xstate cfg env (cpuid_featureset_to_policy cfg
      (recalculate_cpuid_policy.fold cfg env out)
      (recalculate_cpuid_policy.maxima env d))).basic.xsave cfg = false := by
    rw [xsave_of_featureset cfg hX, hfold]
  have hp : (cpuid_featureset_to_policy cfg (recalculate_cpuid_policy.fold cfg env out)
      (recalculate_cpuid_policy.maxima env d)).basic.xsave cfg = false := by
    rw [← (recalculate_xstate_frame cfg env _).1]; exact hx
  refine ⟨{ d with cpuid := (recalculate_xstate cfg env
    (cpuid_featureset_to_policy cfg (recalculate_cpuid_policy.fold cfg env out)
      (recalculate_cpuid_policy.maxima env d))) },
    by unfold recalculate_cpuid_policy; simp only [hrun], hx, ?_⟩
  show (recalculate_xstate cfg env _).xstate = _
  rw [recalculate_xstate_of_not_xsave cfg env _ hp]

set_option maxRecDepth 100000 in
/-- Witness for C20: the sample HVM domain asks for `hvm_max_policy`, which has
XSAVE, with `basic.max_leaf` lowered to 7. -/
theorem recalculate_cpuid_policy_low_max_leaf_witness :
    (sample_domain (booted_env.hvm_max_policy.set_basic_max_leaf 7)).cpuid.basic.xsave
      sample_cfg = true ∧
    booted_env.hvm_max_policy.basic.xsave sample_cfg = true ∧
    ∃ d', recalculate_cpuid_policy sample_cfg booted_env
        (sample_domain (booted_env.hvm_max_policy.set_basic_max_leaf 7)) = some d' ∧
      d'.cpuid.basic.xsave sample_cfg = false ∧ d'.cpuid.xstate = ⟨fun _ => EMPTY_LEAF⟩ :=
  ⟨by decide, by decide, recalculate_cpuid_policy_low_max_leaf sample_cfg (by decide) (by decide)
    (by decide) booted_env (sample_domain (booted_env.hvm_max_policy.set_basic_max_leaf 7))
    (by decide)⟩

/-! ## Shared bits and narrowing in `sanitise_featureset` -/

theorem sanitise_of_pass (cfg : Config) (fs b dis : List Nat)
    (h : sanitise_featureset.pass cfg fs = some (b, dis)) :
    sanitise_featureset cfg fs = some (b.set cfg.FEATURESET_e1d
      ((word b cfg.FEATURESET_1d &&& cfg.CPUID_COMMON_1D_FEATURES) |||
       (word b cfg.FEATURESET_e1d &&& not32 cfg.CPUID_COMMON_1D_FEATURES))) := by
  unfold sanitise_featureset.pass at h
  unfold sanitise_featureset
  simp only [h]

theorem pass_spec (cfg : Config) (hC : cfg.deps_complete) (fs : List Nat) :
    ∃ b dis, sanitise_featureset.pass cfg fs = some (b, dis) ∧
      Pass cfg (fill cfg.FSCAPINTS (fun i => word fs i &&& word cfg.known_features i)) b := by
  obtain ⟨b, dis, hrun, hp⟩ := sanitise_pass cfg hC
    (fill cfg.FSCAPINTS (fun i => word fs i &&& word cfg.known_features i)) (length_fill _ _)
  exact ⟨b, dis, hrun, hp⟩

theorem merge_common (x y c : Nat) : ((x &&& c) ||| (y &&& not32 c)) &&& c = x &&& c := by
  apply Nat.eq_of_testBit_eq
  intro i
  simp only [Nat.testBit_and, Nat.testBit_or, testBit_not32]
  cases x.testBit i <;> cases y.testBit i <;> cases c.testBit i <;> simp

theorem merge_rest (x y c : Nat) :
    ((x &&& c) ||| (y &&& not32 c)) &&& not32 c = y &&& not32 c := by
  apply Nat.eq_of_testBit_eq
  intro i
  simp only [Nat.testBit_and, Nat.testBit_or, testBit_not32]
  cases x.testBit i <;> cases y.testBit i <;> cases c.testBit i <;> simp

/-- C21: the output of `sanitise_featureset` carries the shared bits in the
duplicated form: word `e1d` and word `1d` agree on `CPUID_COMMON_1D_FEATURES`,
and outside that mask word `e1d` is as the clamp and the dependency pass left
it. -/
theorem sanitise_featureset_duplicates_shared (cfg : Config) (hC : cfg.deps_complete)
    (hE : cfg.FEATURESET_e1d < cfg.FSCAPINTS) (fs : List Nat) :
    ∃ b dis out, sanitise_featureset.pass cfg fs = some (b, dis) ∧
      sanitise_featureset cfg fs = some out ∧
      word out cfg.FEATURESET_e1d &&& cfg.CPUID_COMMON_1D_FEATURES =
        word out cfg.FEATURESET_1d &&& cfg.CPUID_COMMON_1D_FEATURES ∧
      word out cfg.FEATURESET_e1d &&& not32 cfg.CPUID_COMMON_1D_FEATURES =
        word b cfg.FEATURESET_e1d &&& not32 cfg.CPUID_COMMON_1D_FEATURES := by
  obtain ⟨b, dis, hrun, hp⟩ := pass_spec cfg hC fs
  refine ⟨b, dis, _, hrun, sanitise_of_pass cfg fs b dis hrun, ?_, ?_⟩
  · by_cases h1 : cfg.FEATURESET_1d = cfg.FEATURESET_e1d
    · rw [h1]
    · rw [word_set, word_set, if_pos ⟨rfl, by rw [hp.len]; exact hE⟩,
        if_neg (fun h => h1 h.1), merge_common]
  · rw [word_set, if_pos ⟨rfl, by rw [hp.len]; exact hE⟩, merge_rest]

set_option maxRecDepth 100000 in
/-- Witness for C21: the sample host featureset under the sample tables. -/
theorem sanitise_featureset_duplicates_shared_witness :
    sample_cfg.deps_complete ∧ sample_cfg.FEATURESET_e1d < sample_cfg.FSCAPINTS ∧
    ∃ b dis out, sanitise_featureset.pass sample_cfg sample_host_featureset = some (b, dis) ∧
      sanitise_featureset sample_cfg sample_host_featureset = some out ∧
      word out sample_cfg.FEATURESET_e1d &&& sample_cfg.CPUID_COMMON_1D_FEATURES =
        word out sample_cfg.FEATURESET_1d &&& sample_cfg.CPUID_COMMON_1D_FEATURES ∧
      word out sample_cfg.FEATURESET_e1d &&& not32 sample_cfg.CPUID_COMMON_1D_FEATURES =
        word b sample_cfg.FEATURESET_e1d &&& not32 sample_cfg.CPUID_COMMON_1D_FEATURES :=
  ⟨by decide, by decide,
    sanitise_featureset_duplicates_shared sample_cfg (by decide) (by decide)
      sample_host_featureset⟩

theorem and_sub_or_left {x a b : Nat} (h : x &&& a = x) : x &&& (a ||| b) = x := by
  apply and_eq_of_bits
  intro i hi
  rw [Nat.testBit_or, and_eq_bits h i hi]
  rfl

/-- C29: `sanitise_featureset` adds no feature outside the shared bits of word
`e1d`: every output word other than `e1d` is a subset of the input word clamped
to the known mask, and output word `e1d` is a subset of its clamped input word
united with the shared bits of the clamped input word `1d`. -/
theorem sanitise_featureset_adds_nothing (cfg : Config) (hC : cfg.deps_complete)
    (fs : List Nat) :
    ∃ out, sanitise_featureset cfg fs = some out ∧
      (∀ i, i ≠ cfg.FEATURESET_e1d →
        word out i &&& (word fs i &&& word cfg.known_features i) = word out i) ∧
      word out cfg.FEATURESET_e1d &&&
          ((word fs cfg.FEATURESET_e1d &&& word cfg.known_features cfg.FEATURESET_e1d) |||
           (word fs cfg.FEATURESET_1d &&& word cfg.known_features cfg.FEATURESET_1d &&&
             cfg.CPUID_COMMON_1D_FEATURES)) =
        word out cfg.FEATURESET_e1d := by
  obtain ⟨b, dis, hrun, hp⟩ := pass_spec cfg hC fs
  have hsub : ∀ j, word b j &&& (word fs j &&& word cfg.known_features j) = word b j := by
    intro j
    apply and_eq_of_bits
    intro i hi
    have h1 := and_eq_bits (hp.and_eq j) i hi
    rw [word_fill] at h1
    by_cases hj : j < cfg.FSCAPINTS
    · rw [if_pos hj] at h1; exact h1
    · rw [if_neg hj] at h1; simp at h1
  refine ⟨_, sanitise_of_pass cfg fs b dis hrun, ?_, ?_⟩
  · intro i hi
    rw [word_set, if_neg (fun h => hi h.1)]
    exact hsub i
  · rw [word_set]
    by_cases hE : cfg.FEATURESET_e1d < b.length
    · rw [if_pos ⟨rfl, hE⟩]
      apply and_eq_of_bits
      intro i hi
      have h1 := fun h => and_eq_bits (hsub cfg.FEATURESET_1d) i h
      have h2 := fun h => and_eq_bits (hsub cfg.FEATURESET_e1d) i h
      simp only [Nat.testBit_or, Nat.testBit_and, testBit_not32, Bool.or_eq_true,
        Bool.and_eq_true] at hi h1 h2 ⊢
      rcases hi with hi | hi
      · exact Or.inr ⟨h1 hi.1, hi.2⟩
      · exact Or.inl (h2 hi.1)
    · rw [if_neg (fun h => hE h.2)]
      exact and_sub_or_left (hsub _)

set_option maxRecDepth 100000 in
/-- Witness for C29: the sample host featureset under the sample tables. -/
theorem sanitise_featureset_adds_nothing_witness :
    sample_cfg.deps_complete ∧
    ∃ out, sanitise_featureset sample_cfg sample_host_featureset = some out ∧
      ∀ i, i ≠ sample_cfg.FEATURESET_e1d →
        word out i &&& (word sample_host_featureset i &&& word sample_cfg.known_features i) =
          word out i :=
  ⟨by decide,
    match sanitise_featureset_adds_nothing sample_cfg (by decide) sample_host_featureset with
    | ⟨out, h1, h2, _⟩ => ⟨out, h1, h2⟩⟩

/-! ## The dependency lookup inside `sanitise_featureset` -/

theorem traced_erase_aux {σ : Type} (bitmap : σ → List Nat) (body : Nat → σ → Option σ)
    (l : List Nat) : ∀ (tr : List Nat) (s : σ),
    (l.foldlM (fun (st : List Nat × σ) i =>
        if test_bit i (bitmap st.2) then
          (body i st.2).map (fun st' => (st.1 ++ [i], st'))
        else some st) (tr, s)).map Prod.snd =
      l.foldlM (fun st i => if test_bit i (bitmap st) then body i st else some st) s := by
  induction l with
  | nil => intro tr s; rfl
  | cons i l ih =>
    intro tr s
    rw [List.foldlM_cons, List.foldlM_cons]
    by_cases hb : test_bit i (bitmap s) = true
    · simp only [hb, if_true]
      cases hbody : body i s with
      | none => rfl
      | some st' =>
        simp only [Option.map_some', Option.some_bind]
        exact ih _ _
    · simp only [hb, if_false]
      exact ih _ _

theorem traced_erase {σ : Type} (bitmap : σ → List Nat) (size : Nat)
    (body : Nat → σ → Option σ) (s : σ) :
    (for_each_set_bit.traced bitmap size body s).map Prod.snd =
      for_each_set_bit bitmap size body s := by
  unfold for_each_set_bit.traced for_each_set_bit
  exact traced_erase_aux bitmap body _ [] s

theorem deps_complete_of_present (cfg : Config) (hS : cfg.deps_sorted)
    (hP : cfg.deps_present) : cfg.deps_complete := by
  intro i hi hd
  obtain ⟨e, he, hef⟩ := hP i hi hd
  obtain ⟨k, hk⟩ := List.getElem?_of_mem he
  have hlen : k < cfg.deep_deps.length := (List.getElem?_eq_some.mp hk).1
  rw [lookup_of_search cfg i _ hd (search_found cfg.deep_deps i hS k e hk hef _ 0 _
    (Nat.zero_le _) hlen (Nat.le_refl _) (by omega))]
  exact Option.some_ne_none _

/-- C28: when the table `deep_deps[]` is sorted and holds an entry for every
feature marked in `deep_features[]`, the `for_each_set_bit` loop of
`sanitise_featureset` runs to its end for every input featureset; every index
it visits is below `FSCAPINTS * 32`, is marked in `deep_features[]` and is found
by `lookup_deep_deps`, so that `ASSERT(dfs)` holds; and the indices are visited
in strictly increasing order. -/
theorem sanitise_featureset_lookup_never_fails (cfg : Config) (hS : cfg.deps_sorted)
    (hP : cfg.deps_present) (fs : List Nat) :
    ∃ visited st out, sanitise_featureset.visited cfg fs = some (visited, st) ∧
      sanitise_featureset.pass cfg fs = some st ∧
      sanitise_featureset cfg fs = some out ∧
      (∀ i ∈ visited, i < cfg.FSCAPINTS * 32 ∧ test_bit i cfg.deep_features = true ∧
        ∃ dfs, lookup_deep_deps cfg i = some dfs) ∧
      visited.Pairwise (fun a b => a < b) := by
  have hC := deps_complete_of_present cfg hS hP
  obtain ⟨⟨tr, st⟩, hrun, hin, hpw, _⟩ := for_each_set_bit_inv
    (fun st : List Nat × (List Nat × List Nat) => st.2.2) (ROUNDUP cfg.FSCAPINTS 2 * 32)
    (fun i st => (sanitise_featureset.body cfg i st.2).map (fun st' => (st.1 ++ [i], st')))
    (([] : List Nat), (fill cfg.FSCAPINTS (fun i => word fs i &&& word cfg.known_features i),
      fill (ROUNDUP cfg.FSCAPINTS 2) (fun i =>
        if i < cfg.FSCAPINTS then
          not32 (word (fill cfg.FSCAPINTS
            (fun i => word fs i &&& word cfg.known_features i)) i) &&&
            word cfg.deep_features i
        else 0)))
    (fun n x =>
      (∀ i ∈ x.1, i < n ∧ i / 32 < cfg.FSCAPINTS ∧ test_bit i cfg.deep_features = true) ∧
      x.1.Pairwise (fun a b => a < b) ∧
      (∀ g, test_bit g x.2.2 = true →
        g / 32 < cfg.FSCAPINTS ∧ test_bit g cfg.deep_features = true))
    (by
      refine ⟨fun i hi => absurd hi (List.not_mem_nil i), List.Pairwise.nil, ?_⟩
      intro g hg
      rw [test_bit_disabled] at hg
      simp only [Bool.and_eq_true, decide_eq_true_eq] at hg
      exact ⟨hg.1, hg.2.2⟩)
    (by
      intro i x _ hinv _
      obtain ⟨h1, h2, h3⟩ := hinv
      exact ⟨fun j hj => ⟨by have := (h1 j hj).1; omega, (h1 j hj).2⟩, h2, h3⟩)
    (by
      intro i x _ hinv hb
      obtain ⟨h1, h2, h3⟩ := hinv
      obtain ⟨hi32, hideep⟩ := h3 i hb
      have hne := hC i (by omega) hideep
      cases hl : lookup_deep_deps cfg i with
      | none => exact absurd hl hne
      | some dfs =>
        refine ⟨(x.1 ++ [i], fill cfg.FSCAPINTS (fun j => word x.2.1 j &&& not32 (word dfs j)),
            fill (ROUNDUP cfg.FSCAPINTS 2) (fun j =>
              if j < cfg.FSCAPINTS then word x.2.2 j &&& not32 (word dfs j) else word x.2.2 j)),
          by simp only [sanitise_featureset.body, hl, Option.map_some'], ?_, ?_, ?_⟩
        · intro j hj
          rcases List.mem_append.mp hj with hj | hj
          · exact ⟨by have := (h1 j hj).1; omega, (h1 j hj).2⟩
          · rw [List.mem_singleton] at hj
            subst hj
            exact ⟨Nat.lt_succ_self _, hi32, hideep⟩
        · rw [List.pairwise_append]
          refine ⟨h2, List.pairwise_singleton _ _, ?_⟩
          intro a ha b hb'
          rw [List.mem_singleton] at hb'
          subst hb'
          exact (h1 a ha).1
        · intro g hg
          exact h3 g (test_bit_disabled_step_imp cfg _ _ g hg))
  have hpass : sanitise_featureset.pass cfg fs = some st := by
    have := traced_erase (fun st : List Nat × List Nat => st.2) (ROUNDUP cfg.FSCAPINTS 2 * 32)
      (sanitise_featureset.body cfg)
      (fill cfg.FSCAPINTS (fun i => word fs i &&& word cfg.known_features i),
        fill (ROUNDUP cfg.FSCAPINTS 2) (fun i =>
          if i < cfg.FSCAPINTS then
            not32 (word (fill cfg.FSCAPINTS
              (fun i => word fs i &&& word cfg.known_features i)) i) &&&
              word cfg.deep_features i
          else 0))
    unfold for_each_set_bit.traced at this
    rw [hrun] at this
    exact this.symm
  refine ⟨tr, st, _, hrun, hpass, sanitise_of_pass cfg fs st.1 st.2 hpass, ?_, hpw⟩
  intro i hi
  obtain ⟨_, h2, h3⟩ := hin i hi
  refine ⟨by omega, h3, ?_⟩
  have hne := hC i (by omega) h3
  cases hl : lookup_deep_deps cfg i with
  | none => exact absurd hl hne
  | some dfs => exact ⟨dfs, rfl⟩

set_option maxRecDepth 100000 in
/-- Witness for C28: on the sample tables the loop on the empty featureset
visits the features 3, 6, 9 and 58, in this order; the other deep features are
cleared from `disabled_features` before the scan reaches them. -/
theorem sanitise_featureset_lookup_never_fails_witness :
    sample_cfg.deps_sorted ∧ sample_cfg.deps_present ∧
    (sanitise_featureset.visited sample_cfg []).map Prod.fst = some [3, 6, 9, 58] ∧
    ∃ visited st out, sanitise_featureset.visited sample_cfg [] = some (visited, st) ∧
      sanitise_featureset.pass sample_cfg [] = some st ∧
      sanitise_featureset sample_cfg [] = some out ∧
      (∀ i ∈ visited, i < sample_cfg.FSCAPINTS * 32 ∧
        test_bit i sample_cfg.deep_features = true ∧
        ∃ dfs, lookup_deep_deps sample_cfg i = some dfs) ∧
      visited.Pairwise (fun a b => a < b) :=
  ⟨by decide, by decide, by decide,
    sanitise_featureset_lookup_never_fails sample_cfg (by decide) (by decide) []⟩

/-! ## The header and the components computed by `recalculate_xstate` -/

theorem ext_eq (env : Env) (present : Bool) (mask comp : Nat) (acc : Nat × Nat) :
    recalculate_xstate.ext env present mask comp acc =
      (acc.1 ||| (if present then mask else 0),
        (if present then [comp] else []).foldl
          (fun m c => max m ((env.xstate_offsets c + env.xstate_sizes c) % 2 ^ 32)) acc.2) := by
  unfold recalculate_xstate.ext
  cases present
  · simp
  · simp

theorem features_eq_spec (cfg : Config) (env : Env) (p : cpuid_policy) :
    recalculate_xstate.features cfg env p =
      (spec_enabled_mask cfg p, spec_area_size cfg env p) := by
  unfold recalculate_xstate.features spec_enabled_mask spec_area_size spec_sized_components
  simp only [ext_eq, List.foldl_append]

theorem spec_enabled_mask_zeroed (cfg : Config) (p : cpuid_policy) (x : xstate_t) :
    spec_enabled_mask cfg { p with xstate := x } = spec_enabled_mask cfg p := rfl

theorem spec_area_size_zeroed (cfg : Config) (env : Env) (p : cpuid_policy) (x : xstate_t) :
    spec_area_size cfg env { p with xstate := x } = spec_area_size cfg env p := rfl

theorem recalculate_xstate_header_leaves (cfg : Config) (env : Env) (p : cpuid_policy)
    (hx : p.basic.xsave cfg = true) :
    (recalculate_xstate cfg env p).xstate.raw 0 =
      ⟨(spec_enabled_mask cfg p &&& not64 cfg.XSTATE_XSAVES_ONLY) % 2 ^ 32, 0,
        spec_area_size cfg env p,
        ((spec_enabled_mask cfg p &&& not64 cfg.XSTATE_XSAVES_ONLY) >>> 32) % 2 ^ 32⟩ ∧
    (recalculate_xstate cfg env p).xstate.raw 1 =
      if p.xstate.xsaves cfg then
        ⟨p.xstate.Da1, 0, (spec_enabled_mask cfg p &&& cfg.XSTATE_XSAVES_ONLY) % 2 ^ 32,
          ((spec_enabled_mask cfg p &&& cfg.XSTATE_XSAVES_ONLY) >>> 32) % 2 ^ 32⟩
      else ⟨p.xstate.Da1, 0, 0, 0⟩ := by
  unfold recalculate_xstate
  dsimp only
  simp only [hx, Bool.not_true, Bool.false_eq_true, if_false, features_eq_spec,
    spec_enabled_mask_zeroed, spec_area_size_zeroed]
  rw [comp_low cfg env _ _ 0 (by norm_num), comp_low cfg env _ _ 1 (by norm_num)]
  have hs : xstate_t.xsaves cfg ⟨upd (upd (fun _ => EMPTY_LEAF) 0 (fun l =>
      { l with c := spec_area_size cfg env p,
               a := (spec_enabled_mask cfg p &&& not64 cfg.XSTATE_XSAVES_ONLY) % 2 ^ 32,
               d := ((spec_enabled_mask cfg p &&& not64 cfg.XSTATE_XSAVES_ONLY) >>> 32) %
                 2 ^ 32 })) 1 (fun l => { l with a := p.xstate.Da1 })⟩ = p.xstate.xsaves cfg := by
    simp [xstate_t.xsaves, xstate_t.Da1, upd]
  rw [hs]
  cases p.xstate.xsaves cfg <;> simp [upd, EMPTY_LEAF]

theorem testBit_not64 (x i : Nat) : (not64 x).testBit i = (decide (i < 64) && !x.testBit i) := by
  unfold not64
  rw [show 2 ^ 64 - 1 - x % 2 ^ 64 = 2 ^ 64 - (x % 2 ^ 64 + 1) by omega,
    Nat.testBit_two_pow_sub_succ (Nat.mod_lt _ (by norm_num)), Nat.testBit_mod_two_pow]
  by_cases h : i < 64 <;> simp [h]

theorem split64 (x : Nat) (hx : x < 2 ^ 64) : x % 2 ^ 32 + 2 ^ 32 * ((x >>> 32) % 2 ^ 32) = x := by
  rw [Nat.shiftRight_eq_div_pow]
  omega

theorem not64_lt (x : Nat) : not64 x < 2 ^ 64 := by unfold not64; omega

/-- C22: for a policy with `basic.xsave` set, `recalculate_xstate` computes the
header from the feature bits alone: with `E` the enabled mask built from AVX,
MPX, AVX512F, PKU and LWP, `max_size` is the largest of `XSTATE_AREA_MIN_SIZE`
and the ends of the components that bound it, `xcr0_high:xcr0_low` is `E`
without the `XSTATE_XSAVES_ONLY` bits, and `xss_high:xss_low` is
`E & XSTATE_XSAVES_ONLY` when the XSAVES bit of `Da1` is set and 0 otherwise. -/
theorem recalculate_xstate_header (cfg : Config) (hX : cfg.XSTATE_XSAVES_ONLY < 2 ^ 64)
    (env : Env) (p : cpuid_policy) (hx : p.basic.xsave cfg = true) :
    (recalculate_xstate cfg env p).xstate.max_size = spec_area_size cfg env p ∧
    (recalculate_xstate cfg env p).xstate.xcr0_low +
        2 ^ 32 * (recalculate_xstate cfg env p).xstate.xcr0_high =
      spec_enabled_mask cfg p &&& not64 cfg.XSTATE_XSAVES_ONLY ∧
    (recalculate_xstate cfg env p).xstate.xss_low +
        2 ^ 32 * (recalculate_xstate cfg env p).xstate.xss_high =
      (if p.xstate.xsaves cfg then spec_enabled_mask cfg p &&& cfg.XSTATE_XSAVES_ONLY
        else 0) := by
  obtain ⟨h0, h1⟩ := recalculate_xstate_header_leaves cfg env p hx
  unfold xstate_t.max_size xstate_t.xcr0_low xstate_t.xcr0_high xstate_t.xss_low
    xstate_t.xss_high
  rw [h0, h1]
  refine ⟨rfl, ?_, ?_⟩
  · exact split64 _ (lt_of_le_of_lt Nat.and_le_right (not64_lt _))
  · cases p.xstate.xsaves cfg
    · rfl
    · exact split64 _ (lt_of_le_of_lt Nat.and_le_right hX)

set_option maxRecDepth 100000 in
/-- Witness for C22: the sample host policy, which has XSAVE and AVX. -/
theorem recalculate_xstate_header_witness :
    sample_cfg.XSTATE_XSAVES_ONLY < 2 ^ 64 ∧
    booted_env.host_policy.basic.xsave sample_cfg = true ∧
    booted_env.host_policy.basic.avx sample_cfg = true ∧
    (recalculate_xstate sample_cfg booted_env booted_env.host_policy).xstate.max_size =
      spec_area_size sample_cfg booted_env booted_env.host_policy :=
  ⟨by decide, by decide, by decide,
    (recalculate_xstate_header sample_cfg (by decide) booted_env booted_env.host_policy
      (by decide)).1⟩

theorem and_one_shiftLeft_eq_zero (x i : Nat) : x &&& 1 <<< i = 0 ↔ x.testBit i = false := by
  rw [Nat.one_shiftLeft]
  constructor
  · intro h
    have := congrArg (fun y => y.testBit i) h
    simpa [Nat.testBit_and, Nat.testBit_two_pow] using this
  · intro h
    apply Nat.eq_of_testBit_eq
    intro j
    rw [Nat.testBit_and, Nat.testBit_two_pow, Nat.zero_testBit]
    by_cases hij : i = j
    · subst hij; simp [h]
    · simp [hij]

theorem one_shiftLeft_and_ne_zero (y i : Nat) : (1 <<< i &&& y != 0) = y.testBit i := by
  have h := and_one_shiftLeft_eq_zero y i
  rw [Nat.and_comm] at h
  cases hb : y.testBit i
  · simp [h.2 hb]
  · have : 1 <<< i &&& y ≠ 0 := fun hc => by rw [h.1 hc] at hb; cases hb
    simp [this]

theorem comp_step_at (cfg : Config) (env : Env) (xstates : Nat) (x : Nat → cpuid_leaf)
    (i : Nat) :
    recalculate_xstate.comp_step cfg env xstates x i i =
      if xstates.testBit i then
        comp_write (x i) (env.xstate_sizes i) (env.xstate_offsets i)
          (cfg.XSTATE_XSAVES_ONLY.testBit i) (env.xstate_align.testBit i)
      else x i := by
  unfold recalculate_xstate.comp_step
  cases hb : xstates.testBit i
  · rw [if_pos ((and_one_shiftLeft_eq_zero _ _).2 hb)]; rfl
  · rw [if_neg (fun h => by rw [(and_one_shiftLeft_eq_zero _ _).1 h] at hb; cases hb),
      one_shiftLeft_and_ne_zero, one_shiftLeft_and_ne_zero]
    simp [upd]

theorem comp_step_other (cfg : Config) (env : Env) (xstates : Nat) (x : Nat → cpuid_leaf)
    (i j : Nat) (h : j ≠ i) : recalculate_xstate.comp_step cfg env xstates x i j = x j := by
  unfold recalculate_xstate.comp_step
  split_ifs
  · rfl
  · simp [upd, h]

theorem comp_at (cfg : Config) (env : Env) (xstates : Nat) (x : Nat → cpuid_leaf) (j : Nat)
    (h2 : 2 ≤ j) (hj : j < min 63 cfg.CPUID_GUEST_NR_XSTATE) :
    recalculate_xstate.comp cfg env xstates x j =
      recalculate_xstate.comp_step cfg env xstates x j j := by
  unfold recalculate_xstate.comp
  have key : ∀ (l : List Nat), l.Nodup → ∀ x : Nat → cpuid_leaf,
      (l.foldl (recalculate_xstate.comp_step cfg env xstates) x) j =
        if j ∈ l then recalculate_xstate.comp_step cfg env xstates x j j else x j := by
    intro l
    induction l with
    | nil => intro _ x; rfl
    | cons a t ih =>
      intro hnd x
      rw [List.nodup_cons] at hnd
      rw [List.foldl_cons, ih hnd.2]
      by_cases hja : j = a
      · subst hja
        rw [if_neg hnd.1, if_pos (List.mem_cons_self _ _)]
      · rw [comp_step_other cfg env xstates x a j hja]
        by_cases hjt : j ∈ t
        · rw [if_pos hjt, if_pos (List.mem_cons_of_mem _ hjt), comp_step_at, comp_step_at,
            comp_step_other cfg env xstates x a j hja]
        · rw [if_neg hjt, if_neg (fun h => by
            rcases List.mem_cons.mp h with h | h
            · exact hja h
            · exact hjt h)]
  rw [key _ (List.nodup_range' _ _), if_pos (by rw [List.mem_range'_1]; omega)]

theorem final_mask_bit (cfg : Config) (p : cpuid_policy) (i : Nat) (hi : i < 64) :
    (if p.xstate.xsaves cfg then spec_enabled_mask cfg p
      else spec_enabled_mask cfg p &&& not64 cfg.XSTATE_XSAVES_ONLY).testBit i =
      (spec_final_mask cfg p).testBit i := by
  unfold spec_final_mask
  cases p.xstate.xsaves cfg
  · simp
  · simp only [if_true, Nat.testBit_or, Nat.testBit_and, testBit_not64, hi, decide_True,
      Bool.true_and]
    cases (spec_enabled_mask cfg p).testBit i <;> cases cfg.XSTATE_XSAVES_ONLY.testBit i <;> rfl

/-- C23: for a policy with `basic.xsave` set and a component index `i` from 2
up to the end of the loop, `recalculate_xstate` leaves in `comp[i]` the size
and offset of the component and its `xss` and `align` flags when bit `i` is in
the final enabled mask, and leaves the entry all-zero otherwise; the component
loop does not write entries 0 and 1. -/
theorem recalculate_xstate_components (cfg : Config) (env : Env) (p : cpuid_policy)
    (hx : p.basic.xsave cfg = true) :
    (∀ i, 2 ≤ i → i < min 63 cfg.CPUID_GUEST_NR_XSTATE →
      (recalculate_xstate cfg env p).xstate.raw i =
        if (spec_final_mask cfg p).testBit i then
          comp_write EMPTY_LEAF (env.xstate_sizes i) (env.xstate_offsets i)
            (cfg.XSTATE_XSAVES_ONLY.testBit i) (env.xstate_align.testBit i)
        else EMPTY_LEAF) ∧
    (∀ (xstates : Nat) (x : Nat → cpuid_leaf) (j : Nat), j < 2 →
      recalculate_xstate.comp cfg env xstates x j = x j) := by
  refine ⟨?_, fun xstates x j hj => comp_low cfg env xstates x j hj⟩
  intro i h2 hi
  have h0 : i ≠ 0 := by omega
  have h1 : i ≠ 1 := by omega
  unfold recalculate_xstate
  dsimp only
  simp only [hx, Bool.not_true, Bool.false_eq_true, if_false, features_eq_spec,
    spec_enabled_mask_zeroed, spec_area_size_zeroed]
  have hs : xstate_t.xsaves cfg ⟨upd (upd (fun _ => EMPTY_LEAF) 0 (fun l =>
      { l with c := spec_area_size cfg env p,
               a := (spec_enabled_mask cfg p &&& not64 cfg.XSTATE_XSAVES_ONLY) % 2 ^ 32,
               d := ((spec_enabled_mask cfg p &&& not64 cfg.XSTATE_XSAVES_ONLY) >>> 32) %
                 2 ^ 32 })) 1 (fun l => { l with a := p.xstate.Da1 })⟩ = p.xstate.xsaves cfg := by
    simp [xstate_t.xsaves, xstate_t.Da1, upd]
  rw [hs, comp_at cfg env _ _ i h2 hi, comp_step_at, final_mask_bit cfg p i (by omega)]
  cases p.xstate.xsaves cfg <;> simp [upd, h0, h1]

set_option maxRecDepth 100000 in
/-- Witness for C23: component 2 (YMM) of the sample host policy. -/
theorem recalculate_xstate_components_witness :
    booted_env.host_policy.basic.xsave sample_cfg = true ∧
    (spec_final_mask sample_cfg booted_env.host_policy).testBit 2 = true ∧
    (recalculate_xstate sample_cfg booted_env booted_env.host_policy).xstate.raw 2 =
      ⟨64, 128, 0, 0⟩ ∧
    (recalculate_xstate sample_cfg booted_env booted_env.host_policy).xstate.raw 2 =
      if (spec_final_mask sample_cfg booted_env.host_policy).testBit 2 then
        comp_write EMPTY_LEAF (booted_env.xstate_sizes 2) (booted_env.xstate_offsets 2)
          (sample_cfg.XSTATE_XSAVES_ONLY.testBit 2) (booted_env.xstate_align.testBit 2)
      else EMPTY_LEAF :=
  ⟨by decide, by decide, by decide,
    (recalculate_xstate_components sample_cfg booted_env booted_env.host_policy
      (by decide)).1 2 (by decide) (by decide)⟩

/-! ## The structured leaves 7 and 0xd of `guest_cpuid` -/

theorem first_leaf7 (cfg : Config) (env : Env) (v subleaf : Nat) :
    guest_cpuid.first cfg env v 0x7 subleaf =
      if 0x7 ≤ cfg.CPUID_GUEST_NR_BASIC - 1 ∧
          0x7 ≤ (env.vcpus v).domain.cpuid.basic.max_leaf ∧
          subleaf ≤ (env.vcpus v).domain.cpuid.feat.max_subleaf then
        if cfg.CPUID_GUEST_NR_FEAT ≤ subleaf then .bug
        else .brk ((env.vcpus v).domain.cpuid.feat.raw subleaf)
      else .ret EMPTY_LEAF := by
  unfold guest_cpuid.first
  dsimp only
  by_cases hb : 7 ≤ cfg.CPUID_GUEST_NR_BASIC - 1
  · rw [if_pos hb]
    by_cases hm : 7 ≤ (env.vcpus v).domain.cpuid.basic.max_leaf
    · rw [if_neg (by omega : ¬ 7 > (env.vcpus v).domain.cpuid.basic.max_leaf), if_pos rfl]
      by_cases hs : subleaf ≤ (env.vcpus v).domain.cpuid.feat.max_subleaf
      · rw [if_neg (by omega : ¬ subleaf > (env.vcpus v).domain.cpuid.feat.max_subleaf),
          if_pos (⟨hb, hm, hs⟩ : 7 ≤ cfg.CPUID_GUEST_NR_BASIC - 1 ∧
            7 ≤ (env.vcpus v).domain.cpuid.basic.max_leaf ∧
            subleaf ≤ (env.vcpus v).domain.cpuid.feat.max_subleaf)]
      · rw [if_pos (by omega : subleaf > (env.vcpus v).domain.cpuid.feat.max_subleaf),
          if_neg (fun h => hs h.2.2)]
    · rw [if_pos (by omega : 7 > (env.vcpus v).domain.cpuid.basic.max_leaf),
        if_neg (fun h => hm h.2.1)]
  · rw [if_neg hb, if_neg (by omega : ¬ (0x40000000 ≤ 7 ∧ 7 ≤ 0x400000ff)),
      if_neg (by omega : ¬ (0x40000100 ≤ 7 ∧ 7 ≤ 0x400001ff)),
      if_neg (by omega : ¬ (0x80000000 ≤ 7 ∧ 7 ≤ 0x80000000 + cfg.CPUID_GUEST_NR_EXTD - 1)),
      if_neg (fun h => hb h.1)]

theorem first_xstate (cfg : Config) (env : Env) (v subleaf : Nat) :
    guest_cpuid.first cfg env v XSTATE_CPUID subleaf =
      if XSTATE_CPUID ≤ cfg.CPUID_GUEST_NR_BASIC - 1 ∧
          XSTATE_CPUID ≤ (env.vcpus v).domain.cpuid.basic.max_leaf ∧
          (env.vcpus v).domain.cpuid.basic.xsave cfg = true ∧
          subleaf < cfg.CPUID_GUEST_NR_XSTATE then
        .brk ((env.vcpus v).domain.cpuid.xstate.raw subleaf)
      else .ret EMPTY_LEAF := by
  unfold guest_cpuid.first
  dsimp only
  have h7 : ¬ XSTATE_CPUID = 7 := by decide
  by_cases hb : XSTATE_CPUID ≤ cfg.CPUID_GUEST_NR_BASIC - 1
  · rw [if_pos hb]
    by_cases hm : XSTATE_CPUID ≤ (env.vcpus v).domain.cpuid.basic.max_leaf
    · rw [if_neg (by omega : ¬ XSTATE_CPUID > (env.vcpus v).domain.cpuid.basic.max_leaf),
        if_neg h7, if_pos rfl]
      by_cases hx : (env.vcpus v).domain.cpuid.basic.xsave cfg = true
      · by_cases hs : subleaf < cfg.CPUID_GUEST_NR_XSTATE
        · rw [if_neg (by simp [hx]; omega), if_pos ⟨hb, hm, hx, hs⟩]
        · rw [if_pos (by simp [hx]; omega), if_neg (fun h => hs h.2.2.2)]
      · rw [if_pos (by simp [hx]), if_neg (fun h => hx h.2.2.1)]
    · rw [if_pos (by omega : XSTATE_CPUID > (env.vcpus v).domain.cpuid.basic.max_leaf),
        if_neg (fun h => hm h.2.1)]
  · rw [if_neg hb, if_neg (by decide : ¬ (0x40000000 ≤ XSTATE_CPUID ∧ XSTATE_CPUID ≤ 0x400000ff)),
      if_neg (by decide : ¬ (0x40000100 ≤ XSTATE_CPUID ∧ XSTATE_CPUID ≤ 0x400001ff)),
      if_neg (by unfold XSTATE_CPUID; omega : ¬ (0x80000000 ≤ XSTATE_CPUID ∧
        XSTATE_CPUID ≤ 0x80000000 + cfg.CPUID_GUEST_NR_EXTD - 1)),
      if_neg (fun h => hb h.1)]

theorem pv_cpuid_unreachable (cfg : Config) (env : Env) (leaf subleaf : Nat) (res : cpuid_leaf)
    (h : leaf = 0x7 ∨ leaf = XSTATE_CPUID) : pv_cpuid cfg env leaf subleaf res = none := by
  unfold pv_cpuid
  rcases h with h | h <;> subst h <;> simp [XSTATE_CPUID]

theorem hvm_cpuid_unreachable (cfg : Config) (env : Env) (leaf subleaf : Nat) (res : cpuid_leaf)
    (h : leaf = 0x7 ∨ leaf = XSTATE_CPUID) : hvm_cpuid cfg env leaf subleaf res = none := by
  unfold hvm_cpuid
  rcases h with h | h <;> subst h <;> simp [XSTATE_CPUID]

theorem guest_cpuid_of_not_legacy (cfg : Config) (env : Env) (v leaf subleaf : Nat)
    (h : guest_cpuid.first cfg env v leaf subleaf ≠ .legacy) :
    guest_cpuid cfg env v leaf subleaf =
      match guest_cpuid.first cfg env v leaf subleaf with
      | .ret res => some res
      | .brk res =>
        some (if v ≠ env.current then res else guest_cpuid.second cfg env v leaf subleaf res)
      | _ => none := by
  unfold guest_cpuid
  cases hf : guest_cpuid.first cfg env v leaf subleaf with
  | ret res => rfl
  | brk res => dsimp only; split_ifs <;> rfl
  | bug => rfl
  | legacy => exact absurd hf h

/-- C25: leaves 7 and 0xd never take the legacy path of `guest_cpuid`: for
every vcpu and subleaf the first pass answers them with the all-zero leaf or
the stored entry of the structured policy (or stops at the `BUG_ON` on the
`feat.raw` bound), so `hvm_cpuid` and `pv_cpuid`, whose `ASSERT_UNREACHABLE`
these leaves would hit, are not called on them. -/
theorem guest_cpuid_structured_never_legacy (cfg : Config) (env : Env) (v subleaf : Nat) :
    (guest_cpuid.first cfg env v 0x7 subleaf = .ret EMPTY_LEAF ∨
      guest_cpuid.first cfg env v 0x7 subleaf =
        .brk ((env.vcpus v).domain.cpuid.feat.raw subleaf) ∨
      guest_cpuid.first cfg env v 0x7 subleaf = .bug) ∧
    (guest_cpuid.first cfg env v XSTATE_CPUID subleaf = .ret EMPTY_LEAF ∨
      guest_cpuid.first cfg env v XSTATE_CPUID subleaf =
        .brk ((env.vcpus v).domain.cpuid.xstate.raw subleaf)) ∧
    guest_cpuid.first cfg env v 0x7 subleaf ≠ .legacy ∧
    guest_cpuid.first cfg env v XSTATE_CPUID subleaf ≠ .legacy ∧
    (∀ leaf, leaf = 0x7 ∨ leaf = XSTATE_CPUID →
      guest_cpuid cfg env v leaf subleaf =
        match guest_cpuid.first cfg env v leaf subleaf with
        | .ret res => some res
        | .brk res =>
          some (if v ≠ env.current then res
            else guest_cpuid.second cfg env v leaf subleaf res)
        | _ => none) ∧
    (∀ res, hvm_cpuid cfg env 0x7 subleaf res = none ∧ pv_cpuid cfg env 0x7 subleaf res = none ∧
      hvm_cpuid cfg env XSTATE_CPUID subleaf res = none ∧
      pv_cpuid cfg env XSTATE_CPUID subleaf res = none) := by
  have h7 : guest_cpuid.first cfg env v 0x7 subleaf = .ret EMPTY_LEAF ∨
      guest_cpuid.first cfg env v 0x7 subleaf =
        .brk ((env.vcpus v).domain.cpuid.feat.raw subleaf) ∨
      guest_cpuid.first cfg env v 0x7 subleaf = .bug := by
    rw [first_leaf7]
    split_ifs
    · exact Or.inr (Or.inr rfl)
    · exact Or.inr (Or.inl rfl)
    · exact Or.inl rfl
  have hd : guest_cpuid.first cfg env v XSTATE_CPUID subleaf = .ret EMPTY_LEAF ∨
      guest_cpuid.first cfg env v XSTATE_CPUID subleaf =
        .brk ((env.vcpus v).domain.cpuid.xstate.raw subleaf) := by
    rw [first_xstate]
    split_ifs
    · exact Or.inr rfl
    · exact Or.inl rfl
  have n7 : guest_cpuid.first cfg env v 0x7 subleaf ≠ .legacy := by
    intro hc
    rw [hc] at h7
    rcases h7 with h | h | h <;> cases h
  have nd : guest_cpuid.first cfg env v XSTATE_CPUID subleaf ≠ .legacy := by
    intro hc
    rw [hc] at hd
    rcases hd with h | h <;> cases h
  refine ⟨h7, hd, n7, nd, ?_, ?_⟩
  · intro leaf hl
    rcases hl with hl | hl <;> subst hl
    · exact guest_cpuid_of_not_legacy cfg env v _ subleaf n7
    · exact guest_cpuid_of_not_legacy cfg env v _ subleaf nd
  · intro res
    exact ⟨hvm_cpuid_unreachable cfg env _ _ _ (Or.inl rfl),
      pv_cpuid_unreachable cfg env _ _ _ (Or.inl rfl),
      hvm_cpuid_unreachable cfg env _ _ _ (Or.inr rfl),
      pv_cpuid_unreachable cfg env _ _ _ (Or.inr rfl)⟩

set_option maxRecDepth 100000 in
/-- Witness for C25: leaves 7 and 0xd, subleaf 0, for the sample guest. -/
theorem guest_cpuid_structured_never_legacy_witness :
    guest_cpuid.first sample_cfg guest_env 0 0x7 0 ≠ .legacy ∧
    guest_cpuid.first sample_cfg guest_env 0 XSTATE_CPUID 0 ≠ .legacy ∧
    guest_cpuid sample_cfg guest_env 0 0x7 0 =
      match guest_cpuid.first sample_cfg guest_env 0 0x7 0 with
      | .ret res => some res
      | .brk res =>
        some (if 0 ≠ guest_env.current then res
          else guest_cpuid.second sample_cfg guest_env 0 0x7 0 res)
      | _ => none :=
  ⟨(guest_cpuid_structured_never_legacy sample_cfg guest_env 0 0).2.2.1,
   (guest_cpuid_structured_never_legacy sample_cfg guest_env 0 0).2.2.2.1,
   (guest_cpuid_structured_never_legacy sample_cfg guest_env 0 0).2.2.2.2.1 0x7 (Or.inl rfl)⟩

/-- C27: for the executing vcpu and a query on leaf 0xd that is in range on a
policy with XSAVE, `guest_cpuid` returns the stored entry `xstate.raw[subleaf]`
with EBX read from hardware for subleaf 0, and for subleaf 1 when the policy has
XSAVES; for subleaf 1 without XSAVES and for every subleaf from 2 the stored
entry is returned as it is.  EAX, ECX and EDX are those of the stored entry. -/
theorem guest_cpuid_xstate_dynamic (cfg : Config) (env : Env) (v subleaf : Nat)
    (hv : v = env.current)
    (hb : XSTATE_CPUID ≤ cfg.CPUID_GUEST_NR_BASIC - 1)
    (hm : XSTATE_CPUID ≤ (env.vcpus v).domain.cpuid.basic.max_leaf)
    (hx : (env.vcpus v).domain.cpuid.basic.xsave cfg = true)
    (hs : subleaf < cfg.CPUID_GUEST_NR_XSTATE) :
    guest_cpuid cfg env v XSTATE_CPUID subleaf =
      some (if subleaf = 0 then
          { (env.vcpus v).domain.cpuid.xstate.raw 0 with b := cpuid_count_ebx env XSTATE_CPUID 0 }
        else if subleaf = 1 then
          if (env.vcpus v).domain.cpuid.xstate.xsaves cfg then
            { (env.vcpus v).domain.cpuid.xstate.raw 1 with
              b := cpuid_count_ebx env XSTATE_CPUID 1 }
          else (env.vcpus v).domain.cpuid.xstate.raw 1
        else (env.vcpus v).domain.cpuid.xstate.raw subleaf) ∧
    ∃ res, guest_cpuid cfg env v XSTATE_CPUID subleaf = some res ∧
      res.a = ((env.vcpus v).domain.cpuid.xstate.raw subleaf).a ∧
      res.c = ((env.vcpus v).domain.cpuid.xstate.raw subleaf).c ∧
      res.d = ((env.vcpus v).domain.cpuid.xstate.raw subleaf).d := by
  have hf : guest_cpuid.first cfg env v XSTATE_CPUID subleaf =
      .brk ((env.vcpus v).domain.cpuid.xstate.raw subleaf) := by
    rw [first_xstate, if_pos ⟨hb, hm, hx, hs⟩]
  have h7 : ¬ XSTATE_CPUID = 7 := by decide
  have hres : guest_cpuid cfg env v XSTATE_CPUID subleaf =
      some (if subleaf = 0 then
          { (env.vcpus v).domain.cpuid.xstate.raw 0 with b := cpuid_count_ebx env XSTATE_CPUID 0 }
        else if subleaf = 1 then
          if (env.vcpus v).domain.cpuid.xstate.xsaves cfg then
            { (env.vcpus v).domain.cpuid.xstate.raw 1 with
              b := cpuid_count_ebx env XSTATE_CPUID 1 }
          else (env.vcpus v).domain.cpuid.xstate.raw 1
        else (env.vcpus v).domain.cpuid.xstate.raw subleaf) := by
    rw [guest_cpuid_of_not_legacy cfg env v _ _ (by rw [hf]; exact fun h => by cases h), hf]
    dsimp only
    rw [if_neg (not_not.2 hv)]
    unfold guest_cpuid.second
    dsimp only
    rw [if_neg h7, if_pos rfl]
    by_cases h0 : subleaf = 0
    · subst h0
      rw [if_neg (by decide : ¬ (0 : Nat) = 1), if_pos rfl, if_pos rfl]
    · by_cases h1 : subleaf = 1
      · subst h1
        rw [if_pos rfl, if_neg h0, if_pos rfl]
      · rw [if_neg h1, if_neg h0, if_neg h0, if_neg h1]
  refine ⟨hres, _, hres, ?_, ?_, ?_⟩
  all_goals
    by_cases h0 : subleaf = 0
    · subst h0; rfl
    · by_cases h1 : subleaf = 1
      · subst h1
        rw [if_neg h0, if_pos rfl]
        split_ifs <;> rfl
      · rw [if_neg h0, if_neg h1]

set_option maxRecDepth 100000 in
/-- Witness for C27: subleaf 0 for the sample guest on hardware that reports
0x240 in EBX of leaf 0xd, subleaf 0; the stored entry has EBX zero. -/
theorem guest_cpuid_xstate_dynamic_witness :
    (0 : Nat) = xsave_hw_env.current ∧
    (xsave_hw_env.vcpus 0).domain.cpuid.xstate.raw 0 = ⟨7, 0, 576, 0⟩ ∧
    guest_cpuid sample_cfg xsave_hw_env 0 XSTATE_CPUID 0 = some ⟨7, 0x240, 576, 0⟩ ∧
    guest_cpuid sample_cfg xsave_hw_env 0 XSTATE_CPUID 0 =
      some (if (0 : Nat) = 0 then
          { (xsave_hw_env.vcpus 0).domain.cpuid.xstate.raw 0 with
            b := cpuid_count_ebx xsave_hw_env XSTATE_CPUID 0 }
        else if (0 : Nat) = 1 then
          if (xsave_hw_env.vcpus 0).domain.cpuid.xstate.xsaves sample_cfg then
            { (xsave_hw_env.vcpus 0).domain.cpuid.xstate.raw 1 with
              b := cpuid_count_ebx xsave_hw_env XSTATE_CPUID 1 }
          else (xsave_hw_env.vcpus 0).domain.cpuid.xstate.raw 1
        else (xsave_hw_env.vcpus 0).domain.cpuid.xstate.raw 0) :=
  ⟨by decide, by decide, by decide,
    (guest_cpuid_xstate_dynamic sample_cfg xsave_hw_env 0 0 (by decide) (by decide) (by decide)
      (by decide) (by decide)).1⟩

set_option maxRecDepth 100000 in
/-- C26: evaluation of the code where the claim fails.  The sample HVM guest
has the APIC bit (bit 9) set in `basic._1d` = 0x17cbfbff and its virtual local
APIC is hardware-disabled; `guest_cpuid` for leaf 1 returns EDX = 0x17c9fbf6,
with bit 9 still set and bits 0 and 3 cleared: `hvm_cpuid` masks EDX with
`~cpufeat_bit(X86_FEATURE_APIC)` = `~9` where the mask of the feature was
meant (bit 17, PSE36, is cleared by the shadow-paging adjustment). -/
theorem guest_cpuid_apic_not_cleared :
    (apic_off_env.vcpus 0).vlapic_hw_disabled = true ∧
    (apic_off_env.vcpus 0).domain.is_hvm_domain = true ∧
    cpufeat_bit sample_cfg.X86_FEATURE_APIC = 9 ∧
    (apic_off_env.vcpus 0).domain.cpuid.basic._1d = 0x17cbfbff ∧
    ∃ res, guest_cpuid sample_cfg apic_off_env 0 1 0 = some res ∧ res.d = 0x17c9fbf6 ∧
      res.d.testBit 9 = true ∧ res.d.testBit 0 = false ∧ res.d.testBit 3 = false := by
  refine ⟨by decide, by decide, by decide, by decide, ⟨0, 0, 4160238083, 0x17c9fbf6⟩,
    by decide, rfl, by decide, by decide, by decide⟩

/-! ## The recorded maxima -/

theorem to_policy_maxima (cfg : Config) (fs : List Nat) (p : cpuid_policy) :
    (cpuid_featureset_to_policy cfg fs p).basic.max_leaf = p.basic.max_leaf ∧
    (cpuid_featureset_to_policy cfg fs p).feat.max_subleaf = p.feat.max_subleaf ∧
    (cpuid_featureset_to_policy cfg fs p).extd.max_leaf = p.extd.max_leaf := by
  simp [cpuid_featureset_to_policy, basic_t.max_leaf, feat_t.max_subleaf, extd_t.max_leaf, upd]

theorem rebuilt_maxima (cfg : Config) (env : Env) (fs : List Nat) (p : cpuid_policy) :
    (recalculate_xstate cfg env (cpuid_featureset_to_policy cfg fs p)).basic.max_leaf =
      p.basic.max_leaf ∧
    (recalculate_xstate cfg env (cpuid_featureset_to_policy cfg fs p)).feat.max_subleaf =
      p.feat.max_subleaf ∧
    (recalculate_xstate cfg env (cpuid_featureset_to_policy cfg fs p)).extd.max_leaf =
      p.extd.max_leaf := by
  obtain ⟨f1, f2, f3, _⟩ := recalculate_xstate_frame cfg env (cpuid_featureset_to_policy cfg fs p)
  obtain ⟨g1, g2, g3⟩ := to_policy_maxima cfg fs p
  rw [f1, f2, f3]
  exact ⟨g1, g2, g3⟩

theorem maxima_fields (env : Env) (d : domain) :
    (recalculate_cpuid_policy.maxima env d).basic.max_leaf =
      min d.cpuid.basic.max_leaf (recalculate_cpuid_policy.max env d).basic.max_leaf ∧
    (recalculate_cpuid_policy.maxima env d).feat.max_subleaf =
      min d.cpuid.feat.max_subleaf (recalculate_cpuid_policy.max env d).feat.max_subleaf ∧
    (recalculate_cpuid_policy.maxima env d).extd.max_leaf =
      min d.cpuid.extd.max_leaf (recalculate_cpuid_policy.max env d).extd.max_leaf := by
  simp [recalculate_cpuid_policy.maxima, cpuid_policy.set_basic_max_leaf,
    cpuid_policy.set_feat_max_subleaf, cpuid_policy.set_extd_max_leaf, basic_t.max_leaf,
    feat_t.max_subleaf, extd_t.max_leaf, upd]

theorem host_maxima (cfg : Config) (env : Env) :
    (calculate_host_policy cfg env).basic.max_leaf ≤ cfg.CPUID_GUEST_NR_BASIC - 1 ∧
    (calculate_host_policy cfg env).feat.max_subleaf ≤ cfg.CPUID_GUEST_NR_FEAT - 1 ∧
    (calculate_host_policy cfg env).extd.max_leaf ≤
      0x80000000 + cfg.CPUID_GUEST_NR_EXTD - 1 := by
  unfold calculate_host_policy
  dsimp only
  obtain ⟨r1, r2, r3⟩ := rebuilt_maxima cfg env env.x86_capability
    (((env.raw_policy.set_basic_max_leaf
      (min env.raw_policy.basic.max_leaf ((cfg.CPUID_GUEST_NR_BASIC - 1) % 2 ^ 32))).set_feat_max_subleaf
      (min (env.raw_policy.set_basic_max_leaf
        (min env.raw_policy.basic.max_leaf
          ((cfg.CPUID_GUEST_NR_BASIC - 1) % 2 ^ 32))).feat.max_subleaf
        ((cfg.CPUID_GUEST_NR_FEAT - 1) % 2 ^ 32))).set_extd_max_leaf
      (min ((env.raw_policy.set_basic_max_leaf
        (min env.raw_policy.basic.max_leaf
          ((cfg.CPUID_GUEST_NR_BASIC - 1) % 2 ^ 32))).set_feat_max_subleaf
        (min (env.raw_policy.set_basic_max_leaf
          (min env.raw_policy.basic.max_leaf
            ((cfg.CPUID_GUEST_NR_BASIC - 1) % 2 ^ 32))).feat.max_subleaf
          ((cfg.CPUID_GUEST_NR_FEAT - 1) % 2 ^ 32))).extd.max_leaf
        ((0x80000000 + cfg.CPUID_GUEST_NR_EXTD - 1) % 2 ^ 32)))
  rw [r1, r2, r3]
  simp only [cpuid_policy.set_basic_max_leaf, cpuid_policy.set_feat_max_subleaf,
    cpuid_policy.set_extd_max_leaf, basic_t.max_leaf, feat_t.max_subleaf, extd_t.max_leaf, upd,
    if_true]
  refine ⟨?_, ?_, ?_⟩
  · exact le_trans (min_le_right _ _) (Nat.mod_le _ _)
  · exact le_trans (min_le_right _ _) (Nat.mod_le _ _)
  · exact le_trans (min_le_right _ _) (Nat.mod_le _ _)

theorem pv_max_maxima (cfg : Config) (hC : cfg.deps_complete) (env : Env) :
    ∃ p, calculate_pv_max_policy cfg env = some p ∧
      p.basic.max_leaf = env.host_policy.basic.max_leaf ∧
      p.feat.max_subleaf = env.host_policy.feat.max_subleaf ∧
      p.extd.max_leaf = env.host_policy.extd.max_leaf := by
  obtain ⟨out, hrun, _⟩ := sanitise_narrow cfg hC (calculate_pv_max_policy.featureset cfg env)
  refine ⟨recalculate_xstate cfg env (cpuid_featureset_to_policy cfg out env.host_policy),
    by unfold calculate_pv_max_policy; simp only [hrun], ?_⟩
  exact rebuilt_maxima cfg env out env.host_policy

theorem hvm_max_maxima (cfg : Config) (hC : cfg.deps_complete) (env : Env) :
    ∃ p, calculate_hvm_max_policy cfg env = some p ∧
      (env.hvm_enabled = true →
        p.basic.max_leaf = env.host_policy.basic.max_leaf ∧
        p.feat.max_subleaf = env.host_policy.feat.max_subleaf ∧
        p.extd.max_leaf = env.host_policy.extd.max_leaf) := by
  obtain ⟨out, hrun, _⟩ := sanitise_narrow cfg hC (calculate_hvm_max_policy.featureset cfg env)
  by_cases he : env.hvm_enabled = true
  · refine ⟨recalculate_xstate cfg env (cpuid_featureset_to_policy cfg out env.host_policy),
      by unfold calculate_hvm_max_policy; simp only [he, hrun, Bool.not_true,
        Bool.false_eq_true, if_false], ?_⟩
    intro _
    exact rebuilt_maxima cfg env out env.host_policy
  · refine ⟨env.hvm_max_policy, by unfold calculate_hvm_max_policy; simp [he], ?_⟩
    intro h
    exact absurd h he

theorem init_guest_cpuid_maxima (cfg : Config) (hC : cfg.deps_complete) (env0 : Env) :
    ∃ env, init_guest_cpuid cfg env0 = some env ∧
      env.host_policy = calculate_host_policy cfg
        { env0 with raw_policy := calculate_raw_policy cfg env0 } ∧
      env.pv_max_policy.feat.max_subleaf = env.host_policy.feat.max_subleaf ∧
      (env0.hvm_enabled = true →
        env.hvm_max_policy.feat.max_subleaf = env.host_policy.feat.max_subleaf) := by
  obtain ⟨pv, hpv, _, hpvm, _⟩ := pv_max_maxima cfg hC
    { { env0 with raw_policy := calculate_raw_policy cfg env0 } with
      host_policy := calculate_host_policy cfg
        { env0 with raw_policy := calculate_raw_policy cfg env0 } }
  obtain ⟨hvm, hhvm, hhvmm⟩ := hvm_max_maxima cfg hC
    { { { env0 with raw_policy := calculate_raw_policy cfg env0 } with
      host_policy := calculate_host_policy cfg
        { env0 with raw_policy := calculate_raw_policy cfg env0 } } with
      pv_max_policy := pv }
  have key : init_guest_cpuid cfg env0 =
      match calculate_pv_max_policy cfg
        { { env0 with raw_policy := calculate_raw_policy cfg env0 } with
          host_policy := calculate_host_policy cfg
            { env0 with raw_policy := calculate_raw_policy cfg env0 } } with
      | none => none
      | some pv =>
        match calculate_hvm_max_policy cfg
          { { { env0 with raw_policy := calculate_raw_policy cfg env0 } with
            host_policy := calculate_host_policy cfg
              { env0 with raw_policy := calculate_raw_policy cfg env0 } } with
            pv_max_policy := pv } with
        | none => none
        | some hvm =>
          some { { { { env0 with raw_policy := calculate_raw_policy cfg env0 } with
            host_policy := calculate_host_policy cfg
              { env0 with raw_policy := calculate_raw_policy cfg env0 } } with
            pv_max_policy := pv } with hvm_max_policy := hvm } := rfl
  rw [key, hpv]
  dsimp only
  rw [hhvm]
  exact ⟨_, rfl, rfl, hpvm, fun h => (hhvmm h).2.1⟩

theorem recalculate_maxima (cfg : Config) (hC : cfg.deps_complete) (env : Env) (d : domain) :
    ∃ d', recalculate_cpuid_policy cfg env d = some d' ∧
      d'.cpuid.basic.max_leaf =
        min d.cpuid.basic.max_leaf (recalculate_cpuid_policy.max env d).basic.max_leaf ∧
      d'.cpuid.feat.max_subleaf =
        min d.cpuid.feat.max_subleaf (recalculate_cpuid_policy.max env d).feat.max_subleaf ∧
      d'.cpuid.extd.max_leaf =
        min d.cpuid.extd.max_leaf (recalculate_cpuid_policy.max env d).extd.max_leaf := by
  obtain ⟨out, _, _, hrec⟩ := recalculate_cpuid_policy_eq cfg hC env d
  obtain ⟨r1, r2, r3⟩ := rebuilt_maxima cfg env (recalculate_cpuid_policy.fold cfg env out)
    (recalculate_cpuid_policy.maxima env d)
  obtain ⟨m1, m2, m3⟩ := maxima_fields env d
  exact ⟨_, hrec, r1.trans m1, r2.trans m2, r3.trans m3⟩

theorem leaf7_no_bug (cfg : Config) (e : Env) (v subleaf : Nat)
    (h : (e.vcpus v).domain.cpuid.feat.max_subleaf < cfg.CPUID_GUEST_NR_FEAT) :
    guest_cpuid.first cfg e v 0x7 subleaf ≠ .bug ∧
    (guest_cpuid cfg e v 0x7 subleaf).isSome = true := by
  have hf := first_leaf7 cfg e v subleaf
  by_cases hr : 0x7 ≤ cfg.CPUID_GUEST_NR_BASIC - 1 ∧
      0x7 ≤ (e.vcpus v).domain.cpuid.basic.max_leaf ∧
      subleaf ≤ (e.vcpus v).domain.cpuid.feat.max_subleaf
  · rw [if_pos hr, if_neg (by omega : ¬ cfg.CPUID_GUEST_NR_FEAT ≤ subleaf)] at hf
    have hnb : guest_cpuid.first cfg e v 0x7 subleaf ≠ .bug := by
      rw [hf]; intro h; cases h
    have hnl : guest_cpuid.first cfg e v 0x7 subleaf ≠ .legacy := by
      rw [hf]; intro h; cases h
    refine ⟨hnb, ?_⟩
    rw [guest_cpuid_of_not_legacy cfg e v _ _ hnl, hf]
    rfl
  · rw [if_neg hr] at hf
    have hnb : guest_cpuid.first cfg e v 0x7 subleaf ≠ .bug := by
      rw [hf]; intro h; cases h
    have hnl : guest_cpuid.first cfg e v 0x7 subleaf ≠ .legacy := by
      rw [hf]; intro h; cases h
    refine ⟨hnb, ?_⟩
    rw [guest_cpuid_of_not_legacy cfg e v _ _ hnl, hf]
    rfl

/-- C24: the recorded maxima stay within the capacity of the arrays.
`calculate_host_policy` leaves `basic.max_leaf`, `feat.max_subleaf` and
`extd.max_leaf` within the last index of `basic.raw`, `feat.raw` and `extd.raw`;
`recalculate_cpuid_policy` sets each maximum of the domain to the minimum of its
old value and that of the max policy; hence, after `init_guest_cpuid`, for a
domain recalculated against a max policy derived from the host policy (the PV
one, or the HVM one when HVM is enabled), `guest_cpuid` for leaf 7 returns for
every vcpu and subleaf without reaching the `BUG_ON` on the `feat.raw` bound. -/
theorem maxima_within_capacity (cfg : Config) (hC : cfg.deps_complete)
    (hF : 0 < cfg.CPUID_GUEST_NR_FEAT) (env0 : Env) :
    ((calculate_host_policy cfg env0).basic.max_leaf ≤ cfg.CPUID_GUEST_NR_BASIC - 1 ∧
      (calculate_host_policy cfg env0).feat.max_subleaf ≤ cfg.CPUID_GUEST_NR_FEAT - 1 ∧
      (calculate_host_policy cfg env0).extd.max_leaf ≤
        0x80000000 + cfg.CPUID_GUEST_NR_EXTD - 1) ∧
    (∀ d, ∃ d', recalculate_cpuid_policy cfg env0 d = some d' ∧
      d'.cpuid.basic.max_leaf =
        min d.cpuid.basic.max_leaf
          (if d.is_pv_domain then env0.pv_max_policy else env0.hvm_max_policy).basic.max_leaf ∧
      d'.cpuid.feat.max_subleaf =
        min d.cpuid.feat.max_subleaf
          (if d.is_pv_domain then env0.pv_max_policy
            else env0.hvm_max_policy).feat.max_subleaf ∧
      d'.cpuid.extd.max_leaf =
        min d.cpuid.extd.max_leaf
          (if d.is_pv_domain then env0.pv_max_policy else env0.hvm_max_policy).extd.max_leaf) ∧
    (∃ env, init_guest_cpuid cfg env0 = some env ∧
      ∀ d, d.is_pv_domain = true ∨ env0.hvm_enabled = true →
        ∃ d', recalculate_cpuid_policy cfg env d = some d' ∧
          d'.cpuid.feat.max_subleaf ≤ cfg.CPUID_GUEST_NR_FEAT - 1 ∧
          ∀ (e : Env) (v subleaf : Nat), (e.vcpus v).domain = d' →
            guest_cpuid.first cfg e v 0x7 subleaf ≠ .bug ∧
            (guest_cpuid cfg e v 0x7 subleaf).isSome = true) := by
  refine ⟨host_maxima cfg env0, fun d => recalculate_maxima cfg hC env0 d, ?_⟩
  obtain ⟨env, hinit, hhost, hpv, hhvm⟩ := init_guest_cpuid_maxima cfg hC env0
  refine ⟨env, hinit, ?_⟩
  intro d hd
  obtain ⟨d', hrec, _, hfeat, _⟩ := recalculate_maxima cfg hC env d
  have hh : env.host_policy.feat.max_subleaf ≤ cfg.CPUID_GUEST_NR_FEAT - 1 := by
    rw [hhost]; exact (host_maxima cfg _).2.1
  have hmax : (recalculate_cpuid_policy.max env d).feat.max_subleaf ≤
      cfg.CPUID_GUEST_NR_FEAT - 1 := by
    unfold recalculate_cpuid_policy.max
    by_cases hp : d.is_pv_domain = true
    · rw [if_pos hp, hpv]; exact hh
    · rw [if_neg hp, hhvm (hd.resolve_left hp)]; exact hh
  have hle : d'.cpuid.feat.max_subleaf ≤ cfg.CPUID_GUEST_NR_FEAT - 1 := by
    rw [hfeat]; exact le_trans (min_le_right _ _) hmax
  refine ⟨d', hrec, hle, ?_⟩
  intro e v subleaf hdom
  exact leaf7_no_bug cfg e v subleaf (by rw [hdom]; omega)

set_option maxRecDepth 100000 in
/-- Witness for C24: the sample environment and the sample HVM domain. -/
theorem maxima_within_capacity_witness :
    sample_cfg.deps_complete ∧ 0 < sample_cfg.CPUID_GUEST_NR_FEAT ∧
    ∃ env, init_guest_cpuid sample_cfg (sample_env (sample_vcpu (sample_domain zero_policy))) =
        some env ∧
      ∃ d', recalculate_cpuid_policy sample_cfg env (sample_domain env.hvm_max_policy) =
          some d' ∧
        d'.cpuid.feat.max_subleaf ≤ sample_cfg.CPUID_GUEST_NR_FEAT - 1 :=
  ⟨by decide, by decide,
    match (maxima_within_capacity sample_cfg (by decide) (by decide)
      (sample_env (sample_vcpu (sample_domain zero_policy)))).2.2 with
    | ⟨env, h1, h2⟩ =>
      ⟨env, h1,
        match h2 (sample_domain env.hvm_max_policy) (Or.inr rfl) with
        | ⟨d', h3, h4, _⟩ => ⟨d', h3, h4⟩⟩⟩

end Xen
